import Mathlib

/-!
# xaictl: SteelSeries XAI mouse configuration tool

A shallow embedding of `src/xaictl.c` and the properties of its field editor,
its synchronisation protocol and its device initialisation.

Conventions of the embedding

* C strings are `List Char` (the characters before the terminating NUL).
* `unsigned long` is 64 bits wide (LP64, the Linux targets of the sysfs code).
* `short` fields are `Int`, unsigned fields are `Nat`; casts are explicit.
* A 64-byte report is a `List Nat`; struct members are read and written at
  the byte offsets of the packed `struct xai_ll_message`.
* `fprintf` diagnostics and `usleep` have no effect on the modelled state and
  are left out.
-/

namespace Xaictl

/-! ## Constants (`#define`s of the source) -/

def XAI_MOUSE_PROFILE_NUM : Nat := 5
def XAI_MOUSE_BUTTON_NUM : Nat := 9

def XAI_MOUSE_CPI_MIN : Nat := 100
def XAI_MOUSE_CPI_MAX : Nat := 5001
def XAI_MOUSE_RATE_MIN : Nat := 125
def XAI_MOUSE_RATE_MAX : Nat := 1000
def XAI_MOUSE_ACCEL_MIN : Nat := 0
def XAI_MOUSE_ACCEL_MAX : Nat := 100
def XAI_MOUSE_LCD_BRIGHTNESS_MIN : Nat := 1
def XAI_MOUSE_LCD_BRIGHTNESS_MAX : Nat := 10
def XAI_MOUSE_LCD_CONTRAST_MIN : Nat := 1
def XAI_MOUSE_LCD_CONTRAST_MAX : Nat := 40
def XAI_MOUSE_FREEMOVE_MIN : Nat := 0
def XAI_MOUSE_FREEMOVE_MAX : Nat := 10
def XAI_MOUSE_AIM_MIN : Nat := 0
def XAI_MOUSE_AIM_MAX : Nat := 10

def XAI_MOUSE_LL_DATA_LENGTH : Nat := 64 - 6
def XAI_MOUSE_LL_SET_PROFILE_SETTINGS : Nat := 0x03
def XAI_MOUSE_LL_GET_PROFILE_SETTINGS : Nat := 0x04
def XAI_MOUSE_LL_SET_CURRENT_PROFILE : Nat := 0x0C
def XAI_MOUSE_LL_GET_CURRENT_PROFILE : Nat := 0x0D
def XAI_MOUSE_LL_PING_OR_ACK : Nat := 0x14
def XAI_MOUSE_LL_PONG_OR_RES : Nat := 0x15
def XAI_MOUSE_LL_SET_PROFILE_NAME : Nat := 0x17
def XAI_MOUSE_LL_GET_PROFILE_NAME : Nat := 0x1A
def XAI_MOUSE_LL_SAVE_TO_FLASH : Nat := 0x24

def PACKET_SIZE : Nat := 64
def PACKET_WRITE : Nat := 0
def PACKET_READ : Nat := 1

def RET_OK : Int := 0
def RET_ERROR_WRONG_PARAMETER : Int := -1
def RET_ERROR_NO_DEVICE_FOUND : Int := -2
def RET_ERROR_NO_PERMISSION : Int := -3
def RET_ERROR_SYSTEM : Int := -5
def RET_ERROR_BUS : Int := -4

def PROFILE_FIELD_MASK : Nat := 0x400000FF
def PROFILE_FIELD_NAME : Nat := 0x40000100
def PROFILE_FIELD_CPI1 : Nat := 0x40000200
def PROFILE_FIELD_CPI2 : Nat := 0x40000400
def PROFILE_FIELD_RATE : Nat := 0x40000800
def PROFILE_FIELD_AIM : Nat := 0x40001000
def PROFILE_FIELD_ACCEL : Nat := 0x40002000
def PROFILE_FIELD_FREEMOVE : Nat := 0x40004000
def PROFILE_FIELD_LCD_BRIGHTNESS : Nat := 0x40008000
def PROFILE_FIELD_LCD_CONTRAST : Nat := 0x40010000
def PROFILE_FIELD_BUTTON_1 : Nat := 0x40020000
def PROFILE_FIELD_BUTTON_2 : Nat := 0x40030000
def PROFILE_FIELD_BUTTON_3 : Nat := 0x40040000
def PROFILE_FIELD_BUTTON_4 : Nat := 0x40080000
def PROFILE_FIELD_BUTTON_5 : Nat := 0x40100000
def PROFILE_FIELD_BUTTON_6 : Nat := 0x40200000
def PROFILE_FIELD_BUTTON_7 : Nat := 0x40400000
def PROFILE_FIELD_BUTTON_8 : Nat := 0x40800000
def PROFILE_FIELD_BUTTON_9 : Nat := 0x41000000

/-! ## C library functions used by the field editor -/

/-- Largest `unsigned long` (64-bit). -/
def ULONG_MAX : Nat := 2 ^ 64 - 1

/-- The `(unsigned short)` cast. -/
def to_ushort (n : Nat) : Nat := n % 65536

/-- The `(short)` cast of an unsigned value (two's complement, 16 bits). -/
def to_short (n : Nat) : Int :=
  if n % 65536 < 32768 then ((n % 65536 : Nat) : Int) else ((n % 65536 : Nat) : Int) - 65536

/-- The `(unsigned char)` conversion. -/
def to_uchar (n : Nat) : Nat := n % 256

/-- C `isspace` in the "C" locale: space, and the controls 9 to 13. -/
def isspace (c : Char) : Bool := c.toNat == 32 || (9 ≤ c.toNat && c.toNat ≤ 13)

/-- C `tolower` in the "C" locale: only `A`..`Z` change. -/
def tolower (c : Char) : Char := c.toLower

/-- The digit loop of `strtoul` in base 10: consumes the leading decimal digits
and accumulates their value, starting from `acc`. -/
def strtoul_digits : Nat → List Char → Nat
  | acc, [] => acc
  | acc, c :: cs =>
    if c.isDigit then strtoul_digits (acc * 10 + (c.toNat - 48)) cs else acc

/-- ISO C `strtoul(s, NULL, 10)`: leading white space is skipped, one optional
sign is taken, then the longest run of decimal digits is converted.  A
magnitude above `ULONG_MAX` yields `ULONG_MAX`; after a minus sign the value is
negated in the return type (modulo `ULONG_MAX + 1`); no digits yield 0. -/
def strtoul (s : List Char) : Nat :=
  let s1 := s.dropWhile isspace
  let neg : Bool := match s1 with
    | c :: _ => c == '-'
    | [] => false
  let s2 := match s1 with
    | c :: t => if c == '-' || c == '+' then t else s1
    | [] => s1
  let v := strtoul_digits 0 s2
  if v > ULONG_MAX then ULONG_MAX
  else if neg then (ULONG_MAX + 1 - v) % (ULONG_MAX + 1)
  else v

/-- POSIX `strcasecmp`: compares the two strings byte by byte after `tolower`;
the end of a string counts as the NUL byte.  The result is the difference of
the first pair that differs, 0 when there is none. -/
def strcasecmp : List Char → List Char → Int
  | [], [] => 0
  | [], b :: _ => - ((tolower b).toNat : Int)
  | a :: _, [] => ((tolower a).toNat : Int)
  | a :: as, b :: bs =>
    if tolower a = tolower b then strcasecmp as bs
    else ((tolower a).toNat : Int) - ((tolower b).toNat : Int)

/-- The character `*(s + i)` of a C string: past the end it is the NUL byte. -/
def char_at (s : List Char) (i : Nat) : Char := s.getD i (Char.ofNat 0)

/-- A well-formed C string: no character before the terminator is NUL. -/
def cstr (s : List Char) : Prop := ∀ c ∈ s, c ≠ Char.ofNat 0

instance (s : List Char) : Decidable (cstr s) := by
  unfold cstr
  infer_instance

/-- Decimal numeral of an integer, as a user types it: the digits of the
magnitude, after a minus sign when the value is negative. -/
def decimal : Int → List Char
  | Int.ofNat m => Nat.toDigits 10 m
  | Int.negSucc m => '-' :: Nat.toDigits 10 (m + 1)

/-! ## Profile and field editor -/

/-- The C `struct xai_profile`. -/
structure xai_profile where
  fields : Nat
  name : List Nat
  rate : Int
  aim : Int
  accel : Int
  freemove : Int
  lcd_brightness : Int
  lcd_contrast : Int
  cpi : List Nat
  button : List Nat
  deriving DecidableEq, Repr

/-- The update after `memset(&newp, 0, sizeof(struct xai_profile))` in `main`. -/
def empty_profile : xai_profile :=
  { fields := 0, name := List.replicate 64 0, rate := 0, aim := 0, accel := 0,
    freemove := 0, lcd_brightness := 0, lcd_contrast := 0,
    cpi := [0, 0], button := List.replicate 9 0 }

/-- The presence test of `xai_profile_set_config`:
`(profile->fields & FIELD) == FIELD`. -/
def field_present (fields field : Nat) : Bool := (fields &&& field) == field

/-- The C function `button_setup_parse(user_input, value)`: the result pairs the
return code with the content of `*value` after the call. -/
def button_setup_parse (user_input : List Char) (value : Nat) : Int × Nat :=
  if strcasecmp user_input "disable".toList = 0 ||
      (char_at user_input 0 == 'd' && char_at user_input 1 == Char.ofNat 0) then
    (RET_OK, 13)
  else if strcasecmp user_input "left".toList = 0 ||
      (char_at user_input 0 == 'l' && char_at user_input 1 == Char.ofNat 0) then
    (RET_OK, 9)
  else if strcasecmp user_input "right".toList = 0 ||
      (char_at user_input 0 == 'r' && char_at user_input 1 == Char.ofNat 0) then
    (RET_OK, 10)
  else if strcasecmp user_input "middle".toList = 0 ||
      (char_at user_input 0 == 'm' && char_at user_input 1 == Char.ofNat 0) then
    (RET_OK, 6)
  else if strcasecmp user_input "wheelup".toList = 0 ||
      (char_at user_input 0 == 'u' && char_at user_input 1 == 'p' &&
        char_at user_input 2 == Char.ofNat 0) then
    (RET_OK, 11)
  else if strcasecmp user_input "wheeldown".toList = 0 ||
      (char_at user_input 0 == 'd' && char_at user_input 1 == 'w' &&
        char_at user_input 2 == Char.ofNat 0) then
    (RET_OK, 12)
  else if strcasecmp user_input "tiltleft".toList = 0 ||
      (char_at user_input 0 == 't' && char_at user_input 1 == 'l' &&
        char_at user_input 2 == Char.ofNat 0) then
    (RET_OK, 2)
  else if strcasecmp user_input "tiltright".toList = 0 ||
      (char_at user_input 0 == 't' && char_at user_input 1 == 'r' &&
        char_at user_input 2 == Char.ofNat 0) then
    (RET_OK, 3)
  else if strcasecmp user_input "ieforward".toList = 0 ||
      (char_at user_input 0 == 'f' && char_at user_input 1 == 'w' &&
        char_at user_input 2 == Char.ofNat 0) then
    (RET_OK, 4)
  else if strcasecmp user_input "iebackward".toList = 0 ||
      (char_at user_input 0 == 'b' && char_at user_input 1 == 'w' &&
        char_at user_input 2 == Char.ofNat 0) then
    (RET_OK, 5)
  else
    (-1, value)

/-- One `case PROFILE_FIELD_BUTTON_k:` arm of `xai_profile_change_req`, for the
button stored at index `i` of `p->button`: the role is parsed into
`p->button[i]` and the field is marked only when parsing succeeds. -/
def change_req_button (p : xai_profile) (i field : Nat) (arg : List Char) : xai_profile :=
  let r := button_setup_parse arg (p.button.getD i 0)
  if r.1 = RET_OK then
    { p with button := p.button.set i r.2, fields := p.fields ||| field }
  else p

/-- The C function `xai_profile_change_req(p, field, arg)`: the result pairs the
return code with the profile after the call. -/
def xai_profile_change_req (p0 : xai_profile) (field : Nat) (arg : List Char) :
    Int × xai_profile :=
  let p := { p0 with fields := p0.fields ||| PROFILE_FIELD_MASK }
  if field = PROFILE_FIELD_BUTTON_1 then (RET_OK, change_req_button p 0 field arg)
  else if field = PROFILE_FIELD_BUTTON_2 then (RET_OK, change_req_button p 1 field arg)
  else if field = PROFILE_FIELD_BUTTON_3 then (RET_OK, change_req_button p 2 field arg)
  else if field = PROFILE_FIELD_BUTTON_4 then (RET_OK, change_req_button p 3 field arg)
  else if field = PROFILE_FIELD_BUTTON_5 then (RET_OK, change_req_button p 4 field arg)
  else if field = PROFILE_FIELD_BUTTON_6 then (RET_OK, change_req_button p 5 field arg)
  else if field = PROFILE_FIELD_BUTTON_7 then (RET_OK, change_req_button p 6 field arg)
  else if field = PROFILE_FIELD_BUTTON_8 then (RET_OK, change_req_button p 7 field arg)
  else if field = PROFILE_FIELD_BUTTON_9 then (RET_OK, change_req_button p 8 field arg)
  else if field = PROFILE_FIELD_CPI1 then
    let n := strtoul arg
    if n ≥ XAI_MOUSE_CPI_MIN ∧ n ≤ XAI_MOUSE_CPI_MAX then
      (RET_OK, { p with cpi := p.cpi.set 0 (to_ushort n), fields := p.fields ||| field })
    else (RET_OK, p)
  else if field = PROFILE_FIELD_CPI2 then
    let n := strtoul arg
    if n ≥ XAI_MOUSE_CPI_MIN ∧ n ≤ XAI_MOUSE_CPI_MAX then
      (RET_OK, { p with cpi := p.cpi.set 1 (to_ushort n), fields := p.fields ||| field })
    else (RET_OK, p)
  else if field = PROFILE_FIELD_RATE then
    let n := strtoul arg
    if n ≥ XAI_MOUSE_RATE_MIN ∧ n ≤ XAI_MOUSE_RATE_MAX then
      (RET_OK, { p with rate := to_short n, fields := p.fields ||| field })
    else (RET_OK, p)
  else if field = PROFILE_FIELD_ACCEL then
    let n := strtoul arg
    if n ≥ XAI_MOUSE_ACCEL_MIN ∧ n ≤ XAI_MOUSE_ACCEL_MAX then
      (RET_OK, { p with accel := to_short n, fields := p.fields ||| field })
    else (RET_OK, p)
  else if field = PROFILE_FIELD_FREEMOVE then
    let n := strtoul arg
    if n ≥ XAI_MOUSE_FREEMOVE_MIN ∧ n ≤ XAI_MOUSE_FREEMOVE_MAX then
      (RET_OK, { p with freemove := to_short (0x64 + n * 5), fields := p.fields ||| field })
    else (RET_OK, p)
  else if field = PROFILE_FIELD_AIM then
    let n := strtoul arg
    if n ≥ XAI_MOUSE_AIM_MIN ∧ n ≤ XAI_MOUSE_AIM_MAX then
      (RET_OK, { p with aim := to_short (0x64 + n * 5), fields := p.fields ||| field })
    else (RET_OK, p)
  else if field = PROFILE_FIELD_LCD_BRIGHTNESS then
    let n := strtoul arg
    if n ≥ XAI_MOUSE_LCD_BRIGHTNESS_MIN ∧ n ≤ XAI_MOUSE_LCD_BRIGHTNESS_MAX then
      (RET_OK, { p with lcd_brightness := to_short n, fields := p.fields ||| field })
    else (RET_OK, p)
  else if field = PROFILE_FIELD_LCD_CONTRAST then
    let n := strtoul arg
    if n ≥ XAI_MOUSE_LCD_CONTRAST_MIN ∧ n ≤ XAI_MOUSE_LCD_CONTRAST_MAX then
      (RET_OK, { p with lcd_contrast := to_short n, fields := p.fields ||| field })
    else (RET_OK, p)
  else (RET_ERROR_WRONG_PARAMETER, p)

/-- The arithmetic `xai_profile_print` applies to `p->aim` and `p->freemove`
before printing them: `(v - 0x64) / 5` in C `int` arithmetic (truncating). -/
def print_unit (v : Int) : Int := (v - 0x64).tdiv 5

/-- The numeric fields of the editor with the `[min, max]` range of their
`case` arm: (field, minimum, maximum). -/
def numeric_fields : List (Nat × Nat × Nat) :=
  [ (PROFILE_FIELD_CPI1, XAI_MOUSE_CPI_MIN, XAI_MOUSE_CPI_MAX),
    (PROFILE_FIELD_CPI2, XAI_MOUSE_CPI_MIN, XAI_MOUSE_CPI_MAX),
    (PROFILE_FIELD_RATE, XAI_MOUSE_RATE_MIN, XAI_MOUSE_RATE_MAX),
    (PROFILE_FIELD_ACCEL, XAI_MOUSE_ACCEL_MIN, XAI_MOUSE_ACCEL_MAX),
    (PROFILE_FIELD_FREEMOVE, XAI_MOUSE_FREEMOVE_MIN, XAI_MOUSE_FREEMOVE_MAX),
    (PROFILE_FIELD_AIM, XAI_MOUSE_AIM_MIN, XAI_MOUSE_AIM_MAX),
    (PROFILE_FIELD_LCD_BRIGHTNESS, XAI_MOUSE_LCD_BRIGHTNESS_MIN, XAI_MOUSE_LCD_BRIGHTNESS_MAX),
    (PROFILE_FIELD_LCD_CONTRAST, XAI_MOUSE_LCD_CONTRAST_MIN, XAI_MOUSE_LCD_CONTRAST_MAX) ]

/-- The role table of `button_setup_parse`, in the order of its branches:
(full name, short alias, value stored in `*value`). -/
def button_roles : List (List Char × List Char × Nat) :=
  [ ("disable".toList, ['d'], 13),
    ("left".toList, ['l'], 9),
    ("right".toList, ['r'], 10),
    ("middle".toList, ['m'], 6),
    ("wheelup".toList, ['u', 'p'], 11),
    ("wheeldown".toList, ['d', 'w'], 12),
    ("tiltleft".toList, ['t', 'l'], 2),
    ("tiltright".toList, ['t', 'r'], 3),
    ("ieforward".toList, ['f', 'w'], 4),
    ("iebackward".toList, ['b', 'w'], 5) ]

/-- The button fields of the editor with the index of `p->button` that their
`case` arm writes: (field, index). -/
def button_fields : List (Nat × Nat) :=
  [ (PROFILE_FIELD_BUTTON_1, 0), (PROFILE_FIELD_BUTTON_2, 1), (PROFILE_FIELD_BUTTON_3, 2),
    (PROFILE_FIELD_BUTTON_4, 3), (PROFILE_FIELD_BUTTON_5, 4), (PROFILE_FIELD_BUTTON_6, 5),
    (PROFILE_FIELD_BUTTON_7, 6), (PROFILE_FIELD_BUTTON_8, 7), (PROFILE_FIELD_BUTTON_9, 8) ]

/-- The fields `xai_profile_set_config` tests for presence, in the order of
its tests (part 1, part 2, part 3). -/
def settable_fields : List Nat :=
  [ PROFILE_FIELD_RATE, PROFILE_FIELD_AIM, PROFILE_FIELD_ACCEL, PROFILE_FIELD_FREEMOVE,
    PROFILE_FIELD_LCD_BRIGHTNESS, PROFILE_FIELD_LCD_CONTRAST,
    PROFILE_FIELD_CPI1, PROFILE_FIELD_CPI2,
    PROFILE_FIELD_BUTTON_1, PROFILE_FIELD_BUTTON_2, PROFILE_FIELD_BUTTON_3,
    PROFILE_FIELD_BUTTON_4, PROFILE_FIELD_BUTTON_5, PROFILE_FIELD_BUTTON_6,
    PROFILE_FIELD_BUTTON_7, PROFILE_FIELD_BUTTON_8, PROFILE_FIELD_BUTTON_9 ]

/-- The fields tested in the part-1 block of `xai_profile_set_config`. -/
def part1_fields : List Nat :=
  [ PROFILE_FIELD_RATE, PROFILE_FIELD_AIM, PROFILE_FIELD_ACCEL, PROFILE_FIELD_FREEMOVE,
    PROFILE_FIELD_LCD_BRIGHTNESS, PROFILE_FIELD_LCD_CONTRAST ]

/-- The fields tested in the part-2 block of `xai_profile_set_config`. -/
def part2_fields : List Nat := [ PROFILE_FIELD_CPI1, PROFILE_FIELD_CPI2 ]

/-- The fields tested in the part-3 block of `xai_profile_set_config`. -/
def part3_fields : List Nat :=
  [ PROFILE_FIELD_BUTTON_1, PROFILE_FIELD_BUTTON_2, PROFILE_FIELD_BUTTON_3,
    PROFILE_FIELD_BUTTON_4, PROFILE_FIELD_BUTTON_5, PROFILE_FIELD_BUTTON_6,
    PROFILE_FIELD_BUTTON_7, PROFILE_FIELD_BUTTON_8, PROFILE_FIELD_BUTTON_9 ]

/-- The dirty set of an update: the settable fields that test as present. -/
def dirty_set (p : xai_profile) : List Nat :=
  settable_fields.filter (fun f => field_present p.fields f)

/-- The update `main` builds: `xai_profile_change_req` applied to the empty
update once for each option (field, argument) of the command line, in order. -/
def update_of (reqs : List (Nat × List Char)) : xai_profile :=
  reqs.foldl (fun p r => (xai_profile_change_req p r.1 r.2).2) empty_profile

/-! ## USB transport -/

/-- One `usb_control_msg` call: the direction (`PACKET_WRITE` or `PACKET_READ`)
and the 64-byte buffer handed to libusb. -/
structure Transfer where
  direction : Nat
  packet : List Nat
  deriving DecidableEq, Repr

/-- The device behind a `usb_dev_handle *`.  `respond` is the behaviour of the
device: from the transfers made so far and the current one it gives the return
value of `usb_control_msg` and, for a read, the buffer content after the call.
`log` holds the transfers made so far, oldest first. -/
structure usb_dev_handle where
  respond : List Transfer → Transfer → Int × List Nat
  log : List Transfer

/-- The C `struct xai_ll_message_header`. -/
structure xai_ll_message_header where
  null_byte : Nat
  operation : Nat
  id : Nat
  part : Nat
  argument1 : Nat
  argument2 : Nat
  deriving DecidableEq, Repr

/-- The C `struct xai_context` (the interface name of the sysfs workaround is
not part of the protocol state). -/
structure xai_context where
  dev : usb_dev_handle
  p : List xai_profile
  cur_id : Nat
  cur_index : Nat
  usb_debug : Int
  usb_rebind : Int
  set_current_profile : Int

/-- Member `header.operation` of a message (byte 1). -/
def msg_operation (m : List Nat) : Nat := m.getD 1 0

/-- Member `header.id` of a message (byte 2). -/
def msg_id (m : List Nat) : Nat := m.getD 2 0

/-- Member `header.part` of a message (byte 3). -/
def msg_part (m : List Nat) : Nat := m.getD 3 0

/-- Member `header.argument1` of a message (byte 4). -/
def msg_argument1 (m : List Nat) : Nat := m.getD 4 0

/-- Read of an `unsigned short` member at byte offset `i` (little endian). -/
def get_u16 (m : List Nat) (i : Nat) : Nat := m.getD i 0 + 256 * m.getD (i + 1) 0

/-- Assignment to an `unsigned char` member at byte offset `i`. -/
def set_u8 (m : List Nat) (i v : Nat) : List Nat := m.set i (v % 256)

/-- Assignment to an `unsigned short` member at byte offset `i` (little endian). -/
def set_u16 (m : List Nat) (i v : Nat) : List Nat :=
  (m.set i (v % 256)).set (i + 1) (v / 256 % 256)

/-- Conversion of a `short` to `unsigned short` on assignment. -/
def short_to_u16 (x : Int) : Nat := (x % 65536).toNat

/-- Conversion of a `short` to `unsigned char` on assignment. -/
def short_to_u8 (x : Int) : Nat := (x % 256).toNat

/-- C `strncpy(dest, src, n)` on byte buffers: the bytes of `src` before its
first NUL (at most `n`), padded with NUL up to `n`; the rest of `dest` stays. -/
def strncpy (dest src : List Nat) (n : Nat) : List Nat :=
  let s := (src.take n).takeWhile (fun b => b != 0)
  s ++ List.replicate (n - s.length) 0 ++ dest.drop n

/-- The 64-byte buffer after a device-to-host transfer: the bytes the device
delivered (at most `PACKET_SIZE`, each an `unsigned char`) over the 0x55
pattern that `memset` wrote before the call. -/
def fill_buffer (data : List Nat) : List Nat :=
  (data.map (fun b => b % 256) ++ List.replicate PACKET_SIZE 0x55).take PACKET_SIZE

/-- The C function `xai_device_transfer_packet(dev, packet, direction)`: the
result is the return code, the buffer after the call and the device. -/
def xai_device_transfer_packet (dev : usb_dev_handle) (packet : List Nat) (direction : Nat) :
    Int × List Nat × usb_dev_handle :=
  let packet1 := if direction = PACKET_READ then List.replicate PACKET_SIZE 0x55 else packet
  let t : Transfer := { direction := direction, packet := packet1 }
  let r := dev.respond dev.log t
  let dev1 : usb_dev_handle := { dev with log := dev.log ++ [t] }
  let packet2 := if direction = PACKET_WRITE then packet1 else fill_buffer r.2
  if r.1 < 0 then (RET_ERROR_BUS, packet2, dev1) else (RET_OK, packet2, dev1)

/-- The request `xai_device_read_packet` builds in `out`: all zero except the
operation, id, part and argument1 copied from the header `in`. -/
def read_request (inh : xai_ll_message_header) : List Nat :=
  ((((List.replicate 64 0).set 1 inh.operation).set 2 inh.id).set 3 inh.part).set 4
    inh.argument1

/-- The C function `xai_device_read_packet(dev, in, out)`: the result is the
return code, the content of `out` and the device.  The priming ping is built
but its transfer is commented out in the source (`ret = RET_OK`). -/
def xai_device_read_packet (dev : usb_dev_handle) (inh : xai_ll_message_header) :
    Int × List Nat × usb_dev_handle :=
  let w := xai_device_transfer_packet dev (read_request inh) PACKET_WRITE
  if w.1 = RET_OK then
    let r := xai_device_transfer_packet w.2.2 w.2.1 PACKET_READ
    if msg_operation r.2.1 ≠ XAI_MOUSE_LL_PONG_OR_RES then
      xai_device_transfer_packet r.2.2 r.2.1 PACKET_READ
    else r
  else w

/-- The C function `xai_device_write_packet(dev, in)`: the result is the return
code, the content of `in` after the call and the device. -/
def xai_device_write_packet (dev : usb_dev_handle) (inm : List Nat) :
    Int × List Nat × usb_dev_handle :=
  let w := xai_device_transfer_packet dev inm PACKET_WRITE
  if w.1 = RET_OK then
    let r := xai_device_transfer_packet w.2.2 w.2.1 PACKET_READ
    if r.1 = RET_OK then
      if msg_operation r.2.1 ≠ XAI_MOUSE_LL_PING_OR_ACK then
        xai_device_transfer_packet r.2.2 r.2.1 PACKET_READ
      else r
    else r
  else w

/-! ## Profile synchronisation -/

/-- The C function `xai_profile_get_name(ctx, index, profile)`: the result is
the return code, the context and the profile after the call. -/
def xai_profile_get_name (ctx : xai_context) (index : Nat) (profile : xai_profile) :
    Int × xai_context × xai_profile :=
  let hdr : xai_ll_message_header :=
    { null_byte := 0, operation := XAI_MOUSE_LL_GET_PROFILE_NAME, id := ctx.cur_id,
      part := 0, argument1 := to_uchar index, argument2 := 0 }
  let r := xai_device_read_packet ctx.dev hdr
  let ctx1 := { ctx with dev := r.2.2 }
  if r.1 = RET_OK then
    let ctx2 := { ctx1 with cur_id := msg_id r.2.1 }
    if r.2.1.getD 6 0 = 0 then
      (r.1, ctx2, { profile with name := profile.name.set 0 0 })
    else
      (r.1, ctx2, { profile with
        name := strncpy profile.name (r.2.1.drop 6) XAI_MOUSE_LL_DATA_LENGTH })
  else (r.1, ctx1, profile)

/-- The C function `xai_profile_get_config(ctx, index, profile)`: the three
settings parts are read in turn; the function returns `RET_OK` in every case. -/
def xai_profile_get_config (ctx : xai_context) (index : Nat) (profile : xai_profile) :
    Int × xai_context × xai_profile :=
  let hdr1 : xai_ll_message_header :=
    { null_byte := 0, operation := XAI_MOUSE_LL_GET_PROFILE_SETTINGS, id := ctx.cur_id,
      part := 1, argument1 := to_uchar index, argument2 := 0 }
  let r1 := xai_device_read_packet ctx.dev hdr1
  let ctx1 := { ctx with dev := r1.2.2 }
  if r1.1 = RET_OK then
    let ctx1 := { ctx1 with cur_id := msg_id r1.2.1 }
    let profile1 := { profile with
      rate := to_short (get_u16 r1.2.1 9),
      aim := (r1.2.1.getD 19 0 : Nat),
      accel := (r1.2.1.getD 16 0 : Nat),
      freemove := (r1.2.1.getD 18 0 : Nat),
      lcd_brightness := (r1.2.1.getD 20 0 : Nat),
      lcd_contrast := (r1.2.1.getD 21 0 : Nat) }
    let hdr2 : xai_ll_message_header :=
      { null_byte := 0, operation := XAI_MOUSE_LL_GET_PROFILE_SETTINGS, id := ctx1.cur_id,
        part := 2, argument1 := to_uchar index, argument2 := 0 }
    let r2 := xai_device_read_packet ctx1.dev hdr2
    let ctx2 := { ctx1 with dev := r2.2.2 }
    if r2.1 = RET_OK then
      let ctx2 := { ctx2 with cur_id := msg_id r2.2.1 }
      let profile2 := { profile1 with
        cpi := (profile1.cpi.set 0 (get_u16 r2.2.1 6)).set 1 (get_u16 r2.2.1 8) }
      let hdr3 : xai_ll_message_header :=
        { null_byte := 0, operation := XAI_MOUSE_LL_GET_PROFILE_SETTINGS, id := ctx2.cur_id,
          part := 3, argument1 := to_uchar index, argument2 := 0 }
      let r3 := xai_device_read_packet ctx2.dev hdr3
      let ctx3 := { ctx2 with dev := r3.2.2 }
      if r3.1 = RET_OK then
        let ctx3 := { ctx3 with cur_id := msg_id r3.2.1 }
        let profile3 := { profile2 with
          button := ((((((((profile2.button.set 0 (get_u16 r3.2.1 6)).set 1
            (get_u16 r3.2.1 8)).set 2 (get_u16 r3.2.1 10)).set 3 (get_u16 r3.2.1 12)).set 4
            (get_u16 r3.2.1 14)).set 5 (get_u16 r3.2.1 16)).set 6 (get_u16 r3.2.1 18)).set 7
            (get_u16 r3.2.1 28)).set 8 (get_u16 r3.2.1 30) }
        (RET_OK, ctx3, profile3)
      else (RET_OK, ctx3, profile2)
    else (RET_OK, ctx2, profile1)
  else (RET_OK, ctx1, profile)

/-- The part-1 block of `xai_profile_set_config`: every field of part 1 that
tests as present is written into the message; the result pairs the message
with `touch_flag`. -/
def set_config_part1 (profile : xai_profile) (msg : List Nat) : List Nat × Bool :=
  let s : List Nat × Bool := (msg, false)
  let s := if field_present profile.fields PROFILE_FIELD_RATE then
    (set_u16 s.1 9 (short_to_u16 profile.rate), true) else s
  let s := if field_present profile.fields PROFILE_FIELD_AIM then
    (set_u8 s.1 19 (short_to_u8 profile.aim), true) else s
  let s := if field_present profile.fields PROFILE_FIELD_ACCEL then
    (set_u8 s.1 16 (short_to_u8 profile.accel), true) else s
  let s := if field_present profile.fields PROFILE_FIELD_FREEMOVE then
    (set_u8 s.1 18 (short_to_u8 profile.freemove), true) else s
  let s := if field_present profile.fields PROFILE_FIELD_LCD_BRIGHTNESS then
    (set_u8 s.1 20 (short_to_u8 profile.lcd_brightness), true) else s
  let s := if field_present profile.fields PROFILE_FIELD_LCD_CONTRAST then
    (set_u8 s.1 21 (short_to_u8 profile.lcd_contrast), true) else s
  s

/-- The part-2 block of `xai_profile_set_config`. -/
def set_config_part2 (profile : xai_profile) (msg : List Nat) : List Nat × Bool :=
  let s : List Nat × Bool := (msg, false)
  let s := if field_present profile.fields PROFILE_FIELD_CPI1 then
    (set_u16 s.1 6 (profile.cpi.getD 0 0), true) else s
  let s := if field_present profile.fields PROFILE_FIELD_CPI2 then
    (set_u16 s.1 8 (profile.cpi.getD 1 0), true) else s
  s

/-- The part-3 block of `xai_profile_set_config`. -/
def set_config_part3 (profile : xai_profile) (msg : List Nat) : List Nat × Bool :=
  let s : List Nat × Bool := (msg, false)
  let s := if field_present profile.fields PROFILE_FIELD_BUTTON_1 then
    (set_u16 s.1 6 (profile.button.getD 0 0), true) else s
  let s := if field_present profile.fields PROFILE_FIELD_BUTTON_2 then
    (set_u16 s.1 8 (profile.button.getD 1 0), true) else s
  let s := if field_present profile.fields PROFILE_FIELD_BUTTON_3 then
    (set_u16 s.1 10 (profile.button.getD 2 0), true) else s
  let s := if field_present profile.fields PROFILE_FIELD_BUTTON_4 then
    (set_u16 s.1 12 (profile.button.getD 3 0), true) else s
  let s := if field_present profile.fields PROFILE_FIELD_BUTTON_5 then
    (set_u16 s.1 14 (profile.button.getD 4 0), true) else s
  let s := if field_present profile.fields PROFILE_FIELD_BUTTON_6 then
    (set_u16 s.1 16 (profile.button.getD 5 0), true) else s
  let s := if field_present profile.fields PROFILE_FIELD_BUTTON_7 then
    (set_u16 s.1 18 (profile.button.getD 6 0), true) else s
  let s := if field_present profile.fields PROFILE_FIELD_BUTTON_8 then
    (set_u16 s.1 28 (profile.button.getD 7 0), true) else s
  let s := if field_present profile.fields PROFILE_FIELD_BUTTON_9 then
    (set_u16 s.1 30 (profile.button.getD 8 0), true) else s
  s

/-- The `if (touch_flag) { ... }` block of `xai_profile_set_config`: when a
field was touched the operation byte becomes `SET_PROFILE_SETTINGS` and the
message goes through `xai_device_write_packet`; otherwise `ret` is kept. -/
def set_config_write (dev : usb_dev_handle) (s : List Nat × Bool) (ret : Int) :
    Int × List Nat × usb_dev_handle :=
  if s.2 then xai_device_write_packet dev (s.1.set 1 XAI_MOUSE_LL_SET_PROFILE_SETTINGS)
  else (ret, s.1, dev)

/-- The C function `xai_profile_set_config(ctx, index, profile)`: the result is
the return code and the context after the call. -/
def xai_profile_set_config (ctx : xai_context) (index : Nat) (profile : xai_profile) :
    Int × xai_context :=
  let hdr1 : xai_ll_message_header :=
    { null_byte := 0, operation := XAI_MOUSE_LL_GET_PROFILE_SETTINGS,
      id := to_uchar (ctx.cur_id + 1), part := 1, argument1 := to_uchar index, argument2 := 0 }
  let r1 := xai_device_read_packet ctx.dev hdr1
  let ctx1 := { ctx with dev := r1.2.2 }
  if r1.1 = RET_OK then
    let ctx1 := { ctx1 with cur_id := msg_id r1.2.1 }
    let w1 := set_config_write ctx1.dev (set_config_part1 profile r1.2.1) r1.1
    let ctx1 := { ctx1 with dev := w1.2.2 }
    if w1.1 = RET_OK then
      let hdr2 : xai_ll_message_header :=
        { null_byte := 0, operation := XAI_MOUSE_LL_GET_PROFILE_SETTINGS,
          id := to_uchar (ctx1.cur_id + 1), part := 2, argument1 := to_uchar index,
          argument2 := 0 }
      let r2 := xai_device_read_packet ctx1.dev hdr2
      let ctx2 := { ctx1 with dev := r2.2.2 }
      if r2.1 = RET_OK then
        let ctx2 := { ctx2 with cur_id := msg_id r2.2.1 }
        let w2 := set_config_write ctx2.dev (set_config_part2 profile r2.2.1) r2.1
        let ctx2 := { ctx2 with dev := w2.2.2 }
        if w2.1 = RET_OK then
          let hdr3 : xai_ll_message_header :=
            { null_byte := 0, operation := XAI_MOUSE_LL_GET_PROFILE_SETTINGS,
              id := ctx2.cur_id, part := 3, argument1 := to_uchar index, argument2 := 0 }
          let r3 := xai_device_read_packet ctx2.dev hdr3
          let ctx3 := { ctx2 with dev := r3.2.2 }
          if r3.1 = RET_OK then
            let ctx3 := { ctx3 with cur_id := msg_id r3.2.1 }
            let w3 := set_config_write ctx3.dev (set_config_part3 profile r3.2.1) r3.1
            (w3.1, { ctx3 with dev := w3.2.2 })
          else (r3.1, ctx3)
        else (w2.1, ctx2)
      else (r2.1, ctx2)
    else (w1.1, ctx1)
  else (r1.1, ctx1)

/-- The C function `xai_profile_get_current_index(ctx, index)`: the result is
the return code, the context and `*index` after the call. -/
def xai_profile_get_current_index (ctx : xai_context) (index : Nat) :
    Int × xai_context × Nat :=
  let hdr : xai_ll_message_header :=
    { null_byte := 0, operation := XAI_MOUSE_LL_GET_CURRENT_PROFILE, id := ctx.cur_id,
      part := 0, argument1 := 0, argument2 := 0 }
  let r := xai_device_read_packet ctx.dev hdr
  let ctx1 := { ctx with dev := r.2.2 }
  if r.1 = RET_OK then (r.1, { ctx1 with cur_id := msg_id r.2.1 }, msg_part r.2.1)
  else (r.1, ctx1, index)

/-! ## Device initialisation -/

/-- The 35 bytes `init_string` of `xai_device_init`. -/
def init_string : List Nat :=
  [ 0x00, 0x13, 0x01, 0x47, 0x45, 0x47, 0x4a, 0x47, 0x59, 0x49, 0x4b, 0x44,
    0x43, 0x47, 0x42, 0x45, 0x39, 0x44, 0x57, 0x44, 0x4b, 0x42, 0x32, 0x37,
    0x45, 0x41, 0x41, 0x37, 0x4b, 0x39, 0x5a, 0x35, 0x4A, 0x31, 0x50 ]

/-- The call `xai_profile_get_name(ctx, i, &ctx->p[i])` of `xai_device_init`:
the profile is slot `i` of the table of the context. -/
def get_name_attempt (i : Nat) (ctx : xai_context) : Int × xai_context :=
  let r := xai_profile_get_name ctx i (ctx.p.getD i empty_profile)
  (r.1, { r.2.1 with p := r.2.1.p.set i r.2.2 })

/-- The call `xai_profile_get_config(ctx, i, &ctx->p[i])` of `xai_device_init`. -/
def get_config_attempt (i : Nat) (ctx : xai_context) : Int × xai_context :=
  let r := xai_profile_get_config ctx i (ctx.p.getD i empty_profile)
  (r.1, { r.2.1 with p := r.2.1.p.set i r.2.2 })

/-- The loop `while ((attempt != RET_OK) && (tries--));` of `xai_device_init`,
entered with the given value of `tries`: the result is the value of `tries`
when the loop ends and the context.  A successful attempt ends the loop without
evaluating `tries--`; after a failed attempt `tries--` yields the old value and
decrements, so the loop ends with -1 when the old value was 0. -/
def retry_loop (attempt : xai_context → Int × xai_context) :
    Nat → xai_context → Int × xai_context
  | 0, ctx =>
    let r := attempt ctx
    if r.1 ≠ RET_OK then (-1, r.2) else (0, r.2)
  | t + 1, ctx =>
    let r := attempt ctx
    if r.1 ≠ RET_OK then retry_loop attempt t r.2 else (((t + 1 : Nat) : Int), r.2)

/-- One `for (i = ...; i < XAI_MOUSE_PROFILE_NUM; i++)` loop of
`xai_device_init`, with `n` iterations left from index `i`: each iteration
sets `tries = 3`, runs the retry loop and leaves through `device_init_err`
when `tries == 0`.  The result is `false` when the loop left through
`device_init_err`. -/
def init_loop (attempt : Nat → xai_context → Int × xai_context) :
    Nat → Nat → xai_context → Bool × xai_context
  | 0, _, ctx => (true, ctx)
  | n + 1, i, ctx =>
    let r := retry_loop (attempt i) 3 ctx
    if r.1 = 0 then (false, r.2) else init_loop attempt n (i + 1) r.2

/-- The C function `xai_device_init(ctx)`: the result is the return code and
the context after the call. -/
def xai_device_init (ctx : xai_context) : Int × xai_context :=
  let packet := init_string ++ List.replicate (PACKET_SIZE - 35) 0
  let w := xai_device_transfer_packet ctx.dev packet PACKET_WRITE
  let ctx0 := { ctx with dev := w.2.2 }
  if w.1 = RET_OK then
    let ctx1 := { ctx0 with cur_id := 0x77 }
    let names := init_loop get_name_attempt XAI_MOUSE_PROFILE_NUM 0 ctx1
    if names.1 then
      let configs := init_loop get_config_attempt XAI_MOUSE_PROFILE_NUM 0 names.2
      if configs.1 then
        let g := xai_profile_get_current_index configs.2 XAI_MOUSE_PROFILE_NUM
        if g.1 ≠ RET_OK then (RET_ERROR_BUS, g.2.1)
        else (RET_OK, { g.2.1 with cur_index := to_uchar g.2.2 })
      else (RET_ERROR_BUS, configs.2)
    else (RET_ERROR_BUS, names.2)
  else (RET_ERROR_BUS, ctx0)

/-- The context `main` hands to `xai_device_init`: the static `ctx` is all
zero apart from the opened device. -/
def initial_context (dev : usb_dev_handle) : xai_context :=
  { dev := dev, p := List.replicate 5 empty_profile, cur_id := 0, cur_index := 0,
    usb_debug := 0, usb_rebind := 0, set_current_profile := 0 }

/-- The context at the start of the name loop of `xai_device_init`: the
initialisation string was written and `cur_id` is 0x77. -/
def context_after_init_string (dev : usb_dev_handle) : xai_context :=
  { initial_context dev with
    dev := (xai_device_transfer_packet dev
      (init_string ++ List.replicate (PACKET_SIZE - 35) 0) PACKET_WRITE).2.2,
    cur_id := 0x77 }

/-- Relation between the device before and after a call: the behaviour of
the device is the same, the log only grew, and `ws` are the packets written to
the device by the new transfers, in order. -/
def log_step (before after : usb_dev_handle) (ws : List (List Nat)) : Prop :=
  after.respond = before.respond ∧
    ∃ new : List Transfer, after.log = before.log ++ new ∧
      (new.filter (fun t => t.direction == PACKET_WRITE)).map (fun t => t.packet) = ws

/-- A device on which every transfer succeeds: `usb_control_msg` never returns
a negative value. -/
def all_transfers_succeed (dev : usb_dev_handle) : Prop :=
  ∀ (log : List Transfer) (t : Transfer), 0 ≤ (dev.respond log t).1

/-- The transfers a call added to the log of the device. -/
def new_transfers (before after : usb_dev_handle) : List Transfer :=
  after.log.drop before.log.length

/-- The packets written to the device among a list of transfers, in order. -/
def written (ts : List Transfer) : List (List Nat) :=
  (ts.filter (fun t => t.direction == PACKET_WRITE)).map (fun t => t.packet)

/-! ## Concrete devices -/

/-- A well-formed answer of the device: 64 bytes, operation `PONG_OR_RES`. -/
def pong_packet : List Nat := (List.replicate 64 0).set 1 XAI_MOUSE_LL_PONG_OR_RES

/-- A device on which every transfer succeeds (64 bytes transferred) and every
read returns `pong_packet`. -/
def steady_device : usb_dev_handle :=
  { respond := fun _ _ => (64, pong_packet), log := [] }

/-- A device whose second and third transfers fail (after the initialisation
string these are the first two name requests for profile 0) and on which every
other transfer succeeds. -/
def flaky_device : usb_dev_handle :=
  { respond := fun log _ =>
      if log.length = 1 ∨ log.length = 2 then (-1, List.replicate 64 0x55)
      else (64, pong_packet),
    log := [] }

/-- A device that fails every name request for profile 0 (a write whose
operation is `GET_PROFILE_NAME` and whose argument1 is 0) and on which every
other transfer succeeds. -/
def nameless_device : usb_dev_handle :=
  { respond := fun _ t =>
      if t.direction = PACKET_WRITE ∧ msg_operation t.packet = XAI_MOUSE_LL_GET_PROFILE_NAME ∧
          msg_argument1 t.packet = 0 then (-1, t.packet)
      else (64, pong_packet),
    log := [] }

/-- A device whose second, third and fourth transfers fail (the first three
name requests for profile 0) and on which every other transfer succeeds. -/
def thrice_failing_device : usb_dev_handle :=
  { respond := fun log _ =>
      if 1 ≤ log.length ∧ log.length ≤ 3 then (-1, List.replicate 64 0x55)
      else (64, pong_packet),
    log := [] }

/-- The name requests for profile `i` among a list of transfers. -/
def name_requests (i : Nat) (ts : List Transfer) : List Transfer :=
  ts.filter (fun t => t.direction == PACKET_WRITE &&
    msg_operation t.packet == XAI_MOUSE_LL_GET_PROFILE_NAME && msg_argument1 t.packet == i)

/-! ## Session operations and program flow -/

/-- Conversion of an `int` to `unsigned char`. -/
def int_to_uchar (x : Int) : Nat := (x % 256).toNat

/-- The C function `xai_profile_set_current_index(ctx, index)`: the result is
the return code and the context after the call. -/
def xai_profile_set_current_index (ctx : xai_context) (index : Int) : Int × xai_context :=
  let msg := (((List.replicate 64 0).set 1 XAI_MOUSE_LL_SET_CURRENT_PROFILE).set 2
    ctx.cur_id).set 3 (int_to_uchar index)
  let r := xai_device_write_packet ctx.dev msg
  (r.1, { ctx with dev := r.2.2 })

/-- The C function `xai_device_write_to_flash(ctx)`: the result is the return
code and the context after the call. -/
def xai_device_write_to_flash (ctx : xai_context) : Int × xai_context :=
  let msg := ((List.replicate 64 0).set 1 XAI_MOUSE_LL_SAVE_TO_FLASH).set 2 ctx.cur_id
  let r := xai_device_write_packet ctx.dev msg
  (r.1, { ctx with dev := r.2.2 })

/-- The C function `main` from `profile_number = atoi(argv[optind])` on.
`profile_number` is the value `atoi` returned, `newp` the update the option loop
built, `ctx` the static context with the flags the option loop set and with
the device `xai_init` opens, `xai_init_ret` the return code of `xai_init`
(which makes no transfer).  `xai_profile_print` and `xai_uninit` make no
transfer either and are left out.  The result is the return value of `main`
and the context when it returns. -/
def main (profile_number : Int) (newp : xai_profile) (ctx : xai_context) (xai_init_ret : Int) :
    Int × xai_context :=
  if profile_number ≤ 0 ∨ profile_number > XAI_MOUSE_PROFILE_NUM then (-1, ctx)
  else
    let profile_number := profile_number - 1
    if xai_init_ret ≠ RET_OK then (-1, ctx)
    else
      let i := xai_device_init ctx
      if i.1 ≠ RET_OK then (-2, i.2)
      else if newp.fields ≠ 0 ∨ i.2.set_current_profile ≠ 0 then
        let s := xai_profile_set_config i.2 profile_number.toNat newp
        if s.1 = RET_OK then
          let c :=
            if profile_number = (s.2.cur_index : Int) ∨ s.2.set_current_profile ≠ 0 then
              (xai_profile_set_current_index s.2 profile_number).2
            else s.2
          (0, (xai_device_write_to_flash c).2)
        else (0, s.2)
      else (0, i.2)

/-! ## Layout of `struct xai_ll_message` -/

/-- Offsets of the members of a packed struct that starts at byte `base`: each
member follows the previous one without padding.  The argument lists the sizes
of the members in declaration order. -/
def packed_offsets (base : Nat) : List Nat → List Nat
  | [] => []
  | s :: ss => base :: packed_offsets (base + s) ss

/-- Sizes in bytes of the members of `struct xai_ll_message_header`. -/
def header_sizes : List Nat := [1, 1, 1, 1, 1, 1]

/-- Sizes in bytes of the members of `u.part1`, in declaration order. -/
def part1_sizes : List Nat := [3, 2, 5, 1, 1, 1, 1, 1, 1]

/-- Sizes in bytes of the members of `u.part2`, in declaration order. -/
def part2_sizes : List Nat := [2, 2]

/-- Sizes in bytes of the members of `u.part3`, in declaration order. -/
def part3_sizes : List Nat := [2, 2, 2, 2, 2, 2, 2, 2, 2, 2, 2, 2, 2]

/-- The members of a layout do not overlap and end within `limit` bytes: each
(offset, size) entry ends where the next one starts or before, and the last
one ends at `limit` or before. -/
def layout_fits (limit : Nat) : List (Nat × Nat) → Bool
  | [] => true
  | [a] => a.1 + a.2 ≤ limit
  | a :: b :: rest => a.1 + a.2 ≤ b.1 && layout_fits limit (b :: rest)

/-- The body variant `u.part1` of a message. -/
structure part1 where
  __unknown1__ : List Nat
  rate : Nat
  __unknown2__ : List Nat
  accel : Nat
  __unknown3__ : Nat
  freemove : Nat
  aim : Nat
  brightness : Nat
  contrast : Nat
  deriving DecidableEq, Repr

/-- The body variant `u.part2` of a message. -/
structure part2 where
  cpi1 : Nat
  cpi2 : Nat
  deriving DecidableEq, Repr

/-- The body variant `u.part3` of a message. -/
structure part3 where
  button1 : Nat
  button2 : Nat
  button3 : Nat
  button4 : Nat
  button5 : Nat
  button6 : Nat
  button7 : Nat
  __unknown1__ : Nat
  lr_handed_mode : Nat
  __unknown2__ : Nat
  __unknown3__ : Nat
  button8 : Nat
  button9 : Nat
  deriving DecidableEq, Repr

/-- Every member of the header holds an `unsigned char`. -/
def header_in_range (h : xai_ll_message_header) : Prop :=
  h.null_byte < 256 ∧ h.operation < 256 ∧ h.id < 256 ∧ h.part < 256 ∧ h.argument1 < 256 ∧
    h.argument2 < 256

instance (h : xai_ll_message_header) : Decidable (header_in_range h) := by
  unfold header_in_range
  infer_instance

/-- Every member of `u.part1` holds a value of its C type: the arrays have
their declared length, `unsigned char` members are below 256 and the
`unsigned short` member is below 65536. -/
def part1_in_range (b : part1) : Prop :=
  b.__unknown1__.length = 3 ∧ (∀ x ∈ b.__unknown1__, x < 256) ∧ b.rate < 65536 ∧
    b.__unknown2__.length = 5 ∧ (∀ x ∈ b.__unknown2__, x < 256) ∧ b.accel < 256 ∧
    b.__unknown3__ < 256 ∧ b.freemove < 256 ∧ b.aim < 256 ∧ b.brightness < 256 ∧
    b.contrast < 256

instance (b : part1) : Decidable (part1_in_range b) := by
  unfold part1_in_range
  infer_instance

/-- Every member of `u.part2` holds an `unsigned short`. -/
def part2_in_range (b : part2) : Prop := b.cpi1 < 65536 ∧ b.cpi2 < 65536

instance (b : part2) : Decidable (part2_in_range b) := by
  unfold part2_in_range
  infer_instance

/-- Every member of `u.part3` holds an `unsigned short`. -/
def part3_in_range (b : part3) : Prop :=
  b.button1 < 65536 ∧ b.button2 < 65536 ∧ b.button3 < 65536 ∧ b.button4 < 65536 ∧
    b.button5 < 65536 ∧ b.button6 < 65536 ∧ b.button7 < 65536 ∧ b.__unknown1__ < 65536 ∧
    b.lr_handed_mode < 65536 ∧ b.__unknown2__ < 65536 ∧ b.__unknown3__ < 65536 ∧
    b.button8 < 65536 ∧ b.button9 < 65536

instance (b : part3) : Decidable (part3_in_range b) := by
  unfold part3_in_range
  infer_instance

/-- Assignment to an `unsigned char` array member that starts at byte `i`. -/
def write_bytes (m : List Nat) (i : Nat) : List Nat → List Nat
  | [] => m
  | b :: bs => write_bytes (set_u8 m i b) (i + 1) bs

/-- Read of an `unsigned char` array member of `n` elements at byte `i`. -/
def read_bytes (m : List Nat) (i n : Nat) : List Nat :=
  (List.range n).map (fun j => m.getD (i + j) 0)

/-- The header members stored into the first six bytes of a report. -/
def encode_header (h : xai_ll_message_header) (m : List Nat) : List Nat :=
  set_u8 (set_u8 (set_u8 (set_u8 (set_u8 (set_u8 m 0 h.null_byte) 1 h.operation) 2 h.id) 3
    h.part) 4 h.argument1) 5 h.argument2

/-- The header members read from the first six bytes of a report. -/
def decode_header (m : List Nat) : xai_ll_message_header :=
  { null_byte := m.getD 0 0, operation := msg_operation m, id := msg_id m, part := msg_part m,
    argument1 := msg_argument1 m, argument2 := m.getD 5 0 }

/-- The 64-byte report of a message whose body is the variant `u.part1`: the
members stored at their offsets in a zeroed `struct xai_ll_message`. -/
def encode_part1 (h : xai_ll_message_header) (b : part1) : List Nat :=
  let m := encode_header h (List.replicate PACKET_SIZE 0)
  let m := write_bytes m 6 b.__unknown1__
  let m := set_u16 m 9 b.rate
  let m := write_bytes m 11 b.__unknown2__
  let m := set_u8 m 16 b.accel
  let m := set_u8 m 17 b.__unknown3__
  let m := set_u8 m 18 b.freemove
  let m := set_u8 m 19 b.aim
  let m := set_u8 m 20 b.brightness
  set_u8 m 21 b.contrast

/-- The members of `u.part1` read from a report. -/
def decode_part1 (m : List Nat) : part1 :=
  { __unknown1__ := read_bytes m 6 3, rate := get_u16 m 9, __unknown2__ := read_bytes m 11 5,
    accel := m.getD 16 0, __unknown3__ := m.getD 17 0, freemove := m.getD 18 0,
    aim := m.getD 19 0, brightness := m.getD 20 0, contrast := m.getD 21 0 }

/-- The 64-byte report of a message whose body is the variant `u.part2`. -/
def encode_part2 (h : xai_ll_message_header) (b : part2) : List Nat :=
  let m := encode_header h (List.replicate PACKET_SIZE 0)
  let m := set_u16 m 6 b.cpi1
  set_u16 m 8 b.cpi2

/-- The members of `u.part2` read from a report. -/
def decode_part2 (m : List Nat) : part2 :=
  { cpi1 := get_u16 m 6, cpi2 := get_u16 m 8 }

/-- The 64-byte report of a message whose body is the variant `u.part3`. -/
def encode_part3 (h : xai_ll_message_header) (b : part3) : List Nat :=
  let m := encode_header h (List.replicate PACKET_SIZE 0)
  let m := set_u16 m 6 b.button1
  let m := set_u16 m 8 b.button2
  let m := set_u16 m 10 b.button3
  let m := set_u16 m 12 b.button4
  let m := set_u16 m 14 b.button5
  let m := set_u16 m 16 b.button6
  let m := set_u16 m 18 b.button7
  let m := set_u16 m 20 b.__unknown1__
  let m := set_u16 m 22 b.lr_handed_mode
  let m := set_u16 m 24 b.__unknown2__
  let m := set_u16 m 26 b.__unknown3__
  let m := set_u16 m 28 b.button8
  set_u16 m 30 b.button9

/-- The members of `u.part3` read from a report. -/
def decode_part3 (m : List Nat) : part3 :=
  { button1 := get_u16 m 6, button2 := get_u16 m 8, button3 := get_u16 m 10,
    button4 := get_u16 m 12, button5 := get_u16 m 14, button6 := get_u16 m 16,
    button7 := get_u16 m 18, __unknown1__ := get_u16 m 20, lr_handed_mode := get_u16 m 22,
    __unknown2__ := get_u16 m 24, __unknown3__ := get_u16 m 26, button8 := get_u16 m 28,
    button9 := get_u16 m 30 }

/-! ## The rounds of the settings functions -/

/-- The header `hdr` the settings functions fill in before each read round:
operation `GET_PROFILE_SETTINGS`, the given transaction id and part, and the
profile index in `argument1`. -/
def settings_header (id part index : Nat) : xai_ll_message_header :=
  { null_byte := 0, operation := XAI_MOUSE_LL_GET_PROFILE_SETTINGS, id := id, part := part,
    argument1 := to_uchar index, argument2 := 0 }

/-- The header `hdr` of `xai_profile_get_name`. -/
def name_header (id index : Nat) : xai_ll_message_header :=
  { null_byte := 0, operation := XAI_MOUSE_LL_GET_PROFILE_NAME, id := id, part := 0,
    argument1 := to_uchar index, argument2 := 0 }

/-- The header `hdr` of `xai_profile_get_current_index`. -/
def current_header (id : Nat) : xai_ll_message_header :=
  { null_byte := 0, operation := XAI_MOUSE_LL_GET_CURRENT_PROFILE, id := id, part := 0,
    argument1 := 0, argument2 := 0 }

/-- The read round of part 1 in `xai_profile_set_config`: the request carries
`ctx->cur_id + 1`. -/
def set_config_read1 (ctx : xai_context) (index : Nat) : Int × List Nat × usb_dev_handle :=
  xai_device_read_packet ctx.dev (settings_header (to_uchar (ctx.cur_id + 1)) 1 index)

/-- The `if (touch_flag)` block of part 1 in `xai_profile_set_config`, entered
after a successful read round of part 1. -/
def set_config_write1 (ctx : xai_context) (index : Nat) (profile : xai_profile) :
    Int × List Nat × usb_dev_handle :=
  set_config_write (set_config_read1 ctx index).2.2
    (set_config_part1 profile (set_config_read1 ctx index).2.1) (set_config_read1 ctx index).1

/-- The read round of part 2 in `xai_profile_set_config`: `ctx->cur_id` is the
id of the part-1 answer and the request carries `ctx->cur_id + 1`. -/
def set_config_read2 (ctx : xai_context) (index : Nat) (profile : xai_profile) :
    Int × List Nat × usb_dev_handle :=
  xai_device_read_packet (set_config_write1 ctx index profile).2.2
    (settings_header (to_uchar (msg_id (set_config_read1 ctx index).2.1 + 1)) 2 index)

/-- The `if (touch_flag)` block of part 2 in `xai_profile_set_config`. -/
def set_config_write2 (ctx : xai_context) (index : Nat) (profile : xai_profile) :
    Int × List Nat × usb_dev_handle :=
  set_config_write (set_config_read2 ctx index profile).2.2
    (set_config_part2 profile (set_config_read2 ctx index profile).2.1)
    (set_config_read2 ctx index profile).1

/-- The read round of part 3 in `xai_profile_set_config`: the request carries
`ctx->cur_id`, the id of the part-2 answer. -/
def set_config_read3 (ctx : xai_context) (index : Nat) (profile : xai_profile) :
    Int × List Nat × usb_dev_handle :=
  xai_device_read_packet (set_config_write2 ctx index profile).2.2
    (settings_header (msg_id (set_config_read2 ctx index profile).2.1) 3 index)

/-- The `if (touch_flag)` block of part 3 in `xai_profile_set_config`. -/
def set_config_write3 (ctx : xai_context) (index : Nat) (profile : xai_profile) :
    Int × List Nat × usb_dev_handle :=
  set_config_write (set_config_read3 ctx index profile).2.2
    (set_config_part3 profile (set_config_read3 ctx index profile).2.1)
    (set_config_read3 ctx index profile).1

/-- The packet the `if (touch_flag)` block sends: the message after the field
assignments with the operation `SET_PROFILE_SETTINGS`. -/
def set_packet (s : List Nat × Bool) : List Nat :=
  s.1.set 1 XAI_MOUSE_LL_SET_PROFILE_SETTINGS

/-- The packets the `if (touch_flag)` block writes: the settings packet when a
field was touched, nothing otherwise. -/
def set_packets (s : List Nat × Bool) : List (List Nat) :=
  if s.2 then [set_packet s] else []

/-- The read round of part 1 in `xai_profile_get_config`. -/
def get_config_read1 (ctx : xai_context) (index : Nat) : Int × List Nat × usb_dev_handle :=
  xai_device_read_packet ctx.dev (settings_header ctx.cur_id 1 index)

/-- The read round of part 2 in `xai_profile_get_config`, made after a
successful round of part 1. -/
def get_config_read2 (ctx : xai_context) (index : Nat) : Int × List Nat × usb_dev_handle :=
  xai_device_read_packet (get_config_read1 ctx index).2.2
    (settings_header (msg_id (get_config_read1 ctx index).2.1) 2 index)

/-- The read round of part 3 in `xai_profile_get_config`, made after a
successful round of part 2. -/
def get_config_read3 (ctx : xai_context) (index : Nat) : Int × List Nat × usb_dev_handle :=
  xai_device_read_packet (get_config_read2 ctx index).2.2
    (settings_header (msg_id (get_config_read2 ctx index).2.1) 3 index)

/-- The message bytes of the members the part-1 block of
`xai_profile_set_config` assigns: (field, bytes of its member). -/
def part1_bytes : List (Nat × List Nat) :=
  [ (PROFILE_FIELD_RATE, [9, 10]), (PROFILE_FIELD_AIM, [19]), (PROFILE_FIELD_ACCEL, [16]),
    (PROFILE_FIELD_FREEMOVE, [18]), (PROFILE_FIELD_LCD_BRIGHTNESS, [20]),
    (PROFILE_FIELD_LCD_CONTRAST, [21]) ]

/-- The message bytes of the members the part-2 block assigns. -/
def part2_bytes : List (Nat × List Nat) :=
  [ (PROFILE_FIELD_CPI1, [6, 7]), (PROFILE_FIELD_CPI2, [8, 9]) ]

/-- The message bytes of the members the part-3 block assigns. -/
def part3_bytes : List (Nat × List Nat) :=
  [ (PROFILE_FIELD_BUTTON_1, [6, 7]), (PROFILE_FIELD_BUTTON_2, [8, 9]),
    (PROFILE_FIELD_BUTTON_3, [10, 11]), (PROFILE_FIELD_BUTTON_4, [12, 13]),
    (PROFILE_FIELD_BUTTON_5, [14, 15]), (PROFILE_FIELD_BUTTON_6, [16, 17]),
    (PROFILE_FIELD_BUTTON_7, [18, 19]), (PROFILE_FIELD_BUTTON_8, [28, 29]),
    (PROFILE_FIELD_BUTTON_9, [30, 31]) ]

/-- The message bytes of the fields of a part that test as present in the
update. -/
def dirty_bytes (table : List (Nat × List Nat)) (profile : xai_profile) : List Nat :=
  ((table.filter (fun e => field_present profile.fields e.1)).map (fun e => e.2)).flatten

/-- A value the editor rejects for a field: for a numeric field the number
`strtoul` parsed is outside the range of the `case` arm, for a button field
`button_setup_parse` does not return `RET_OK`. -/
def rejected_value (field : Nat) (arg : List Char) : Prop :=
  (∃ f ∈ numeric_fields, f.1 = field ∧ ¬ (strtoul arg ≥ f.2.1 ∧ strtoul arg ≤ f.2.2)) ∨
  (∃ f ∈ button_fields, f.1 = field ∧ (button_setup_parse arg 0).1 ≠ RET_OK)

instance (field : Nat) (arg : List Char) : Decidable (rejected_value field arg) := by
  unfold rejected_value
  infer_instance

/-! ## More concrete devices -/

/-- A device that fails every settings request (a write whose operation is
`GET_PROFILE_SETTINGS`) and on which every other transfer succeeds. -/
def settingless_device : usb_dev_handle :=
  { respond := fun _ t =>
      if t.direction = PACKET_WRITE ∧
          msg_operation t.packet = XAI_MOUSE_LL_GET_PROFILE_SETTINGS then (-1, t.packet)
      else (64, pong_packet),
    log := [] }

/-- A device whose second transfer fails without delivering a byte and on
which every other transfer succeeds. -/
def first_read_failing_device : usb_dev_handle :=
  { respond := fun log _ => if log.length = 1 then (-1, []) else (64, pong_packet),
    log := [] }

/-- A device on which every transfer succeeds and every read returns a report
whose operation is `PING_OR_ACK`. -/
def acking_device : usb_dev_handle :=
  { respond := fun _ _ => (64, (List.replicate 64 0).set 1 XAI_MOUSE_LL_PING_OR_ACK),
    log := [] }

/-- A device on which every transfer succeeds and every read returns a
`PONG_OR_RES` report whose first byte is 1. -/
def odd_device : usb_dev_handle :=
  { respond := fun _ _ => (64, pong_packet.set 0 1), log := [] }

/-- A device on which every transfer succeeds and every read returns a
`PONG_OR_RES` report whose byte 6 is 9 (the role of button 1 in a part-3
answer) and whose byte 21 is 20 (the LCD contrast in a part-1 answer). -/
def configured_device : usb_dev_handle :=
  { respond := fun _ _ => (64, (pong_packet.set 6 9).set 21 20), log := [] }

/-- The settings requests for profile `i` among a list of transfers. -/
def settings_requests (i : Nat) (ts : List Transfer) : List Transfer :=
  ts.filter (fun t => t.direction == PACKET_WRITE &&
    msg_operation t.packet == XAI_MOUSE_LL_GET_PROFILE_SETTINGS && msg_argument1 t.packet == i)

/-- Every packet written to the device between two of its states satisfies
`P`, the behaviour of the device is the same and its log only grew. -/
def writes_only (P : List Nat → Prop) (before after : usb_dev_handle) : Prop :=
  ∃ ws, log_step before after ws ∧ ∀ pkt ∈ ws, P pkt

/-- The packet `xai_device_init` writes first: `init_string` in a zeroed
64-byte buffer. -/
def init_packet : List Nat := init_string ++ List.replicate (PACKET_SIZE - 35) 0

/-- The message `xai_profile_set_current_index` builds. -/
def set_current_packet (id : Nat) (index : Int) : List Nat :=
  (((List.replicate 64 0).set 1 XAI_MOUSE_LL_SET_CURRENT_PROFILE).set 2 id).set 3
    (int_to_uchar index)

/-- The message `xai_device_write_to_flash` builds. -/
def flash_packet (id : Nat) : List Nat :=
  ((List.replicate 64 0).set 1 XAI_MOUSE_LL_SAVE_TO_FLASH).set 2 id

/-! ## Opening the channel -/

/-- What libusb and sysfs answer while `xai_init` runs: the results of
`usb_open` for the devices that match the vendor and product ids, in bus order
(`none` is a NULL handle), the interface name `xai_usbhid_find_interface` left
in `ctx->usbhid_driver_intf` (empty when it found none), the return value of
the first `usb_claim_interface`, whether `fopen` of the sysfs unbind file
succeeds, the return value of `fputs`, and the return value of the second
`usb_claim_interface`. -/
structure usb_system where
  opened : List (Option usb_dev_handle)
  intf_name : List Char
  claim_first : Int
  fopen_ok : Bool
  fputs_ret : Int
  claim_second : Int

/-- The C function `xai_usbhid_driver_workaround(intf_name, bind)`: the result
is the return code.  The outcomes of `fopen` and `fputs` are parameters. -/
def xai_usbhid_driver_workaround (intf_name : List Char) (fopen_ok : Bool) (fputs_ret : Int) :
    Int :=
  if intf_name ≠ [] then
    if fopen_ok then
      if fputs_ret > 0 then RET_OK else RET_ERROR_NO_PERMISSION
    else RET_ERROR_NO_PERMISSION
  else RET_ERROR_WRONG_PARAMETER

/-- The C function `xai_init(vendor_id, product_id, interface, ctx)` on the
static (zeroed) context: the result is the return code, `ctx->dev` after the
call (`none` is NULL) and whether a call of `usb_claim_interface` on that
handle succeeded. -/
def xai_init (sys : usb_system) : Int × Option usb_dev_handle × Bool :=
  let dev : Option usb_dev_handle := sys.opened.foldl (fun _ d => d) none
  match dev with
  | some d =>
    if sys.claim_first < 0 then
      let ret := xai_usbhid_driver_workaround sys.intf_name sys.fopen_ok sys.fputs_ret
      if ret = RET_OK then
        if sys.claim_second < 0 then (ret, none, false)
        else (ret, some d, true)
      else (ret, none, false)
    else (RET_OK, some d, true)
  | none => (RET_ERROR_NO_DEVICE_FOUND, none, false)

/-- A system on which the mouse is found and opened, the first
`usb_claim_interface` fails, the unbind through sysfs succeeds and the second
`usb_claim_interface` fails too. -/
def unclaimable_system : usb_system :=
  { opened := [some steady_device], intf_name := "4-2:1.2".toList, claim_first := -1,
    fopen_ok := true, fputs_ret := 1, claim_second := -1 }

/-- A system on which the mouse is found and opened, the first
`usb_claim_interface` fails and the unbind file cannot be opened. -/
def unpermitted_system : usb_system :=
  { opened := [some steady_device], intf_name := "4-2:1.2".toList, claim_first := -1,
    fopen_ok := false, fputs_ret := 0, claim_second := 0 }

/-- A system on which the mouse is found and opened and the interface is
claimed after the unbind. -/
def rebound_system : usb_system :=
  { opened := [some steady_device], intf_name := "4-2:1.2".toList, claim_first := -1,
    fopen_ok := true, fputs_ret := 1, claim_second := 0 }

/-! ## Lemmas on the C library model -/

theorem digitChar_isDigit (d : Nat) (h : d < 10) :
    (Nat.digitChar d).isDigit = true ∧ (Nat.digitChar d).toNat - 48 = d := by
  interval_cases d <;> decide

theorem strtoul_digits_toDigitsCore (fuel : Nat) :
    ∀ (n : Nat) (ds : List Char), n < fuel →
      strtoul_digits 0 (Nat.toDigitsCore 10 fuel n ds) = strtoul_digits n ds := by
  induction fuel with
  | zero => intro n ds h; omega
  | succ fuel ih =>
    intro n ds h
    have hd := digitChar_isDigit (n % 10) (Nat.mod_lt _ (by decide))
    unfold Nat.toDigitsCore
    by_cases h0 : n / 10 = 0
    · simp only [h0, if_true]
      have hn : n % 10 = n := by omega
      simp only [strtoul_digits, hd.1, if_true, hd.2, Nat.zero_mul, Nat.zero_add]
      rw [hn]
    · simp only [h0, if_false]
      rw [ih (n / 10) _ (by omega)]
      simp only [strtoul_digits, hd.1, if_true, hd.2]
      congr 1
      omega

theorem toDigitsCore_head (fuel : Nat) :
    ∀ (n : Nat) (ds : List Char), n < fuel →
      ∃ c t, Nat.toDigitsCore 10 fuel n ds = c :: t ∧ c.isDigit = true := by
  induction fuel with
  | zero => intro n ds h; omega
  | succ fuel ih =>
    intro n ds h
    have hd := digitChar_isDigit (n % 10) (Nat.mod_lt _ (by decide))
    unfold Nat.toDigitsCore
    by_cases h0 : n / 10 = 0
    · simp only [h0, if_true]
      exact ⟨_, _, rfl, hd.1⟩
    · simp only [h0, if_false]
      exact ih (n / 10) _ (by omega)

theorem isDigit_not_space_sign (c : Char) (h : c.isDigit = true) :
    isspace c = false ∧ (c == '-') = false ∧ (c == '+') = false := by
  have hb : 48 ≤ c.toNat ∧ c.toNat ≤ 57 := by
    simp only [Char.isDigit, Bool.and_eq_true, decide_eq_true_eq] at h
    exact ⟨h.1, h.2⟩
  refine ⟨?_, ?_, ?_⟩
  · simp only [isspace, Bool.or_eq_false_iff, Bool.and_eq_false_iff, beq_eq_false_iff_ne,
      decide_eq_false_iff_not]
    omega
  · rw [beq_eq_false_iff_ne]; rintro rfl; revert hb; decide
  · rw [beq_eq_false_iff_ne]; rintro rfl; revert hb; decide

theorem strtoul_toDigits (m : Nat) :
    strtoul (Nat.toDigits 10 m) = if m > ULONG_MAX then ULONG_MAX else m := by
  obtain ⟨c, t, hct, hc⟩ := toDigitsCore_head (m + 1) m [] (Nat.lt_succ_self m)
  have hv := strtoul_digits_toDigitsCore (m + 1) m [] (Nat.lt_succ_self m)
  obtain ⟨h1, h2, h3⟩ := isDigit_not_space_sign c hc
  unfold Nat.toDigits
  rw [hct] at hv ⊢
  simp only [strtoul, List.dropWhile, h1, h2, h3, Bool.or_false, Bool.false_eq_true, if_false]
  rw [hv]
  simp [strtoul_digits]

theorem strtoul_neg_toDigits (m : Nat) :
    strtoul ('-' :: Nat.toDigits 10 m) =
      if m > ULONG_MAX then ULONG_MAX else (ULONG_MAX + 1 - m) % (ULONG_MAX + 1) := by
  have hv := strtoul_digits_toDigitsCore (m + 1) m [] (Nat.lt_succ_self m)
  have hs : isspace '-' = false := by decide
  unfold Nat.toDigits
  simp only [strtoul, List.dropWhile, hs]
  simp only [beq_self_eq_true, Bool.true_or, if_true]
  rw [hv]
  simp [strtoul_digits]


theorem ULONG_MAX_eq : ULONG_MAX = 18446744073709551615 := by decide

theorem numeric_fields_cases (f : Nat × Nat × Nat) (hf : f ∈ numeric_fields) :
    f = (PROFILE_FIELD_CPI1, 100, 5001) ∨ f = (PROFILE_FIELD_CPI2, 100, 5001) ∨
    f = (PROFILE_FIELD_RATE, 125, 1000) ∨ f = (PROFILE_FIELD_ACCEL, 0, 100) ∨
    f = (PROFILE_FIELD_FREEMOVE, 0, 10) ∨ f = (PROFILE_FIELD_AIM, 0, 10) ∨
    f = (PROFILE_FIELD_LCD_BRIGHTNESS, 1, 10) ∨ f = (PROFILE_FIELD_LCD_CONTRAST, 1, 40) := by
  simpa [numeric_fields, XAI_MOUSE_CPI_MIN, XAI_MOUSE_CPI_MAX, XAI_MOUSE_RATE_MIN,
    XAI_MOUSE_RATE_MAX, XAI_MOUSE_ACCEL_MIN, XAI_MOUSE_ACCEL_MAX, XAI_MOUSE_FREEMOVE_MIN,
    XAI_MOUSE_FREEMOVE_MAX, XAI_MOUSE_AIM_MIN, XAI_MOUSE_AIM_MAX,
    XAI_MOUSE_LCD_BRIGHTNESS_MIN, XAI_MOUSE_LCD_BRIGHTNESS_MAX, XAI_MOUSE_LCD_CONTRAST_MIN,
    XAI_MOUSE_LCD_CONTRAST_MAX] using hf

/-- For a numeric field, the update built from the empty one tests as dirty
exactly when the value returned by `strtoul` lies in the field's range. -/
theorem change_req_numeric_present (f : Nat × Nat × Nat) (hf : f ∈ numeric_fields)
    (arg : List Char) :
    field_present (xai_profile_change_req empty_profile f.1 arg).2.fields f.1 = true ↔
      f.2.1 ≤ strtoul arg ∧ strtoul arg ≤ f.2.2 := by
  rcases numeric_fields_cases f hf with h | h | h | h | h | h | h | h <;> subst h <;>
    simp only [xai_profile_change_req, field_present, empty_profile,
      XAI_MOUSE_CPI_MIN, XAI_MOUSE_CPI_MAX, XAI_MOUSE_RATE_MIN,
      XAI_MOUSE_RATE_MAX, XAI_MOUSE_ACCEL_MIN, XAI_MOUSE_ACCEL_MAX, XAI_MOUSE_FREEMOVE_MIN,
      XAI_MOUSE_FREEMOVE_MAX, XAI_MOUSE_AIM_MIN, XAI_MOUSE_AIM_MAX,
      XAI_MOUSE_LCD_BRIGHTNESS_MIN, XAI_MOUSE_LCD_BRIGHTNESS_MAX, XAI_MOUSE_LCD_CONTRAST_MIN,
      XAI_MOUSE_LCD_CONTRAST_MAX,
      PROFILE_FIELD_MASK, PROFILE_FIELD_CPI1, PROFILE_FIELD_CPI2, PROFILE_FIELD_RATE,
      PROFILE_FIELD_AIM, PROFILE_FIELD_ACCEL, PROFILE_FIELD_FREEMOVE,
      PROFILE_FIELD_LCD_BRIGHTNESS, PROFILE_FIELD_LCD_CONTRAST, PROFILE_FIELD_BUTTON_1,
      PROFILE_FIELD_BUTTON_2, PROFILE_FIELD_BUTTON_3, PROFILE_FIELD_BUTTON_4,
      PROFILE_FIELD_BUTTON_5, PROFILE_FIELD_BUTTON_6, PROFILE_FIELD_BUTTON_7,
      PROFILE_FIELD_BUTTON_8, PROFILE_FIELD_BUTTON_9] <;>
    simp only [Nat.reduceEqDiff, if_false, ge_iff_le] <;>
    split_ifs with hr <;> simp +decide <;> omega


/-! ## Lemmas on `strcasecmp` and the alias tests -/

theorem char_eq_of_toNat_eq (a b : Char) (h : a.toNat = b.toNat) : a = b := by
  rw [← Char.ofNat_toNat a, ← Char.ofNat_toNat b, h]

theorem tolower_toNat_ne_zero (c : Char) (h : c ≠ Char.ofNat 0) : (tolower c).toNat ≠ 0 := by
  have hc : c = Char.ofNat c.toNat := (Char.ofNat_toNat c).symm
  unfold tolower Char.toLower
  by_cases hr : c.toNat ≥ 65 ∧ c.toNat ≤ 90
  · simp only [hr, and_self, if_true]
    obtain ⟨h1, h2⟩ := hr
    generalize c.toNat = n at h1 h2
    interval_cases n <;> decide
  · simp only [hr, if_false]
    intro h0
    exact h (by rw [hc, h0])

theorem strcasecmp_eq_zero_iff (s : List Char) :
    ∀ t : List Char, cstr s → cstr t →
      (strcasecmp s t = 0 ↔ s.map tolower = t.map tolower) := by
  induction s with
  | nil =>
    intro t _ ht
    cases t with
    | nil => simp [strcasecmp]
    | cons b bs =>
      have hb := tolower_toNat_ne_zero b (ht b (List.mem_cons_self _ _))
      simp only [strcasecmp, List.map_nil, List.map_cons]
      constructor
      · intro h; omega
      · intro h; cases h
  | cons a as ih =>
    intro t hs ht
    cases t with
    | nil =>
      have ha := tolower_toNat_ne_zero a (hs a (List.mem_cons_self _ _))
      simp only [strcasecmp, List.map_nil, List.map_cons]
      constructor
      · intro h; omega
      · intro h; cases h
    | cons b bs =>
      have hs2 : cstr as := fun c hc => hs c (List.mem_cons_of_mem _ hc)
      have ht2 : cstr bs := fun c hc => ht c (List.mem_cons_of_mem _ hc)
      simp only [strcasecmp, List.map_cons, List.cons.injEq]
      by_cases hab : tolower a = tolower b
      · simp only [hab, if_true, true_and]
        exact ih bs hs2 ht2
      · simp only [hab, if_false, false_and, iff_false]
        intro h
        exact hab (char_eq_of_toNat_eq _ _ (by omega))

theorem alias1_test (s : List Char) (hs : cstr s) (a : Char) (ha : a ≠ Char.ofNat 0) :
    (char_at s 0 == a && char_at s 1 == Char.ofNat 0) = decide (s = [a]) := by
  match s, hs with
  | [], _ =>
    have : ¬ (Char.ofNat 0 = a) := fun h => ha h.symm
    simp [char_at, this]
  | [c], _ => by_cases h : c = a <;> simp [char_at, h]
  | c :: d :: t, hs =>
    have hd : d ≠ Char.ofNat 0 := hs d (by simp)
    simp [char_at, hd]

theorem alias2_test (s : List Char) (hs : cstr s) (a b : Char) (ha : a ≠ Char.ofNat 0)
    (hb : b ≠ Char.ofNat 0) :
    (char_at s 0 == a && char_at s 1 == b && char_at s 2 == Char.ofNat 0) =
      decide (s = [a, b]) := by
  match s, hs with
  | [], _ =>
    have : ¬ (Char.ofNat 0 = a) := fun h => ha h.symm
    simp [char_at, this]
  | [c], _ =>
    have : ¬ (Char.ofNat 0 = b) := fun h => hb h.symm
    simp [char_at, this]
  | [c, d], _ => by_cases h : c = a <;> by_cases h2 : d = b <;> simp [char_at, h, h2]
  | c :: d :: e :: t, hs =>
    have he : e ≠ Char.ofNat 0 := hs e (by simp)
    simp [char_at, he]


/-! ## Characterisation of `button_setup_parse` -/

theorem cstr_of_map_tolower (s : List Char) (h : cstr (s.map tolower)) : cstr s := by
  intro c hc e
  subst e
  exact h (tolower (Char.ofNat 0)) (List.mem_map_of_mem _ hc) (by decide)

theorem button_setup_parse_eq (s : List Char) (hs : cstr s) (v : Nat) :
    button_setup_parse s v =
      if s.map tolower = "disable".toList ∨ s = ['d'] then (RET_OK, 13)
      else if s.map tolower = "left".toList ∨ s = ['l'] then (RET_OK, 9)
      else if s.map tolower = "right".toList ∨ s = ['r'] then (RET_OK, 10)
      else if s.map tolower = "middle".toList ∨ s = ['m'] then (RET_OK, 6)
      else if s.map tolower = "wheelup".toList ∨ s = ['u', 'p'] then (RET_OK, 11)
      else if s.map tolower = "wheeldown".toList ∨ s = ['d', 'w'] then (RET_OK, 12)
      else if s.map tolower = "tiltleft".toList ∨ s = ['t', 'l'] then (RET_OK, 2)
      else if s.map tolower = "tiltright".toList ∨ s = ['t', 'r'] then (RET_OK, 3)
      else if s.map tolower = "ieforward".toList ∨ s = ['f', 'w'] then (RET_OK, 4)
      else if s.map tolower = "iebackward".toList ∨ s = ['b', 'w'] then (RET_OK, 5)
      else (-1, v) := by
  have e : ∀ name : List Char, cstr name → name.map tolower = name →
      (strcasecmp s name = 0 ↔ s.map tolower = name) := fun name hn hl => by
    rw [strcasecmp_eq_zero_iff s name hs hn, hl]
  have e1 := e "disable".toList (by decide) (by decide)
  have e2 := e "left".toList (by decide) (by decide)
  have e3 := e "right".toList (by decide) (by decide)
  have e4 := e "middle".toList (by decide) (by decide)
  have e5 := e "wheelup".toList (by decide) (by decide)
  have e6 := e "wheeldown".toList (by decide) (by decide)
  have e7 := e "tiltleft".toList (by decide) (by decide)
  have e8 := e "tiltright".toList (by decide) (by decide)
  have e9 := e "ieforward".toList (by decide) (by decide)
  have e10 := e "iebackward".toList (by decide) (by decide)
  have a1 := fun a ha => alias1_test s hs a ha
  have a2 := fun a b ha hb => alias2_test s hs a b ha hb
  simp only [button_setup_parse, a1 'd' (by decide), a1 'l' (by decide), a1 'r' (by decide),
    a1 'm' (by decide), a2 'u' 'p' (by decide) (by decide), a2 'd' 'w' (by decide) (by decide),
    a2 't' 'l' (by decide) (by decide), a2 't' 'r' (by decide) (by decide),
    a2 'f' 'w' (by decide) (by decide), a2 'b' 'w' (by decide) (by decide),
    Bool.or_eq_true, decide_eq_true_eq, e1, e2, e3, e4, e5, e6, e7, e8, e9, e10]


theorem button_roles_cases (r : List Char × List Char × Nat) (hr : r ∈ button_roles) :
    r = ("disable".toList, ['d'], 13) ∨ r = ("left".toList, ['l'], 9) ∨
    r = ("right".toList, ['r'], 10) ∨ r = ("middle".toList, ['m'], 6) ∨
    r = ("wheelup".toList, ['u', 'p'], 11) ∨ r = ("wheeldown".toList, ['d', 'w'], 12) ∨
    r = ("tiltleft".toList, ['t', 'l'], 2) ∨ r = ("tiltright".toList, ['t', 'r'], 3) ∨
    r = ("ieforward".toList, ['f', 'w'], 4) ∨ r = ("iebackward".toList, ['b', 'w'], 5) := by
  simpa only [button_roles, List.mem_cons, List.mem_singleton, List.mem_nil_iff, or_false]
    using hr

/-- A full role name, in any mix of upper and lower case, parses to the
role's value. -/
theorem button_setup_parse_full (r : List Char × List Char × Nat) (hr : r ∈ button_roles)
    (s : List Char) (v : Nat) (h : s.map tolower = r.1) :
    button_setup_parse s v = (RET_OK, r.2.2) := by
  have hc : ∀ r ∈ button_roles, cstr r.1 ∧ 3 ≤ r.1.length := by decide
  have hs : cstr s := by
    apply cstr_of_map_tolower
    rw [h]
    exact (hc r hr).1
  have hlen : 3 ≤ s.length := by
    have := (hc r hr).2
    rw [← h, List.length_map] at this
    exact this
  have n1 : ∀ a : Char, s ≠ [a] := fun a e => by rw [e] at hlen; simp at hlen
  have n2 : ∀ a b : Char, s ≠ [a, b] := fun a b e => by rw [e] at hlen; simp at hlen
  rw [button_setup_parse_eq s hs v]
  rcases button_roles_cases r hr with e | e | e | e | e | e | e | e | e | e <;> subst e <;>
    simp only at h <;>
    simp only [h, n1, n2, or_false] <;>
    simp +decide

/-- A short alias parses to the role's value. -/
theorem button_setup_parse_alias (r : List Char × List Char × Nat) (hr : r ∈ button_roles)
    (v : Nat) : button_setup_parse r.2.1 v = (RET_OK, r.2.2) := by
  rcases button_roles_cases r hr with e | e | e | e | e | e | e | e | e | e <;> subst e <;>
    rw [button_setup_parse_eq _ (by decide) v] <;>
    simp +decide

/-- A string that is neither a full name (ignoring case) nor an alias is
rejected and `*value` keeps its content. -/
theorem button_setup_parse_reject (s : List Char) (hs : cstr s) (v : Nat)
    (h : ∀ r ∈ button_roles, ¬ (s.map tolower = r.1 ∨ s = r.2.1)) :
    button_setup_parse s v = (-1, v) := by
  rw [button_setup_parse_eq s hs v]
  simp only [button_roles, List.mem_cons, List.mem_singleton, List.mem_nil_iff, or_false,
    forall_eq_or_imp, forall_eq] at h
  obtain ⟨h1, h2, h3, h4, h5, h6, h7, h8, h9, h10⟩ := h
  simp only [h1, h2, h3, h4, h5, h6, h7, h8, h9, h10, if_false]


/-! ## The `fields` word -/

theorem lor_eq_of_land_eq (f m : Nat) (h : f &&& m = m) : f ||| m = f := by
  apply Nat.eq_of_testBit_eq
  intro i
  have hi := congrArg (fun x => x.testBit i) h
  simp only [Nat.testBit_and] at hi
  rw [Nat.testBit_or]
  cases hf : f.testBit i <;> cases hm : m.testBit i <;> simp_all

theorem lor_land_self (a m : Nat) : (a ||| m) &&& m = m := by
  apply Nat.eq_of_testBit_eq
  intro i
  rw [Nat.testBit_and, Nat.testBit_or]
  cases a.testBit i <;> cases m.testBit i <;> rfl

theorem lor_lor_land_self (a m b : Nat) : ((a ||| m) ||| b) &&& m = m := by
  apply Nat.eq_of_testBit_eq
  intro i
  rw [Nat.testBit_and, Nat.testBit_or, Nat.testBit_or]
  cases a.testBit i <;> cases m.testBit i <;> cases b.testBit i <;> rfl

theorem change_req_button_fields (p : xai_profile) (i field : Nat) (arg : List Char) :
    (change_req_button p i field arg).fields = p.fields ∨
      (change_req_button p i field arg).fields = p.fields ||| field := by
  unfold change_req_button
  dsimp only
  split_ifs
  · exact Or.inr rfl
  · exact Or.inl rfl

/-- Every call of the editor sets the marker bits, and at most the bits of
the requested field besides. -/
theorem change_req_fields (p : xai_profile) (field : Nat) (arg : List Char) :
    (xai_profile_change_req p field arg).2.fields = p.fields ||| PROFILE_FIELD_MASK ∨
      (xai_profile_change_req p field arg).2.fields =
        (p.fields ||| PROFILE_FIELD_MASK) ||| field := by
  have key : ∀ P : Int × xai_profile → Prop,
      (∀ (r : Int) (q : xai_profile), (q.fields = p.fields ||| PROFILE_FIELD_MASK ∨
        q.fields = (p.fields ||| PROFILE_FIELD_MASK) ||| field) → P (r, q)) →
      P (xai_profile_change_req p field arg) := by
    intro P hP
    have hite : ∀ (c : Prop) [Decidable c] (a b : Int × xai_profile),
        P a → P b → P (if c then a else b) := by
      intro c _ a b ha hb
      split <;> assumption
    unfold xai_profile_change_req
    dsimp only
    repeat' apply hite
    all_goals
      apply hP
      first
      | exact Or.inl rfl
      | exact Or.inr rfl
      | exact change_req_button_fields _ _ _ _
  exact key (fun q => q.2.fields = p.fields ||| PROFILE_FIELD_MASK ∨
      q.2.fields = (p.fields ||| PROFILE_FIELD_MASK) ||| field) (fun _ _ h => h)

theorem change_req_marked (p : xai_profile) (field : Nat) (arg : List Char) :
    (xai_profile_change_req p field arg).2.fields &&& PROFILE_FIELD_MASK =
      PROFILE_FIELD_MASK := by
  rcases change_req_fields p field arg with h | h <;> rw [h]
  · exact lor_land_self _ _
  · exact lor_lor_land_self _ _ _

theorem update_of_snoc (reqs : List (Nat × List Char)) (r : Nat × List Char) :
    update_of (reqs ++ [r]) = (xai_profile_change_req (update_of reqs) r.1 r.2).2 := by
  simp [update_of, List.foldl_append]

/-- The `fields` word of an update built by the editor is 0 (no call) or
carries the marker bits. -/
theorem update_of_fields (reqs : List (Nat × List Char)) :
    (update_of reqs).fields = 0 ∨
      (update_of reqs).fields &&& PROFILE_FIELD_MASK = PROFILE_FIELD_MASK := by
  induction reqs using List.reverseRecOn with
  | nil => exact Or.inl rfl
  | append_singleton l r _ =>
    rw [update_of_snoc]
    exact Or.inr (change_req_marked _ _ _)

theorem dirty_set_lor_mask (p : xai_profile)
    (h : p.fields = 0 ∨ p.fields &&& PROFILE_FIELD_MASK = PROFILE_FIELD_MASK) :
    dirty_set { p with fields := p.fields ||| PROFILE_FIELD_MASK } = dirty_set p := by
  rcases h with h | h
  · simp only [dirty_set, h]
    decide
  · simp only [dirty_set, lor_eq_of_land_eq _ _ h]

theorem change_req_button_reject (p : xai_profile) (f : Nat × Nat) (hf : f ∈ button_fields)
    (arg : List Char) (h : ∀ v, button_setup_parse arg v = (-1, v)) :
    xai_profile_change_req p f.1 arg =
      (RET_OK, { p with fields := p.fields ||| PROFILE_FIELD_MASK }) := by
  have hf2 : f = (PROFILE_FIELD_BUTTON_1, 0) ∨ f = (PROFILE_FIELD_BUTTON_2, 1) ∨
      f = (PROFILE_FIELD_BUTTON_3, 2) ∨ f = (PROFILE_FIELD_BUTTON_4, 3) ∨
      f = (PROFILE_FIELD_BUTTON_5, 4) ∨ f = (PROFILE_FIELD_BUTTON_6, 5) ∨
      f = (PROFILE_FIELD_BUTTON_7, 6) ∨ f = (PROFILE_FIELD_BUTTON_8, 7) ∨
      f = (PROFILE_FIELD_BUTTON_9, 8) := by
    simpa only [button_fields, List.mem_cons, List.mem_singleton, List.mem_nil_iff, or_false]
      using hf
  have hb : ∀ (q : xai_profile) (i fl : Nat), change_req_button q i fl arg = q := by
    intro q i fl
    simp [change_req_button, h, RET_OK]
  rcases hf2 with e | e | e | e | e | e | e | e | e <;> subst e <;>
    simp +decide [xai_profile_change_req, hb]


theorem change_req_freemove (p : xai_profile) (arg : List Char) :
    xai_profile_change_req p PROFILE_FIELD_FREEMOVE arg =
      if strtoul arg ≤ 10 then
        (RET_OK, { p with freemove := to_short (0x64 + strtoul arg * 5),
                          fields := (p.fields ||| PROFILE_FIELD_MASK) ||| PROFILE_FIELD_FREEMOVE })
      else (RET_OK, { p with fields := p.fields ||| PROFILE_FIELD_MASK }) := by
  simp +decide [xai_profile_change_req, XAI_MOUSE_FREEMOVE_MIN, XAI_MOUSE_FREEMOVE_MAX]

theorem change_req_aim (p : xai_profile) (arg : List Char) :
    xai_profile_change_req p PROFILE_FIELD_AIM arg =
      if strtoul arg ≤ 10 then
        (RET_OK, { p with aim := to_short (0x64 + strtoul arg * 5),
                          fields := (p.fields ||| PROFILE_FIELD_MASK) ||| PROFILE_FIELD_AIM })
      else (RET_OK, { p with fields := p.fields ||| PROFILE_FIELD_MASK }) := by
  simp +decide [xai_profile_change_req, XAI_MOUSE_AIM_MIN, XAI_MOUSE_AIM_MAX]

theorem strtoul_decimal_small (n : Nat) (h : n ≤ 10) : strtoul (decimal (n : Int)) = n := by
  show strtoul (Nat.toDigits 10 n) = n
  rw [strtoul_toDigits, ULONG_MAX_eq]
  split_ifs <;> omega

/-! ## Field editor: ranges, roles and scaling -/

/-- C1 (counterexample): the decimal value -18446744073709551566 is below the
minimum 0 of the acceleration field, yet `xai_profile_change_req` applied to
the empty update marks the field dirty (and stores 50), because `strtoul`
negates the magnitude modulo 2^64. -/
theorem accel_wrapped_negative_is_accepted :
    (-18446744073709551566 : Int) < (XAI_MOUSE_ACCEL_MIN : Int) ∧
    field_present (xai_profile_change_req empty_profile PROFILE_FIELD_ACCEL
      (decimal (-18446744073709551566))).2.fields PROFILE_FIELD_ACCEL = true ∧
    (xai_profile_change_req empty_profile PROFILE_FIELD_ACCEL
      (decimal (-18446744073709551566))).2.accel = 50 := by
  decide

/-- C1 (amended): for every numeric field and every integer `n` written as a
decimal numeral, `xai_profile_change_req` applied to the empty update makes the
field test as dirty exactly when `min ≤ n ≤ max`, or `-2^64 < n < 0` and
`n + 2^64` lies in `[min, max]` (the unsigned wrap-around of `strtoul`).  In
particular every `n ≥ 0` outside the range is rejected and both bounds are
accepted. -/
theorem numeric_field_dirty_iff (f : Nat × Nat × Nat) (hf : f ∈ numeric_fields) (n : Int) :
    field_present (xai_profile_change_req empty_profile f.1 (decimal n)).2.fields f.1 = true ↔
      ((f.2.1 : Int) ≤ n ∧ n ≤ (f.2.2 : Int)) ∨
      (- 2 ^ 64 < n ∧ n < 0 ∧ (f.2.1 : Int) ≤ n + 2 ^ 64 ∧ n + 2 ^ 64 ≤ (f.2.2 : Int)) := by
  have h64 : (2 : Int) ^ 64 = 18446744073709551616 := by norm_num
  rw [change_req_numeric_present f hf, h64]
  cases n with
  | ofNat m =>
    have hd : decimal (Int.ofNat m) = Nat.toDigits 10 m := rfl
    rw [hd, strtoul_toDigits, ULONG_MAX_eq]
    rcases numeric_fields_cases f hf with e | e | e | e | e | e | e | e <;> subst e <;>
      simp only [Int.ofNat_eq_coe] <;> split_ifs <;> omega
  | negSucc m =>
    have hd : decimal (Int.negSucc m) = '-' :: Nat.toDigits 10 (m + 1) := rfl
    rw [hd, strtoul_neg_toDigits, ULONG_MAX_eq]
    rcases numeric_fields_cases f hf with e | e | e | e | e | e | e | e <;> subst e <;>
      simp only [Int.negSucc_eq] <;> push_cast <;> split_ifs <;> omega

/-- C1 (witness): the amended statement at the acceleration field and the
value 50. -/
theorem numeric_field_dirty_iff_witness :
    (PROFILE_FIELD_ACCEL, XAI_MOUSE_ACCEL_MIN, XAI_MOUSE_ACCEL_MAX) ∈ numeric_fields ∧
    (field_present (xai_profile_change_req empty_profile PROFILE_FIELD_ACCEL
        (decimal 50)).2.fields PROFILE_FIELD_ACCEL = true ↔
      (((XAI_MOUSE_ACCEL_MIN : Nat) : Int) ≤ 50 ∧ (50 : Int) ≤ ((XAI_MOUSE_ACCEL_MAX : Nat) : Int)) ∨
      (- 2 ^ 64 < (50 : Int) ∧ (50 : Int) < 0 ∧ ((XAI_MOUSE_ACCEL_MIN : Nat) : Int) ≤ 50 + 2 ^ 64 ∧
        (50 : Int) + 2 ^ 64 ≤ ((XAI_MOUSE_ACCEL_MAX : Nat) : Int))) :=
  ⟨by decide,
   numeric_field_dirty_iff (PROFILE_FIELD_ACCEL, XAI_MOUSE_ACCEL_MIN, XAI_MOUSE_ACCEL_MAX)
     (by decide) 50⟩


/-- C2: for every supported button role, the full name written in any mix of
upper and lower case and the short alias both parse successfully to the role's
value; `*value` receives that same code in both cases. -/
theorem button_full_name_and_alias_same_code (r : List Char × List Char × Nat)
    (hr : r ∈ button_roles) (s : List Char) (v w : Nat) (h : s.map tolower = r.1) :
    button_setup_parse s v = (RET_OK, r.2.2) ∧
    button_setup_parse r.2.1 w = (RET_OK, r.2.2) ∧
    button_setup_parse "wheeldown".toList v = button_setup_parse "dw".toList w :=
  ⟨button_setup_parse_full r hr s v h, button_setup_parse_alias r hr w,
   (button_setup_parse_full ("wheeldown".toList, ['d', 'w'], 12) (by decide)
     "wheeldown".toList v (by decide)).trans
     (button_setup_parse_alias ("wheeldown".toList, ['d', 'w'], 12) (by decide) w).symm⟩

/-- C2 (witness): the role "wheeldown" typed as "WheelDown". -/
theorem button_full_name_and_alias_same_code_witness :
    ("wheeldown".toList, ['d', 'w'], 12) ∈ button_roles ∧
    "WheelDown".toList.map tolower = "wheeldown".toList ∧
    button_setup_parse "WheelDown".toList 0 = (RET_OK, 12) ∧
    button_setup_parse ['d', 'w'] 0 = (RET_OK, 12) ∧
    button_setup_parse "wheeldown".toList 0 = button_setup_parse "dw".toList 0 :=
  ⟨by decide, by decide,
   button_full_name_and_alias_same_code ("wheeldown".toList, ['d', 'w'], 12) (by decide)
     "WheelDown".toList 0 0 (by decide)⟩

/-- C3 (counterexample): six of the role names the spec lists are rejected by
`button_setup_parse` (result -1, `*value` untouched), while "wheelup" and
"ieforward", which the spec does not list, are accepted. -/
theorem spec_listed_role_names_rejected :
    button_setup_parse "wheel-up".toList 7 = (-1, 7) ∧
    button_setup_parse "wheel-down".toList 7 = (-1, 7) ∧
    button_setup_parse "tilt-left".toList 7 = (-1, 7) ∧
    button_setup_parse "tilt-right".toList 7 = (-1, 7) ∧
    button_setup_parse "forward".toList 7 = (-1, 7) ∧
    button_setup_parse "backward".toList 7 = (-1, 7) ∧
    button_setup_parse "wheelup".toList 7 = (RET_OK, 11) ∧
    button_setup_parse "ieforward".toList 7 = (RET_OK, 4) := by
  decide

/-- C3 (amended): button fields accept exactly the names disable, left, right,
middle, wheelup, wheeldown, tiltleft, tiltright, ieforward, iebackward
(ignoring case) and their aliases d, l, r, m, up, dw, tl, tr, fw, bw, each
mapped to the fixed code of `button_roles`.  Every other string is rejected
with -1 and `*value` untouched; through `xai_profile_change_req` on any update
built by the editor it leaves the stored buttons and the dirty set unchanged
(only the marker bits are set in `fields`). -/
theorem button_roles_closed_set (s : List Char) (hs : cstr s) (v : Nat) :
    (∀ r ∈ button_roles, (s.map tolower = r.1 ∨ s = r.2.1) →
      button_setup_parse s v = (RET_OK, r.2.2)) ∧
    ((∀ r ∈ button_roles, ¬ (s.map tolower = r.1 ∨ s = r.2.1)) →
      button_setup_parse s v = (-1, v) ∧
      ∀ (reqs : List (Nat × List Char)) (f : Nat × Nat), f ∈ button_fields →
        (xai_profile_change_req (update_of reqs) f.1 s).1 = RET_OK ∧
        (xai_profile_change_req (update_of reqs) f.1 s).2.button = (update_of reqs).button ∧
        (xai_profile_change_req (update_of reqs) f.1 s).2.fields =
          (update_of reqs).fields ||| PROFILE_FIELD_MASK ∧
        dirty_set (xai_profile_change_req (update_of reqs) f.1 s).2 =
          dirty_set (update_of reqs)) := by
  refine ⟨?_, ?_⟩
  · intro r hr h
    rcases h with h | h
    · exact button_setup_parse_full r hr s v h
    · rw [h]; exact button_setup_parse_alias r hr v
  · intro h
    refine ⟨button_setup_parse_reject s hs v h, ?_⟩
    intro reqs f hf
    rw [change_req_button_reject (update_of reqs) f hf s
      (fun w => button_setup_parse_reject s hs w h)]
    exact ⟨rfl, rfl, rfl, dirty_set_lor_mask _ (update_of_fields reqs)⟩

/-- C3 (witness): the amended statement at the string "forward". -/
theorem button_roles_closed_set_witness :
    cstr "forward".toList ∧
    ((∀ r ∈ button_roles, ("forward".toList.map tolower = r.1 ∨ "forward".toList = r.2.1) →
      button_setup_parse "forward".toList 7 = (RET_OK, r.2.2)) ∧
    ((∀ r ∈ button_roles, ¬ ("forward".toList.map tolower = r.1 ∨ "forward".toList = r.2.1)) →
      button_setup_parse "forward".toList 7 = (-1, 7) ∧
      ∀ (reqs : List (Nat × List Char)) (f : Nat × Nat), f ∈ button_fields →
        (xai_profile_change_req (update_of reqs) f.1 "forward".toList).1 = RET_OK ∧
        (xai_profile_change_req (update_of reqs) f.1 "forward".toList).2.button =
          (update_of reqs).button ∧
        (xai_profile_change_req (update_of reqs) f.1 "forward".toList).2.fields =
          (update_of reqs).fields ||| PROFILE_FIELD_MASK ∧
        dirty_set (xai_profile_change_req (update_of reqs) f.1 "forward".toList).2 =
          dirty_set (update_of reqs))) :=
  ⟨by decide, button_roles_closed_set "forward".toList (by decide) 7⟩

/-- C4 (counterexample): the free-move input 5 does not store 0x81. -/
theorem freemove_5_is_not_0x81 :
    (xai_profile_change_req empty_profile PROFILE_FIELD_FREEMOVE "5".toList).2.freemove ≠ 0x81 := by
  decide

/-- C4 (amended): applying the free-move input 5 to any update stores the
internal value 0x64 + 5*5 = 0x7D (125) in the freemove field. -/
theorem freemove_5_stores_0x7D (p : xai_profile) :
    (xai_profile_change_req p PROFILE_FIELD_FREEMOVE "5".toList).2.freemove = 0x64 + 5 * 5 ∧
    (0x64 + 5 * 5 : Int) = 0x7D := by
  have h : strtoul "5".toList = 5 := by decide
  rw [change_req_freemove, h]
  refine ⟨?_, by decide⟩
  simp +decide [to_short]

/-- C5: for every n in 0..10 the editor stores 0x64 + 5*n for free-move input
n and for aim input n, and the decoding used by `xai_profile_print`,
(v - 0x64) / 5, gives n back. -/
theorem freemove_aim_scaling_inverse (p : xai_profile) (n : Nat) (h : n ≤ 10) :
    (xai_profile_change_req p PROFILE_FIELD_FREEMOVE (decimal n)).2.freemove = 0x64 + 5 * n ∧
    print_unit (xai_profile_change_req p PROFILE_FIELD_FREEMOVE (decimal n)).2.freemove = n ∧
    (xai_profile_change_req p PROFILE_FIELD_AIM (decimal n)).2.aim = 0x64 + 5 * n ∧
    print_unit (xai_profile_change_req p PROFILE_FIELD_AIM (decimal n)).2.aim = n := by
  rw [change_req_freemove, change_req_aim, strtoul_decimal_small n h]
  simp only [h, if_true]
  interval_cases n <;> decide

/-- C5 (witness): the scaling at n = 10, the upper bound. -/
theorem freemove_aim_scaling_inverse_witness :
    (10 : Nat) ≤ 10 ∧
    (xai_profile_change_req empty_profile PROFILE_FIELD_FREEMOVE (decimal (10 : Nat))).2.freemove
      = 0x64 + 5 * (10 : Nat) ∧
    print_unit (xai_profile_change_req empty_profile PROFILE_FIELD_FREEMOVE
      (decimal (10 : Nat))).2.freemove = (10 : Nat) ∧
    (xai_profile_change_req empty_profile PROFILE_FIELD_AIM (decimal (10 : Nat))).2.aim
      = 0x64 + 5 * (10 : Nat) ∧
    print_unit (xai_profile_change_req empty_profile PROFILE_FIELD_AIM
      (decimal (10 : Nat))).2.aim = (10 : Nat) :=
  ⟨le_refl 10, freemove_aim_scaling_inverse empty_profile 10 (le_refl 10)⟩

/-- C8 (code behaviour at the failing input): `PROFILE_FIELD_BUTTON_2` is
0x40030000, the union of the bits of `PROFILE_FIELD_BUTTON_1` and
`PROFILE_FIELD_LCD_CONTRAST`; an update in which only button 2 was requested
therefore also tests as containing button 1 and the LCD contrast, its dirty
set has three members, and `xai_profile_set_config` writes part 1 (the LCD
contrast) as well as part 3. -/
theorem button_2_marks_button_1_and_contrast :
    PROFILE_FIELD_BUTTON_2 = PROFILE_FIELD_BUTTON_1 ||| PROFILE_FIELD_LCD_CONTRAST ∧
    field_present (xai_profile_change_req empty_profile PROFILE_FIELD_BUTTON_2
      "left".toList).2.fields PROFILE_FIELD_BUTTON_2 = true ∧
    field_present (xai_profile_change_req empty_profile PROFILE_FIELD_BUTTON_2
      "left".toList).2.fields PROFILE_FIELD_BUTTON_1 = true ∧
    field_present (xai_profile_change_req empty_profile PROFILE_FIELD_BUTTON_2
      "left".toList).2.fields PROFILE_FIELD_LCD_CONTRAST = true ∧
    dirty_set (xai_profile_change_req empty_profile PROFILE_FIELD_BUTTON_2 "left".toList).2 =
      [PROFILE_FIELD_LCD_CONTRAST, PROFILE_FIELD_BUTTON_1, PROFILE_FIELD_BUTTON_2] ∧
    (written (new_transfers steady_device
      (xai_profile_set_config (initial_context steady_device) 0
        (xai_profile_change_req empty_profile PROFILE_FIELD_BUTTON_2
          "left".toList).2).2.dev)).map msg_operation =
      [XAI_MOUSE_LL_GET_PROFILE_SETTINGS, XAI_MOUSE_LL_SET_PROFILE_SETTINGS,
       XAI_MOUSE_LL_GET_PROFILE_SETTINGS, XAI_MOUSE_LL_GET_PROFILE_SETTINGS,
       XAI_MOUSE_LL_SET_PROFILE_SETTINGS] := by
  decide


/-! ## Transfers and the log of the device -/

theorem log_step_refl (d : usb_dev_handle) : log_step d d [] :=
  ⟨rfl, [], by simp, rfl⟩

theorem log_step_trans {a b c : usb_dev_handle} {ws1 ws2 : List (List Nat)}
    (h1 : log_step a b ws1) (h2 : log_step b c ws2) : log_step a c (ws1 ++ ws2) := by
  obtain ⟨r1, n1, l1, w1⟩ := h1
  obtain ⟨r2, n2, l2, w2⟩ := h2
  refine ⟨r2.trans r1, n1 ++ n2, ?_, ?_⟩
  · rw [l2, l1, List.append_assoc]
  · rw [List.filter_append, List.map_append, w1, w2]

theorem log_step_written {a b : usb_dev_handle} {ws : List (List Nat)}
    (h : log_step a b ws) :
    b.log = a.log ++ new_transfers a b ∧ written (new_transfers a b) = ws := by
  obtain ⟨_, n, l, w⟩ := h
  have hn : new_transfers a b = n := by
    simp [new_transfers, l]
  rw [hn]
  exact ⟨l, w⟩

theorem transfer_write_step (dev : usb_dev_handle) (pkt : List Nat) :
    log_step dev (xai_device_transfer_packet dev pkt PACKET_WRITE).2.2 [pkt] := by
  unfold xai_device_transfer_packet
  simp only [show ¬ (PACKET_WRITE = PACKET_READ) by decide, if_false]
  split_ifs <;> exact ⟨rfl, [⟨PACKET_WRITE, pkt⟩], rfl, rfl⟩

theorem transfer_read_step (dev : usb_dev_handle) (pkt : List Nat) :
    log_step dev (xai_device_transfer_packet dev pkt PACKET_READ).2.2 [] := by
  unfold xai_device_transfer_packet
  simp only [if_true]
  split_ifs <;> exact ⟨rfl, [⟨PACKET_READ, List.replicate PACKET_SIZE 0x55⟩], rfl, rfl⟩

theorem transfer_write_packet (dev : usb_dev_handle) (pkt : List Nat) :
    (xai_device_transfer_packet dev pkt PACKET_WRITE).2.1 = pkt := by
  unfold xai_device_transfer_packet
  simp only [show ¬ (PACKET_WRITE = PACKET_READ) by decide, if_false, if_true]
  split_ifs <;> rfl

theorem fill_buffer_length (data : List Nat) : (fill_buffer data).length = 64 := by
  simp [fill_buffer, PACKET_SIZE]

theorem transfer_read_length (dev : usb_dev_handle) (pkt : List Nat) :
    (xai_device_transfer_packet dev pkt PACKET_READ).2.1.length = 64 := by
  unfold xai_device_transfer_packet
  simp only [show ¬ (PACKET_READ = PACKET_WRITE) by decide, if_false]
  split_ifs <;> exact fill_buffer_length _

theorem transfer_ret (dev : usb_dev_handle) (pkt : List Nat) (dir : Nat) :
    (xai_device_transfer_packet dev pkt dir).1 =
      if (dev.respond dev.log ⟨dir, if dir = PACKET_READ then
        List.replicate PACKET_SIZE 0x55 else pkt⟩).1 < 0 then RET_ERROR_BUS else RET_OK := by
  unfold xai_device_transfer_packet
  dsimp only
  split_ifs <;> rfl

theorem transfer_ok (dev : usb_dev_handle) (h : all_transfers_succeed dev) (pkt : List Nat)
    (dir : Nat) : (xai_device_transfer_packet dev pkt dir).1 = RET_OK := by
  rw [transfer_ret]
  have := h dev.log ⟨dir, if dir = PACKET_READ then List.replicate PACKET_SIZE 0x55 else pkt⟩
  rw [if_neg (by omega)]

theorem all_transfers_succeed_step {a b : usb_dev_handle} {ws : List (List Nat)}
    (h : all_transfers_succeed a) (s : log_step a b ws) : all_transfers_succeed b := by
  intro log t
  rw [s.1]
  exact h log t

theorem read_request_length (hdr : xai_ll_message_header) : (read_request hdr).length = 64 := by
  simp [read_request]

theorem read_request_operation (hdr : xai_ll_message_header) :
    msg_operation (read_request hdr) = hdr.operation := by
  rfl

theorem read_packet_step (dev : usb_dev_handle) (hdr : xai_ll_message_header) :
    log_step dev (xai_device_read_packet dev hdr).2.2 [read_request hdr] := by
  unfold xai_device_read_packet
  have w := transfer_write_step dev (read_request hdr)
  simp only
  split_ifs
  · exact log_step_trans (log_step_trans w (transfer_read_step _ _)) (transfer_read_step _ _)
  · exact log_step_trans w (transfer_read_step _ _)
  · exact w

theorem read_packet_length (dev : usb_dev_handle) (hdr : xai_ll_message_header) :
    (xai_device_read_packet dev hdr).2.1.length = 64 := by
  unfold xai_device_read_packet
  simp only
  split_ifs
  · exact transfer_read_length _ _
  · exact transfer_read_length _ _
  · rw [transfer_write_packet]; exact read_request_length hdr

theorem read_packet_ok (dev : usb_dev_handle) (h : all_transfers_succeed dev)
    (hdr : xai_ll_message_header) : (xai_device_read_packet dev hdr).1 = RET_OK := by
  unfold xai_device_read_packet
  have w := transfer_write_step dev (read_request hdr)
  have h1 := all_transfers_succeed_step h w
  have h2 := all_transfers_succeed_step h1 (transfer_read_step _ (xai_device_transfer_packet dev (read_request hdr) PACKET_WRITE).2.1)
  simp only
  split_ifs with c1 c2
  · exact transfer_ok _ h2 _ _
  · exact transfer_ok _ h1 _ _
  · exact absurd (transfer_ok dev h _ _) c1

theorem write_packet_step (dev : usb_dev_handle) (msg : List Nat) :
    log_step dev (xai_device_write_packet dev msg).2.2 [msg] := by
  unfold xai_device_write_packet
  have w := transfer_write_step dev msg
  simp only
  split_ifs
  · exact log_step_trans (log_step_trans w (transfer_read_step _ _)) (transfer_read_step _ _)
  · exact log_step_trans w (transfer_read_step _ _)
  · exact log_step_trans w (transfer_read_step _ _)
  · exact w

theorem write_packet_ok (dev : usb_dev_handle) (h : all_transfers_succeed dev)
    (msg : List Nat) : (xai_device_write_packet dev msg).1 = RET_OK := by
  unfold xai_device_write_packet
  have w := transfer_write_step dev msg
  have h1 := all_transfers_succeed_step h w
  have h2 := all_transfers_succeed_step h1 (transfer_read_step _ (xai_device_transfer_packet dev msg PACKET_WRITE).2.1)
  simp only
  split_ifs with c1 c2 c3
  · exact transfer_ok _ h2 _ _
  · exact transfer_ok _ h1 _ _
  · exact absurd (transfer_ok _ h1 _ _) c2
  · exact absurd (transfer_ok dev h _ _) c1


/-! ## Sparse update: which parts are written -/

theorem set_config_part1_clean (profile : xai_profile) (msg : List Nat)
    (h : ∀ f ∈ part1_fields, field_present profile.fields f = false) :
    set_config_part1 profile msg = (msg, false) := by
  have a1 := h PROFILE_FIELD_RATE (by decide)
  have a2 := h PROFILE_FIELD_AIM (by decide)
  have a3 := h PROFILE_FIELD_ACCEL (by decide)
  have a4 := h PROFILE_FIELD_FREEMOVE (by decide)
  have a5 := h PROFILE_FIELD_LCD_BRIGHTNESS (by decide)
  have a6 := h PROFILE_FIELD_LCD_CONTRAST (by decide)
  simp only [set_config_part1, a1, a2, a3, a4, a5, a6, Bool.false_eq_true, if_false]

theorem set_config_part2_clean (profile : xai_profile) (msg : List Nat)
    (h : ∀ f ∈ part2_fields, field_present profile.fields f = false) :
    set_config_part2 profile msg = (msg, false) := by
  have a1 := h PROFILE_FIELD_CPI1 (by decide)
  have a2 := h PROFILE_FIELD_CPI2 (by decide)
  simp only [set_config_part2, a1, a2, Bool.false_eq_true, if_false]

theorem set_config_part3_clean (profile : xai_profile) (msg : List Nat)
    (h : ∀ f ∈ part3_fields, field_present profile.fields f = false) :
    set_config_part3 profile msg = (msg, false) := by
  have a1 := h PROFILE_FIELD_BUTTON_1 (by decide)
  have a2 := h PROFILE_FIELD_BUTTON_2 (by decide)
  have a3 := h PROFILE_FIELD_BUTTON_3 (by decide)
  have a4 := h PROFILE_FIELD_BUTTON_4 (by decide)
  have a5 := h PROFILE_FIELD_BUTTON_5 (by decide)
  have a6 := h PROFILE_FIELD_BUTTON_6 (by decide)
  have a7 := h PROFILE_FIELD_BUTTON_7 (by decide)
  have a8 := h PROFILE_FIELD_BUTTON_8 (by decide)
  have a9 := h PROFILE_FIELD_BUTTON_9 (by decide)
  simp only [set_config_part3, a1, a2, a3, a4, a5, a6, a7, a8, a9, Bool.false_eq_true,
    if_false]

theorem set_config_part2_touched (profile : xai_profile) (msg : List Nat)
    (h : field_present profile.fields PROFILE_FIELD_CPI1 = true ∨
      field_present profile.fields PROFILE_FIELD_CPI2 = true) :
    (set_config_part2 profile msg).2 = true := by
  unfold set_config_part2
  dsimp only
  rcases h with h | h
  · rw [if_pos h]; split_ifs <;> rfl
  · rw [if_pos h]

/-- An update without a dirty field makes `xai_profile_set_config` write only
read requests: the packets written are `GET_PROFILE_SETTINGS` requests. -/
theorem set_config_clean_step (ctx : xai_context) (index : Nat) (profile : xai_profile)
    (h1 : ∀ f ∈ part1_fields, field_present profile.fields f = false)
    (h2 : ∀ f ∈ part2_fields, field_present profile.fields f = false)
    (h3 : ∀ f ∈ part3_fields, field_present profile.fields f = false) :
    ∃ ws, log_step ctx.dev (xai_profile_set_config ctx index profile).2.dev ws ∧
      ∀ pkt ∈ ws, msg_operation pkt = XAI_MOUSE_LL_GET_PROFILE_SETTINGS := by
  unfold xai_profile_set_config
  simp only [set_config_part1_clean _ _ h1, set_config_part2_clean _ _ h2,
    set_config_part3_clean _ _ h3, set_config_write, Bool.false_eq_true, if_false]
  split_ifs
  · refine ⟨_, log_step_trans (log_step_trans (read_packet_step _ _) (read_packet_step _ _))
      (read_packet_step _ _), ?_⟩
    intro pkt hp
    simp only [List.cons_append, List.nil_append, List.mem_cons, List.mem_singleton,
      List.mem_nil_iff, or_false] at hp
    rcases hp with e | e | e <;> rw [e] <;> rfl
  · refine ⟨_, log_step_trans (log_step_trans (read_packet_step _ _) (read_packet_step _ _))
      (read_packet_step _ _), ?_⟩
    intro pkt hp
    simp only [List.cons_append, List.nil_append, List.mem_cons, List.mem_singleton,
      List.mem_nil_iff, or_false] at hp
    rcases hp with e | e | e <;> rw [e] <;> rfl
  · refine ⟨_, log_step_trans (read_packet_step _ _) (read_packet_step _ _), ?_⟩
    intro pkt hp
    simp only [List.cons_append, List.nil_append, List.mem_cons, List.mem_singleton,
      List.mem_nil_iff, or_false] at hp
    rcases hp with e | e <;> rw [e] <;> rfl
  · refine ⟨_, read_packet_step _ _, ?_⟩
    intro pkt hp
    simp only [List.mem_singleton] at hp
    rw [hp]; rfl


theorem clean_fields_not_present (fields : Nat)
    (h : fields = 0 ∨ fields = PROFILE_FIELD_MASK) :
    (∀ f ∈ part1_fields, field_present fields f = false) ∧
    (∀ f ∈ part2_fields, field_present fields f = false) ∧
    (∀ f ∈ part3_fields, field_present fields f = false) := by
  rcases h with h | h <;> subst h <;> decide

/-- C6: for every device behaviour, `xai_profile_set_config` called with an
update that has no dirty field (`fields` is 0, or only the marker
`PROFILE_FIELD_MASK` is set) only appends to the log of the device, and no
packet it writes has the operation `SET_PROFILE_SETTINGS`. -/
theorem set_config_without_dirty_field_never_writes_settings (ctx : xai_context)
    (index : Nat) (profile : xai_profile)
    (h : profile.fields = 0 ∨ profile.fields = PROFILE_FIELD_MASK) :
    (xai_profile_set_config ctx index profile).2.dev.log =
      ctx.dev.log ++ new_transfers ctx.dev (xai_profile_set_config ctx index profile).2.dev ∧
    ∀ pkt ∈ written (new_transfers ctx.dev (xai_profile_set_config ctx index profile).2.dev),
      msg_operation pkt ≠ XAI_MOUSE_LL_SET_PROFILE_SETTINGS := by
  obtain ⟨h1, h2, h3⟩ := clean_fields_not_present profile.fields h
  obtain ⟨ws, st, hw⟩ := set_config_clean_step ctx index profile h1 h2 h3
  obtain ⟨hl, hwr⟩ := log_step_written st
  refine ⟨hl, ?_⟩
  intro pkt hp
  rw [hwr] at hp
  rw [hw pkt hp]
  decide

/-- C6 (witness): the update in which one out-of-range value was requested
(only the marker is set), on the device that answers every transfer. -/
theorem set_config_without_dirty_field_never_writes_settings_witness :
    ((xai_profile_change_req empty_profile PROFILE_FIELD_RATE "5".toList).2.fields = 0 ∨
      (xai_profile_change_req empty_profile PROFILE_FIELD_RATE "5".toList).2.fields =
        PROFILE_FIELD_MASK) ∧
    ((xai_profile_set_config (initial_context steady_device) 0
        (xai_profile_change_req empty_profile PROFILE_FIELD_RATE "5".toList).2).2.dev.log =
      (initial_context steady_device).dev.log ++
        new_transfers (initial_context steady_device).dev
          (xai_profile_set_config (initial_context steady_device) 0
            (xai_profile_change_req empty_profile PROFILE_FIELD_RATE "5".toList).2).2.dev ∧
    ∀ pkt ∈ written (new_transfers (initial_context steady_device).dev
        (xai_profile_set_config (initial_context steady_device) 0
          (xai_profile_change_req empty_profile PROFILE_FIELD_RATE "5".toList).2).2.dev),
      msg_operation pkt ≠ XAI_MOUSE_LL_SET_PROFILE_SETTINGS) :=
  ⟨by decide,
   set_config_without_dirty_field_never_writes_settings (initial_context steady_device) 0
     (xai_profile_change_req empty_profile PROFILE_FIELD_RATE "5".toList).2 (by decide)⟩

/-- With all transfers succeeding, an update whose dirty fields are part-2
fields only makes `xai_profile_set_config` write four packets: the read
requests of the three parts and, after the part-2 request, the part-2 answer
with the dirty CPI values and the operation `SET_PROFILE_SETTINGS`. -/
theorem set_config_part2_step (ctx : xai_context) (index : Nat) (profile : xai_profile)
    (hok : all_transfers_succeed ctx.dev)
    (h1 : ∀ f ∈ part1_fields, field_present profile.fields f = false)
    (h2 : field_present profile.fields PROFILE_FIELD_CPI1 = true ∨
      field_present profile.fields PROFILE_FIELD_CPI2 = true)
    (h3 : ∀ f ∈ part3_fields, field_present profile.fields f = false) :
    let hdr1 : xai_ll_message_header :=
      { null_byte := 0, operation := XAI_MOUSE_LL_GET_PROFILE_SETTINGS,
        id := to_uchar (ctx.cur_id + 1), part := 1, argument1 := to_uchar index,
        argument2 := 0 }
    let r1 := xai_device_read_packet ctx.dev hdr1
    let hdr2 : xai_ll_message_header :=
      { null_byte := 0, operation := XAI_MOUSE_LL_GET_PROFILE_SETTINGS,
        id := to_uchar (msg_id r1.2.1 + 1), part := 2, argument1 := to_uchar index,
        argument2 := 0 }
    let r2 := xai_device_read_packet r1.2.2 hdr2
    let set_msg := (set_config_part2 profile r2.2.1).1.set 1 XAI_MOUSE_LL_SET_PROFILE_SETTINGS
    let hdr3 : xai_ll_message_header :=
      { null_byte := 0, operation := XAI_MOUSE_LL_GET_PROFILE_SETTINGS,
        id := msg_id r2.2.1, part := 3, argument1 := to_uchar index, argument2 := 0 }
    (xai_profile_set_config ctx index profile).1 = RET_OK ∧
    log_step ctx.dev (xai_profile_set_config ctx index profile).2.dev
      [read_request hdr1, read_request hdr2, set_msg, read_request hdr3] := by
  intro hdr1 r1 hdr2 r2 set_msg hdr3
  have s1 : log_step ctx.dev r1.2.2 _ := read_packet_step ctx.dev hdr1
  have o1 : r1.1 = RET_OK := read_packet_ok ctx.dev hok hdr1
  have k1 := all_transfers_succeed_step hok s1
  have s2 : log_step r1.2.2 r2.2.2 _ := read_packet_step r1.2.2 hdr2
  have o2 : r2.1 = RET_OK := read_packet_ok _ k1 hdr2
  have k2 := all_transfers_succeed_step k1 s2
  have sw := write_packet_step r2.2.2 set_msg
  have ow := write_packet_ok _ k2 set_msg
  have kw := all_transfers_succeed_step k2 sw
  have s3 := read_packet_step (xai_device_write_packet r2.2.2 set_msg).2.2 hdr3
  have o3 := read_packet_ok _ kw hdr3
  have chain := log_step_trans (log_step_trans (log_step_trans s1 s2) sw) s3
  unfold xai_profile_set_config
  simp only [set_config_part1_clean _ _ h1, set_config_part3_clean _ _ h3,
    set_config_part2_touched _ _ h2, set_config_write, Bool.false_eq_true, if_false, if_true]
  split_ifs
  all_goals exact ⟨o3, chain⟩


theorem dirty_set_mem (p : xai_profile) (f : Nat) :
    f ∈ dirty_set p ↔ f ∈ settable_fields ∧ field_present p.fields f = true := by
  simp [dirty_set, List.mem_filter]

theorem part2_only_dirty (p : xai_profile) (hne : dirty_set p ≠ [])
    (hp2 : ∀ f ∈ dirty_set p, f = PROFILE_FIELD_CPI1 ∨ f = PROFILE_FIELD_CPI2) :
    (∀ f ∈ part1_fields, field_present p.fields f = false) ∧
    (field_present p.fields PROFILE_FIELD_CPI1 = true ∨
      field_present p.fields PROFILE_FIELD_CPI2 = true) ∧
    (∀ f ∈ part3_fields, field_present p.fields f = false) := by
  have hout : ∀ f ∈ settable_fields, f ≠ PROFILE_FIELD_CPI1 → f ≠ PROFILE_FIELD_CPI2 →
      field_present p.fields f = false := by
    intro f hf n1 n2
    by_contra hc
    have hm : f ∈ dirty_set p := (dirty_set_mem p f).2 ⟨hf, by simpa using hc⟩
    rcases hp2 f hm with e | e
    · exact n1 e
    · exact n2 e
  have m1 : ∀ f ∈ part1_fields,
      f ∈ settable_fields ∧ f ≠ PROFILE_FIELD_CPI1 ∧ f ≠ PROFILE_FIELD_CPI2 := by decide
  have m3 : ∀ f ∈ part3_fields,
      f ∈ settable_fields ∧ f ≠ PROFILE_FIELD_CPI1 ∧ f ≠ PROFILE_FIELD_CPI2 := by decide
  refine ⟨fun f hf => hout f (m1 f hf).1 (m1 f hf).2.1 (m1 f hf).2.2, ?_,
    fun f hf => hout f (m3 f hf).1 (m3 f hf).2.1 (m3 f hf).2.2⟩
  obtain ⟨f, hf⟩ := List.exists_mem_of_ne_nil _ hne
  have hpres := ((dirty_set_mem p f).1 hf).2
  rcases hp2 f hf with e | e
  · exact Or.inl (e ▸ hpres)
  · exact Or.inr (e ▸ hpres)

/-- C7: for every update built by `xai_profile_change_req` from the empty
update whose dirty set is not empty and holds only part-2 fields (cpi1, cpi2),
`xai_profile_set_config` with all transfers succeeding returns `RET_OK`, only
appends to the log, and writes exactly four packets: the read requests of
parts 1 and 2, then the answer to the part-2 request with the dirty CPI values
and the operation `SET_PROFILE_SETTINGS`, then the read request of part 3.
So exactly one written packet is a settings write, it is the part-2 message,
and no write round is made for part 1 or part 3. -/
theorem part2_only_update_writes_part2_only (ctx : xai_context) (index : Nat)
    (reqs : List (Nat × List Char))
    (hok : all_transfers_succeed ctx.dev)
    (hne : dirty_set (update_of reqs) ≠ [])
    (hp2 : ∀ f ∈ dirty_set (update_of reqs),
      f = PROFILE_FIELD_CPI1 ∨ f = PROFILE_FIELD_CPI2) :
    let hdr1 : xai_ll_message_header :=
      { null_byte := 0, operation := XAI_MOUSE_LL_GET_PROFILE_SETTINGS,
        id := to_uchar (ctx.cur_id + 1), part := 1, argument1 := to_uchar index,
        argument2 := 0 }
    let r1 := xai_device_read_packet ctx.dev hdr1
    let hdr2 : xai_ll_message_header :=
      { null_byte := 0, operation := XAI_MOUSE_LL_GET_PROFILE_SETTINGS,
        id := to_uchar (msg_id r1.2.1 + 1), part := 2, argument1 := to_uchar index,
        argument2 := 0 }
    let r2 := xai_device_read_packet r1.2.2 hdr2
    let set_msg := (set_config_part2 (update_of reqs) r2.2.1).1.set 1
      XAI_MOUSE_LL_SET_PROFILE_SETTINGS
    let hdr3 : xai_ll_message_header :=
      { null_byte := 0, operation := XAI_MOUSE_LL_GET_PROFILE_SETTINGS,
        id := msg_id r2.2.1, part := 3, argument1 := to_uchar index, argument2 := 0 }
    let res := xai_profile_set_config ctx index (update_of reqs)
    res.1 = RET_OK ∧
    res.2.dev.log = ctx.dev.log ++ new_transfers ctx.dev res.2.dev ∧
    written (new_transfers ctx.dev res.2.dev) =
      [read_request hdr1, read_request hdr2, set_msg, read_request hdr3] ∧
    (written (new_transfers ctx.dev res.2.dev)).map msg_operation =
      [XAI_MOUSE_LL_GET_PROFILE_SETTINGS, XAI_MOUSE_LL_GET_PROFILE_SETTINGS,
       XAI_MOUSE_LL_SET_PROFILE_SETTINGS, XAI_MOUSE_LL_GET_PROFILE_SETTINGS] ∧
    ((written (new_transfers ctx.dev res.2.dev)).filter
      (fun pkt => msg_operation pkt == XAI_MOUSE_LL_SET_PROFILE_SETTINGS)) = [set_msg] := by
  intro hdr1 r1 hdr2 r2 set_msg hdr3 res
  obtain ⟨h1, h2, h3⟩ := part2_only_dirty (update_of reqs) hne hp2
  obtain ⟨hret, st⟩ := set_config_part2_step ctx index (update_of reqs) hok h1 h2 h3
  obtain ⟨hl, hw⟩ := log_step_written st
  have hops : msg_operation set_msg = XAI_MOUSE_LL_SET_PROFILE_SETTINGS := by
    have hlen : 1 < (set_config_part2 (update_of reqs) r2.2.1).1.length := by
      have : r2.2.1.length = 64 := read_packet_length r1.2.2 hdr2
      unfold set_config_part2
      dsimp only
      split_ifs <;> simp [set_u16] <;> omega
    show ((set_config_part2 (update_of reqs) r2.2.1).1.set 1
      XAI_MOUSE_LL_SET_PROFILE_SETTINGS).getD 1 0 = XAI_MOUSE_LL_SET_PROFILE_SETTINGS
    simp [List.getD, hlen]
  refine ⟨hret, hl, hw, ?_, ?_⟩
  · rw [hw]
    simp only [List.map_cons, List.map_nil, read_request_operation, hops]
  · rw [hw]
    simp only [List.filter_cons, List.filter_nil, read_request_operation, hops]
    simp +decide


theorem steady_device_succeeds : all_transfers_succeed steady_device := by
  intro log t
  show (0 : Int) ≤ 64
  decide

/-- C7 (witness): the update `--c1=800` applied to profile 0 on the device
that answers every transfer. -/
theorem part2_only_update_writes_part2_only_witness :
    all_transfers_succeed (initial_context steady_device).dev ∧
    dirty_set (update_of [(PROFILE_FIELD_CPI1, "800".toList)]) ≠ [] ∧
    (∀ f ∈ dirty_set (update_of [(PROFILE_FIELD_CPI1, "800".toList)]),
      f = PROFILE_FIELD_CPI1 ∨ f = PROFILE_FIELD_CPI2) ∧
    (xai_profile_set_config (initial_context steady_device) 0
      (update_of [(PROFILE_FIELD_CPI1, "800".toList)])).1 = RET_OK ∧
    (written (new_transfers (initial_context steady_device).dev
      (xai_profile_set_config (initial_context steady_device) 0
        (update_of [(PROFILE_FIELD_CPI1, "800".toList)])).2.dev)).map msg_operation =
      [XAI_MOUSE_LL_GET_PROFILE_SETTINGS, XAI_MOUSE_LL_GET_PROFILE_SETTINGS,
       XAI_MOUSE_LL_SET_PROFILE_SETTINGS, XAI_MOUSE_LL_GET_PROFILE_SETTINGS] :=
  ⟨steady_device_succeeds, by decide, by decide,
   (part2_only_update_writes_part2_only (initial_context steady_device) 0
      [(PROFILE_FIELD_CPI1, "800".toList)] steady_device_succeeds (by decide) (by decide)).1,
   (part2_only_update_writes_part2_only (initial_context steady_device) 0
      [(PROFILE_FIELD_CPI1, "800".toList)] steady_device_succeeds (by decide)
      (by decide)).2.2.2.1⟩

/-! ## Device initialisation: the retry loops -/

/-- C9: in the name loop of `xai_device_init`, when the round for profile `i`
fails twice and succeeds on the third attempt, the retry loop ends with
`tries` equal to 1, so the test `tries == 0` does not leave through
`device_init_err`: the loop goes on with profile `i + 1` from the context the
third attempt produced. -/
theorem name_fetch_third_attempt_success (ctx : xai_context) (i n : Nat)
    (h1 : (get_name_attempt i ctx).1 ≠ RET_OK)
    (h2 : (get_name_attempt i (get_name_attempt i ctx).2).1 ≠ RET_OK)
    (h3 : (get_name_attempt i (get_name_attempt i (get_name_attempt i ctx).2).2).1 = RET_OK) :
    retry_loop (get_name_attempt i) 3 ctx =
      (1, (get_name_attempt i (get_name_attempt i (get_name_attempt i ctx).2).2).2) ∧
    init_loop get_name_attempt (n + 1) i ctx =
      init_loop get_name_attempt n (i + 1)
        (get_name_attempt i (get_name_attempt i (get_name_attempt i ctx).2).2).2 := by
  have hr : retry_loop (get_name_attempt i) 3 ctx =
      (1, (get_name_attempt i (get_name_attempt i (get_name_attempt i ctx).2).2).2) := by
    simp only [retry_loop, h1, h2, h3, ne_eq, not_true_eq_false, not_false_eq_true, if_true,
      if_false]
    rfl
  refine ⟨hr, ?_⟩
  rw [init_loop, hr]
  simp

/-- C9 (witness): on the device whose first two name requests for profile 0
fail, the third attempt succeeds, the loop goes on, and `xai_device_init`
returns `RET_OK`. -/
theorem name_fetch_third_attempt_success_witness :
    (get_name_attempt 0 (context_after_init_string flaky_device)).1 ≠ RET_OK ∧
    (get_name_attempt 0
      (get_name_attempt 0 (context_after_init_string flaky_device)).2).1 ≠ RET_OK ∧
    (get_name_attempt 0 (get_name_attempt 0
      (get_name_attempt 0 (context_after_init_string flaky_device)).2).2).1 = RET_OK ∧
    (retry_loop (get_name_attempt 0) 3 (context_after_init_string flaky_device)).1 = 1 ∧
    (xai_device_init (initial_context flaky_device)).1 = RET_OK :=
  ⟨by decide, by decide, by decide,
   congrArg Prod.fst (name_fetch_third_attempt_success
     (context_after_init_string flaky_device) 0 4 (by decide) (by decide) (by decide)).1,
   by decide⟩

/-- C10 (code behaviour at the failing input): on the device that fails every
name request for profile 0, `xai_device_init` makes four name requests for
that profile (not three), the retry loop ends with `tries` equal to -1, the
test `tries == 0` passes and `xai_device_init` returns `RET_OK`.  On the
device whose first three name requests fail and whose fourth succeeds, the
loop ends with `tries` equal to 0 and `xai_device_init` returns
`RET_ERROR_BUS` although the last attempt succeeded. -/
theorem init_reports_success_when_every_name_attempt_fails :
    (xai_device_init (initial_context nameless_device)).1 = RET_OK ∧
    (name_requests 0 (xai_device_init (initial_context nameless_device)).2.dev.log).length = 4 ∧
    (retry_loop (get_name_attempt 0) 3 (context_after_init_string nameless_device)).1 = -1 ∧
    (get_name_attempt 0 (retry_loop (get_name_attempt 0) 3
      (context_after_init_string nameless_device)).2).1 = RET_ERROR_BUS ∧
    (retry_loop (get_name_attempt 0) 3 (context_after_init_string thrice_failing_device)).1 = 0 ∧
    (xai_device_init (initial_context thrice_failing_device)).1 = RET_ERROR_BUS := by
  decide

/-! ## Initialisation: the settings rounds -/

/-- C11 (code behaviour at the failing input): on the device that fails every
settings request, the read round of part 1 returns `RET_ERROR_BUS` but
`xai_profile_get_config` returns `RET_OK` (its last statement is
`return RET_OK`, not `return ret`), so the retry loop ends after one attempt
with `tries` still 3, one settings request is made for each profile, and
`xai_device_init` returns `RET_OK` with a profile table whose settings were
never read (every slot is still the zeroed profile of the static context). -/
theorem init_reports_success_when_settings_cannot_be_read :
    (get_config_read1 (context_after_init_string settingless_device) 0).1 = RET_ERROR_BUS ∧
    (xai_profile_get_config (context_after_init_string settingless_device) 0
      empty_profile).1 = RET_OK ∧
    (retry_loop (get_config_attempt 0) 3
      (context_after_init_string settingless_device)).1 = 3 ∧
    (xai_device_init (initial_context settingless_device)).1 = RET_OK ∧
    (List.range 5).map (fun i => (settings_requests i
      (xai_device_init (initial_context settingless_device)).2.dev.log).length) =
      [1, 1, 1, 1, 1] ∧
    (xai_device_init (initial_context settingless_device)).2.p =
      List.replicate 5 empty_profile := by
  decide

/-! ## Selecting the current profile -/

/-- C12 (counterexample): `xai_profile_set_current_index` called with index 5
does not fail with `RET_ERROR_WRONG_PARAMETER` before any transfer: on the
device that answers every transfer it writes the `SET_CURRENT_PROFILE` packet
with part 5, makes three transfers and returns `RET_OK`. -/
theorem set_current_index_5_is_sent_to_the_device :
    (xai_profile_set_current_index (initial_context steady_device) 5).1 = RET_OK ∧
    (xai_profile_set_current_index (initial_context steady_device) 5).1 ≠
      RET_ERROR_WRONG_PARAMETER ∧
    written (new_transfers steady_device
      (xai_profile_set_current_index (initial_context steady_device) 5).2.dev) =
      [((List.replicate 64 0).set 1 XAI_MOUSE_LL_SET_CURRENT_PROFILE).set 3 5] ∧
    (new_transfers steady_device
      (xai_profile_set_current_index (initial_context steady_device) 5).2.dev).length = 3 := by
  decide

/-! ## Layout of the settings messages -/

theorem u16_split (v : Nat) (h : v < 65536) : v % 256 + 256 * (v / 256 % 256) = v := by
  omega

theorem replicate_64 : List.replicate 64 (0 : Nat) =
    [0, 0, 0, 0, 0, 0, 0, 0, 0, 0, 0, 0, 0, 0, 0, 0, 0, 0, 0, 0, 0, 0, 0, 0, 0, 0, 0, 0, 0, 0, 0, 0,
     0, 0, 0, 0, 0, 0, 0, 0, 0, 0, 0, 0, 0, 0, 0, 0, 0, 0, 0, 0, 0, 0, 0, 0, 0, 0, 0, 0, 0, 0, 0,
     0] := by
  decide

theorem part1_roundtrip (h : xai_ll_message_header) (b : part1) (hh : header_in_range h)
    (hb : part1_in_range b) :
    decode_part1 (encode_part1 h b) = b ∧ decode_header (encode_part1 h b) = h ∧
      (encode_part1 h b).length = PACKET_SIZE := by
  obtain ⟨u1, rate, u2, accel, u3, fm, aim, br, co⟩ := b
  obtain ⟨l1, r1, hr, l2, r2, h3, h4, h5, h6, h7, h8⟩ := hb
  obtain ⟨g0, g1, g2, g3, g4, g5⟩ := hh
  obtain ⟨n0, n1, n2, n3, n4, n5⟩ := h
  simp only at l1 r1 hr l2 r2 h3 h4 h5 h6 h7 h8 g0 g1 g2 g3 g4 g5
  obtain ⟨a1, a2, a3, rfl⟩ := List.length_eq_three.1 l1
  rcases u2 with _ | ⟨b1, _ | ⟨b2, _ | ⟨b3, _ | ⟨b4, _ | ⟨b5, _ | ⟨b6, t⟩⟩⟩⟩⟩⟩ <;>
    simp at l2
  simp only [List.mem_cons, List.mem_singleton, List.mem_nil_iff, or_false, forall_eq_or_imp,
    forall_eq] at r1 r2
  obtain ⟨x1, x2, x3⟩ := r1
  obtain ⟨y1, y2, y3, y4, y5⟩ := r2
  simp [decode_part1, decode_header, msg_operation, msg_id, msg_part, msg_argument1,
    encode_part1, encode_header, write_bytes, read_bytes, set_u8, set_u16,
    get_u16, PACKET_SIZE, replicate_64, List.getD, List.range, List.range.loop, u16_split,
    Nat.mod_eq_of_lt, *]

theorem part2_roundtrip (h : xai_ll_message_header) (b : part2) (hh : header_in_range h)
    (hb : part2_in_range b) :
    decode_part2 (encode_part2 h b) = b ∧ decode_header (encode_part2 h b) = h ∧
      (encode_part2 h b).length = PACKET_SIZE := by
  obtain ⟨c1, c2⟩ := b
  obtain ⟨h1, h2⟩ := hb
  obtain ⟨g0, g1, g2, g3, g4, g5⟩ := hh
  obtain ⟨n0, n1, n2, n3, n4, n5⟩ := h
  simp only at h1 h2 g0 g1 g2 g3 g4 g5
  simp [decode_part2, decode_header, msg_operation, msg_id, msg_part, msg_argument1,
    encode_part2, encode_header, set_u8, set_u16, get_u16, PACKET_SIZE,
    replicate_64, List.getD, u16_split, Nat.mod_eq_of_lt, *]

theorem part3_roundtrip (h : xai_ll_message_header) (b : part3) (hh : header_in_range h)
    (hb : part3_in_range b) :
    decode_part3 (encode_part3 h b) = b ∧ decode_header (encode_part3 h b) = h ∧
      (encode_part3 h b).length = PACKET_SIZE := by
  obtain ⟨c1, c2, c3, c4, c5, c6, c7, c8, c9, c10, c11, c12, c13⟩ := b
  obtain ⟨h1, h2, h3, h4, h5, h6, h7, h8, h9, h10, h11, h12, h13⟩ := hb
  obtain ⟨g0, g1, g2, g3, g4, g5⟩ := hh
  obtain ⟨n0, n1, n2, n3, n4, n5⟩ := h
  simp only at h1 h2 h3 h4 h5 h6 h7 h8 h9 h10 h11 h12 h13 g0 g1 g2 g3 g4 g5
  simp [decode_part3, decode_header, msg_operation, msg_id, msg_part, msg_argument1,
    encode_part3, encode_header, set_u8, set_u16, get_u16, PACKET_SIZE,
    replicate_64, List.getD, u16_split, Nat.mod_eq_of_lt, *]

/-- C13: for each of the three settings body variants and every value of its
members (within the range of their C types), the 64-byte report laid out
according to the packed `struct xai_ll_message` reads back as the same body and
the same header.  The offsets used are those of the packed declaration (header
at 0..5, body from byte 6), the members of a variant do not overlap, and each
variant ends within the 58 body bytes (64 bytes in all). -/
theorem settings_body_roundtrip (h : xai_ll_message_header) (b1 : part1) (b2 : part2)
    (b3 : part3) (hh : header_in_range h) (h1 : part1_in_range b1) (h2 : part2_in_range b2)
    (h3 : part3_in_range b3) :
    (decode_part1 (encode_part1 h b1) = b1 ∧ decode_header (encode_part1 h b1) = h ∧
      (encode_part1 h b1).length = PACKET_SIZE) ∧
    (decode_part2 (encode_part2 h b2) = b2 ∧ decode_header (encode_part2 h b2) = h ∧
      (encode_part2 h b2).length = PACKET_SIZE) ∧
    (decode_part3 (encode_part3 h b3) = b3 ∧ decode_header (encode_part3 h b3) = h ∧
      (encode_part3 h b3).length = PACKET_SIZE) ∧
    packed_offsets 0 header_sizes = [0, 1, 2, 3, 4, 5] ∧
    packed_offsets 6 part1_sizes = [6, 9, 11, 16, 17, 18, 19, 20, 21] ∧
    packed_offsets 6 part2_sizes = [6, 8] ∧
    packed_offsets 6 part3_sizes = [6, 8, 10, 12, 14, 16, 18, 20, 22, 24, 26, 28, 30] ∧
    layout_fits PACKET_SIZE ((packed_offsets 6 part1_sizes).zip part1_sizes) = true ∧
    layout_fits PACKET_SIZE ((packed_offsets 6 part2_sizes).zip part2_sizes) = true ∧
    layout_fits PACKET_SIZE ((packed_offsets 6 part3_sizes).zip part3_sizes) = true ∧
    part1_sizes.sum ≤ XAI_MOUSE_LL_DATA_LENGTH ∧ part2_sizes.sum ≤ XAI_MOUSE_LL_DATA_LENGTH ∧
    part3_sizes.sum ≤ XAI_MOUSE_LL_DATA_LENGTH := by
  refine ⟨part1_roundtrip h b1 hh h1, part2_roundtrip h b2 hh h2, part3_roundtrip h b3 hh h3,
    ?_⟩
  decide

/-- C13 (witness): a part-1 body with rate 1000, a part-2 body with CPI 800 and
3200 and a part-3 body with the default button roles, under the header of a
settings answer. -/
theorem settings_body_roundtrip_witness :
    decode_part1 (encode_part1 (settings_header 0x78 1 0)
      { __unknown1__ := [0x64, 0x64, 0x64], rate := 1000,
        __unknown2__ := [0, 0, 3, 6, 1], accel := 50, __unknown3__ := 6, freemove := 0x7D,
        aim := 0x64, brightness := 5, contrast := 20 }) =
      { __unknown1__ := [0x64, 0x64, 0x64], rate := 1000,
        __unknown2__ := [0, 0, 3, 6, 1], accel := 50, __unknown3__ := 6, freemove := 0x7D,
        aim := 0x64, brightness := 5, contrast := 20 } ∧
    decode_part2 (encode_part2 (settings_header 0x78 1 0) { cpi1 := 800, cpi2 := 3200 }) =
      { cpi1 := 800, cpi2 := 3200 } ∧
    decode_part3 (encode_part3 (settings_header 0x78 1 0)
      { button1 := 9, button2 := 6, button3 := 10, button4 := 5, button5 := 4, button6 := 2,
        button7 := 3, __unknown1__ := 7, lr_handed_mode := 0x7F, __unknown2__ := 0x0D,
        __unknown3__ := 0x0D, button8 := 11, button9 := 12 }) =
      { button1 := 9, button2 := 6, button3 := 10, button4 := 5, button5 := 4, button6 := 2,
        button7 := 3, __unknown1__ := 7, lr_handed_mode := 0x7F, __unknown2__ := 0x0D,
        __unknown3__ := 0x0D, button8 := 11, button9 := 12 } :=
  have w := settings_body_roundtrip (settings_header 0x78 1 0)
    { __unknown1__ := [0x64, 0x64, 0x64], rate := 1000,
      __unknown2__ := [0, 0, 3, 6, 1], accel := 50, __unknown3__ := 6, freemove := 0x7D,
      aim := 0x64, brightness := 5, contrast := 20 }
    { cpi1 := 800, cpi2 := 3200 }
    { button1 := 9, button2 := 6, button3 := 10, button4 := 5, button5 := 4, button6 := 2,
      button7 := 3, __unknown1__ := 7, lr_handed_mode := 0x7F, __unknown2__ := 0x0D,
      __unknown3__ := 0x0D, button8 := 11, button9 := 12 }
    (by decide) (by decide) (by decide) (by decide)
  ⟨w.1.1, w.2.1.1, w.2.2.1.1⟩

/-! ## The read and write patterns -/

/-- C14 (code behaviour at the failing input): on the device whose second
transfer fails, the request write succeeds, the first read fails
(`RET_ERROR_BUS`) and leaves the 0x55 pattern in the buffer, the opcode test
sees 0x55, the follow-up read succeeds and its result replaces the one of the
first read: the round returns `RET_OK` although one of its three transfers
failed, and `xai_profile_get_name` accepts the answer. -/
theorem read_round_succeeds_after_failed_first_read :
    (xai_device_transfer_packet first_read_failing_device
      (read_request (name_header 0x77 0)) PACKET_WRITE).1 = RET_OK ∧
    (xai_device_transfer_packet
      (xai_device_transfer_packet first_read_failing_device
        (read_request (name_header 0x77 0)) PACKET_WRITE).2.2
      (read_request (name_header 0x77 0)) PACKET_READ).1 = RET_ERROR_BUS ∧
    msg_operation (xai_device_transfer_packet
      (xai_device_transfer_packet first_read_failing_device
        (read_request (name_header 0x77 0)) PACKET_WRITE).2.2
      (read_request (name_header 0x77 0)) PACKET_READ).2.1 = 0x55 ∧
    (xai_device_read_packet first_read_failing_device (name_header 0x77 0)).1 = RET_OK ∧
    (new_transfers first_read_failing_device
      (xai_device_read_packet first_read_failing_device (name_header 0x77 0)).2.2).length = 3 ∧
    (xai_profile_get_name { initial_context first_read_failing_device with cur_id := 0x77 } 0
      empty_profile).1 = RET_OK := by
  decide

/-- C15 (counterexample): a request whose operation is `PING_OR_ACK`, written
to the device that answers `PONG_OR_RES`, is followed by two reads (the
follow-up read is not skipped); the same `SET_CURRENT_PROFILE` request is
followed by one read on the device that answers `PING_OR_ACK` and by two reads
on the device that answers `PONG_OR_RES`. -/
theorem write_round_follow_up_ignores_request_operation :
    (new_transfers steady_device (xai_device_write_packet steady_device
      ((List.replicate 64 0).set 1 XAI_MOUSE_LL_PING_OR_ACK)).2.2).length = 3 ∧
    (new_transfers acking_device (xai_device_write_packet acking_device
      ((List.replicate 64 0).set 1 XAI_MOUSE_LL_SET_CURRENT_PROFILE)).2.2).length = 2 ∧
    (new_transfers steady_device (xai_device_write_packet steady_device
      ((List.replicate 64 0).set 1 XAI_MOUSE_LL_SET_CURRENT_PROFILE)).2.2).length = 3 := by
  decide

theorem transfer_log (d : usb_dev_handle) (pkt : List Nat) (dir : Nat) :
    (xai_device_transfer_packet d pkt dir).2.2 =
      { d with log := d.log ++
        [⟨dir, if dir = PACKET_READ then List.replicate PACKET_SIZE 0x55 else pkt⟩] } := by
  unfold xai_device_transfer_packet
  dsimp only
  split_ifs <;> rfl

theorem transfer_read_buffer (d : usb_dev_handle) (pkt : List Nat) :
    (xai_device_transfer_packet d pkt PACKET_READ).2.1 =
      fill_buffer (d.respond d.log ⟨PACKET_READ, List.replicate PACKET_SIZE 0x55⟩).2 := by
  unfold xai_device_transfer_packet
  simp only [show ¬ (PACKET_READ = PACKET_WRITE) by decide, if_false, if_true]
  split_ifs <;> rfl

theorem new_transfers_length (a b : usb_dev_handle) :
    (new_transfers a b).length = b.log.length - a.log.length := by
  simp [new_transfers]

/-- C15 (amended): in `xai_device_write_packet` the buffer tested after the
first read holds the answer of the device (over the 0x55 pattern), not the
request; the follow-up read is made exactly when the request write and the
first read succeeded and the opcode byte of that answer is not `PING_OR_ACK`.
The round makes three transfers in that case, two when the first read was
made without a follow-up, and one when the request write failed. -/
theorem write_round_follow_up_decided_by_answer (dev : usb_dev_handle) (msg : List Nat) :
    (xai_device_transfer_packet
      (xai_device_transfer_packet dev msg PACKET_WRITE).2.2
      (xai_device_transfer_packet dev msg PACKET_WRITE).2.1 PACKET_READ).2.1 =
      fill_buffer (dev.respond (dev.log ++ [⟨PACKET_WRITE, msg⟩])
        ⟨PACKET_READ, List.replicate PACKET_SIZE 0x55⟩).2 ∧
    (new_transfers dev (xai_device_write_packet dev msg).2.2).length =
      if (xai_device_transfer_packet dev msg PACKET_WRITE).1 = RET_OK then
        if (xai_device_transfer_packet
              (xai_device_transfer_packet dev msg PACKET_WRITE).2.2
              (xai_device_transfer_packet dev msg PACKET_WRITE).2.1 PACKET_READ).1 = RET_OK ∧
            msg_operation (fill_buffer (dev.respond (dev.log ++ [⟨PACKET_WRITE, msg⟩])
              ⟨PACKET_READ, List.replicate PACKET_SIZE 0x55⟩).2) ≠ XAI_MOUSE_LL_PING_OR_ACK
        then 3 else 2
      else 1 := by
  have e1 : (xai_device_transfer_packet
      (xai_device_transfer_packet dev msg PACKET_WRITE).2.2
      (xai_device_transfer_packet dev msg PACKET_WRITE).2.1 PACKET_READ).2.1 =
      fill_buffer (dev.respond (dev.log ++ [⟨PACKET_WRITE, msg⟩])
        ⟨PACKET_READ, List.replicate PACKET_SIZE 0x55⟩).2 := by
    rw [transfer_read_buffer, transfer_log]
    rfl
  refine ⟨e1, ?_⟩
  rw [← e1, new_transfers_length]
  unfold xai_device_write_packet
  simp only
  split_ifs with c1 c2 c3 c4 c4 c4
  all_goals first
    | (exfalso; tauto)
    | (simp only [transfer_log, List.length_append, List.length_singleton]; omega)

/-! ## Field editor: rejected values -/

theorem button_setup_parse_fail (arg : List Char)
    (h : (button_setup_parse arg 0).1 ≠ RET_OK) (v : Nat) :
    button_setup_parse arg v = (-1, v) := by
  have key : ∀ P : (Int × Nat) × (Int × Nat) → Prop,
      (∀ k : Nat, P ((RET_OK, k), (RET_OK, k))) → P ((-1, 0), (-1, v)) →
      P (button_setup_parse arg 0, button_setup_parse arg v) := by
    intro P hok hfail
    have hite : ∀ (c : Prop) [Decidable c] (a b a2 b2 : Int × Nat),
        P (a, a2) → P (b, b2) → P (if c then a else b, if c then a2 else b2) := by
      intro c _ a b a2 b2 ha hb
      split <;> assumption
    unfold button_setup_parse
    repeat' apply hite
    all_goals first
      | exact hok _
      | exact hfail
  exact key (fun r => r.1.1 ≠ RET_OK → r.2 = (-1, v)) (fun k hk => absurd rfl hk)
    (fun _ => rfl) h

theorem change_req_numeric_reject (p : xai_profile) (f : Nat × Nat × Nat)
    (hf : f ∈ numeric_fields) (arg : List Char)
    (h : ¬ (strtoul arg ≥ f.2.1 ∧ strtoul arg ≤ f.2.2)) :
    xai_profile_change_req p f.1 arg =
      (RET_OK, { p with fields := p.fields ||| PROFILE_FIELD_MASK }) := by
  rcases numeric_fields_cases f hf with e | e | e | e | e | e | e | e <;> subst e <;>
    simp only [ge_iff_le, Nat.zero_le, true_and] at h <;>
    simp +decide [xai_profile_change_req, XAI_MOUSE_CPI_MIN, XAI_MOUSE_CPI_MAX,
      XAI_MOUSE_RATE_MIN, XAI_MOUSE_RATE_MAX, XAI_MOUSE_ACCEL_MIN, XAI_MOUSE_ACCEL_MAX,
      XAI_MOUSE_FREEMOVE_MIN, XAI_MOUSE_FREEMOVE_MAX, XAI_MOUSE_AIM_MIN, XAI_MOUSE_AIM_MAX,
      XAI_MOUSE_LCD_BRIGHTNESS_MIN, XAI_MOUSE_LCD_BRIGHTNESS_MAX, XAI_MOUSE_LCD_CONTRAST_MIN,
      XAI_MOUSE_LCD_CONTRAST_MAX, h]

theorem field_present_lor_mask (fields : Nat)
    (h : fields = 0 ∨ fields &&& PROFILE_FIELD_MASK = PROFILE_FIELD_MASK) :
    ∀ f ∈ settable_fields,
      field_present (fields ||| PROFILE_FIELD_MASK) f = field_present fields f := by
  rcases h with h | h
  · subst h
    decide
  · intro f _
    rw [lor_eq_of_land_eq _ _ h]

/-- C16: for every update built by the editor, every known field (a numeric
or a button field of `xai_profile_change_req`) and every value the editor
rejects for it, `xai_profile_change_req` returns `RET_OK`, the profile after
the call differs from the one before only in the marker bits of `fields` (so
every stored value, the targeted one included, is unchanged), and every
settable field tests as dirty after the call exactly when it did before. -/
theorem rejected_value_is_excluded_from_update (reqs : List (Nat × List Char)) (field : Nat)
    (arg : List Char) (h : rejected_value field arg) :
    xai_profile_change_req (update_of reqs) field arg =
      (RET_OK, { update_of reqs with
        fields := (update_of reqs).fields ||| PROFILE_FIELD_MASK }) ∧
    (∀ f ∈ settable_fields,
      field_present (xai_profile_change_req (update_of reqs) field arg).2.fields f =
        field_present (update_of reqs).fields f) ∧
    dirty_set (xai_profile_change_req (update_of reqs) field arg).2 =
      dirty_set (update_of reqs) := by
  have e : xai_profile_change_req (update_of reqs) field arg =
      (RET_OK, { update_of reqs with
        fields := (update_of reqs).fields ||| PROFILE_FIELD_MASK }) := by
    rcases h with ⟨f, hf, rfl, hr⟩ | ⟨f, hf, rfl, hr⟩
    · exact change_req_numeric_reject _ f hf arg hr
    · exact change_req_button_reject _ f hf arg (button_setup_parse_fail arg hr)
  rw [e]
  exact ⟨rfl, field_present_lor_mask _ (update_of_fields reqs),
    dirty_set_lor_mask _ (update_of_fields reqs)⟩

/-- C16 (witness): after `--c1=800`, the polling rate 5 (below the minimum
125) is rejected; CPI1 stays 800 and stays the only dirty field. -/
theorem rejected_value_is_excluded_from_update_witness :
    rejected_value PROFILE_FIELD_RATE "5".toList ∧
    (xai_profile_change_req (update_of [(PROFILE_FIELD_CPI1, "800".toList)])
      PROFILE_FIELD_RATE "5".toList).1 = RET_OK ∧
    (xai_profile_change_req (update_of [(PROFILE_FIELD_CPI1, "800".toList)])
      PROFILE_FIELD_RATE "5".toList).2.cpi = [800, 0] ∧
    dirty_set (xai_profile_change_req (update_of [(PROFILE_FIELD_CPI1, "800".toList)])
      PROFILE_FIELD_RATE "5".toList).2 = [PROFILE_FIELD_CPI1] :=
  have w := rejected_value_is_excluded_from_update [(PROFILE_FIELD_CPI1, "800".toList)]
    PROFILE_FIELD_RATE "5".toList (by decide)
  ⟨by decide, by rw [w.1], by rw [w.1]; decide, by rw [w.2.2]; decide⟩

/-! ## The transaction id -/

theorem set_config_rounds (ctx : xai_context) (index : Nat) (profile : xai_profile) :
    xai_profile_set_config ctx index profile =
      if (set_config_read1 ctx index).1 = RET_OK then
        if (set_config_write1 ctx index profile).1 = RET_OK then
          if (set_config_read2 ctx index profile).1 = RET_OK then
            if (set_config_write2 ctx index profile).1 = RET_OK then
              if (set_config_read3 ctx index profile).1 = RET_OK then
                ((set_config_write3 ctx index profile).1,
                  { ctx with dev := (set_config_write3 ctx index profile).2.2,
                             cur_id := msg_id (set_config_read3 ctx index profile).2.1 })
              else
                ((set_config_read3 ctx index profile).1,
                  { ctx with dev := (set_config_read3 ctx index profile).2.2,
                             cur_id := msg_id (set_config_read2 ctx index profile).2.1 })
            else
              ((set_config_write2 ctx index profile).1,
                { ctx with dev := (set_config_write2 ctx index profile).2.2,
                           cur_id := msg_id (set_config_read2 ctx index profile).2.1 })
          else
            ((set_config_read2 ctx index profile).1,
              { ctx with dev := (set_config_read2 ctx index profile).2.2,
                         cur_id := msg_id (set_config_read1 ctx index).2.1 })
        else
          ((set_config_write1 ctx index profile).1,
            { ctx with dev := (set_config_write1 ctx index profile).2.2,
                       cur_id := msg_id (set_config_read1 ctx index).2.1 })
      else
        ((set_config_read1 ctx index).1,
          { ctx with dev := (set_config_read1 ctx index).2.2 }) := by
  rfl

theorem get_config_rounds (ctx : xai_context) (index : Nat) (profile : xai_profile) :
    (xai_profile_get_config ctx index profile).1 = RET_OK ∧
    (xai_profile_get_config ctx index profile).2.1 =
      if (get_config_read1 ctx index).1 = RET_OK then
        if (get_config_read2 ctx index).1 = RET_OK then
          if (get_config_read3 ctx index).1 = RET_OK then
            { ctx with dev := (get_config_read3 ctx index).2.2,
                       cur_id := msg_id (get_config_read3 ctx index).2.1 }
          else
            { ctx with dev := (get_config_read3 ctx index).2.2,
                       cur_id := msg_id (get_config_read2 ctx index).2.1 }
        else
          { ctx with dev := (get_config_read2 ctx index).2.2,
                     cur_id := msg_id (get_config_read1 ctx index).2.1 }
      else { ctx with dev := (get_config_read1 ctx index).2.2 } := by
  constructor
  · unfold xai_profile_get_config
    dsimp only
    split_ifs <;> rfl
  · unfold xai_profile_get_config get_config_read3 get_config_read2 get_config_read1
      settings_header
    dsimp only
    split_ifs <;> rfl

theorem get_name_round (ctx : xai_context) (index : Nat) (profile : xai_profile) :
    (xai_profile_get_name ctx index profile).1 =
      (xai_device_read_packet ctx.dev (name_header ctx.cur_id index)).1 ∧
    (xai_profile_get_name ctx index profile).2.1 =
      if (xai_device_read_packet ctx.dev (name_header ctx.cur_id index)).1 = RET_OK then
        { ctx with dev := (xai_device_read_packet ctx.dev (name_header ctx.cur_id index)).2.2,
                   cur_id := msg_id
                     (xai_device_read_packet ctx.dev (name_header ctx.cur_id index)).2.1 }
      else
        { ctx with
          dev := (xai_device_read_packet ctx.dev (name_header ctx.cur_id index)).2.2 } := by
  unfold xai_profile_get_name name_header
  dsimp only
  constructor <;> split_ifs <;> rfl

theorem get_current_index_round (ctx : xai_context) (index : Nat) :
    (xai_profile_get_current_index ctx index).1 =
      (xai_device_read_packet ctx.dev (current_header ctx.cur_id)).1 ∧
    (xai_profile_get_current_index ctx index).2.1 =
      if (xai_device_read_packet ctx.dev (current_header ctx.cur_id)).1 = RET_OK then
        { ctx with dev := (xai_device_read_packet ctx.dev (current_header ctx.cur_id)).2.2,
                   cur_id := msg_id
                     (xai_device_read_packet ctx.dev (current_header ctx.cur_id)).2.1 }
      else
        { ctx with dev := (xai_device_read_packet ctx.dev (current_header ctx.cur_id)).2.2 } := by
  unfold xai_profile_get_current_index current_header
  dsimp only
  constructor <;> split_ifs <;> rfl

/-- C17: `ctx->cur_id` changes only through accepted answers.  After a name
fetch and after a current-profile get it is the id byte of the answer when
the round returned `RET_OK` and is unchanged otherwise.  After the settings
fetch and after the settings update it is the id byte of the answer of the
last read round that returned `RET_OK` (a later round is made only after the
earlier ones succeeded), unchanged when the first round failed; the write
rounds of the update leave it as it is.  `xai_profile_set_current_index` and
`xai_device_write_to_flash` never change it. -/
theorem cur_id_changes_only_through_accepted_answers (ctx : xai_context) (index : Nat)
    (profile : xai_profile) (current : Nat) (selected : Int) :
    (xai_profile_get_name ctx index profile).2.1.cur_id =
      (if (xai_device_read_packet ctx.dev (name_header ctx.cur_id index)).1 = RET_OK then
        msg_id (xai_device_read_packet ctx.dev (name_header ctx.cur_id index)).2.1
      else ctx.cur_id) ∧
    (xai_profile_get_current_index ctx current).2.1.cur_id =
      (if (xai_device_read_packet ctx.dev (current_header ctx.cur_id)).1 = RET_OK then
        msg_id (xai_device_read_packet ctx.dev (current_header ctx.cur_id)).2.1
      else ctx.cur_id) ∧
    (xai_profile_get_config ctx index profile).2.1.cur_id =
      (if (get_config_read1 ctx index).1 = RET_OK then
        if (get_config_read2 ctx index).1 = RET_OK then
          if (get_config_read3 ctx index).1 = RET_OK then
            msg_id (get_config_read3 ctx index).2.1
          else msg_id (get_config_read2 ctx index).2.1
        else msg_id (get_config_read1 ctx index).2.1
      else ctx.cur_id) ∧
    (xai_profile_set_config ctx index profile).2.cur_id =
      (if (set_config_read1 ctx index).1 = RET_OK then
        if (set_config_write1 ctx index profile).1 = RET_OK ∧
            (set_config_read2 ctx index profile).1 = RET_OK then
          if (set_config_write2 ctx index profile).1 = RET_OK ∧
              (set_config_read3 ctx index profile).1 = RET_OK then
            msg_id (set_config_read3 ctx index profile).2.1
          else msg_id (set_config_read2 ctx index profile).2.1
        else msg_id (set_config_read1 ctx index).2.1
      else ctx.cur_id) ∧
    (xai_profile_set_current_index ctx selected).2.cur_id = ctx.cur_id ∧
    (xai_device_write_to_flash ctx).2.cur_id = ctx.cur_id := by
  refine ⟨?_, ?_, ?_, ?_, rfl, rfl⟩
  · rw [(get_name_round ctx index profile).2]
    split_ifs <;> rfl
  · rw [(get_current_index_round ctx current).2]
    split_ifs <;> rfl
  · rw [(get_config_rounds ctx index profile).2]
    split_ifs <;> rfl
  · rw [set_config_rounds]
    split_ifs with c1 c2 c3 c4 c5 c6 c7 c8 c9 c10
    all_goals first
      | rfl
      | (exfalso; tauto)

/-! ## What the program writes to the device -/

theorem writes_only_refl (P : List Nat → Prop) (d : usb_dev_handle) : writes_only P d d :=
  ⟨[], log_step_refl d, fun _ h => absurd h (List.not_mem_nil _)⟩

theorem writes_only_trans {P : List Nat → Prop} {a b c : usb_dev_handle}
    (h1 : writes_only P a b) (h2 : writes_only P b c) : writes_only P a c := by
  obtain ⟨w1, s1, p1⟩ := h1
  obtain ⟨w2, s2, p2⟩ := h2
  refine ⟨w1 ++ w2, log_step_trans s1 s2, ?_⟩
  intro pkt hp
  rcases List.mem_append.1 hp with h | h
  · exact p1 pkt h
  · exact p2 pkt h

theorem writes_only_written {P : List Nat → Prop} {a b : usb_dev_handle}
    (h : writes_only P a b) :
    b.log = a.log ++ new_transfers a b ∧ ∀ pkt ∈ written (new_transfers a b), P pkt := by
  obtain ⟨ws, s, p⟩ := h
  obtain ⟨hl, hw⟩ := log_step_written s
  exact ⟨hl, fun pkt hp => p pkt (hw ▸ hp)⟩

theorem transfer_write_writes (P : List Nat → Prop) (dev : usb_dev_handle) (pkt : List Nat)
    (h : P pkt) : writes_only P dev (xai_device_transfer_packet dev pkt PACKET_WRITE).2.2 :=
  ⟨[pkt], transfer_write_step dev pkt, fun _ hq => (List.mem_singleton.1 hq) ▸ h⟩

theorem read_packet_writes (P : List Nat → Prop) (dev : usb_dev_handle)
    (hdr : xai_ll_message_header) (h : P (read_request hdr)) :
    writes_only P dev (xai_device_read_packet dev hdr).2.2 :=
  ⟨[read_request hdr], read_packet_step dev hdr, fun _ hq => (List.mem_singleton.1 hq) ▸ h⟩

theorem write_packet_writes (P : List Nat → Prop) (dev : usb_dev_handle) (msg : List Nat)
    (h : P msg) : writes_only P dev (xai_device_write_packet dev msg).2.2 :=
  ⟨[msg], write_packet_step dev msg, fun _ hq => (List.mem_singleton.1 hq) ▸ h⟩

theorem get_name_attempt_writes (P : List Nat → Prop)
    (hreq : ∀ hdr : xai_ll_message_header,
      hdr.operation = XAI_MOUSE_LL_GET_PROFILE_NAME → P (read_request hdr))
    (i : Nat) (ctx : xai_context) : writes_only P ctx.dev (get_name_attempt i ctx).2.dev := by
  have e : (get_name_attempt i ctx).2.dev =
      (xai_device_read_packet ctx.dev (name_header ctx.cur_id i)).2.2 := by
    show (xai_profile_get_name ctx i (ctx.p.getD i empty_profile)).2.1.dev = _
    rw [(get_name_round ctx i _).2]
    split_ifs <;> rfl
  rw [e]
  exact read_packet_writes P _ _ (hreq _ rfl)

theorem get_config_attempt_writes (P : List Nat → Prop)
    (hreq : ∀ hdr : xai_ll_message_header,
      hdr.operation = XAI_MOUSE_LL_GET_PROFILE_SETTINGS → P (read_request hdr))
    (i : Nat) (ctx : xai_context) : writes_only P ctx.dev (get_config_attempt i ctx).2.dev := by
  have r1 : writes_only P ctx.dev (get_config_read1 ctx i).2.2 :=
    read_packet_writes P _ _ (hreq _ rfl)
  have r2 : writes_only P (get_config_read1 ctx i).2.2 (get_config_read2 ctx i).2.2 :=
    read_packet_writes P _ _ (hreq _ rfl)
  have r3 : writes_only P (get_config_read2 ctx i).2.2 (get_config_read3 ctx i).2.2 :=
    read_packet_writes P _ _ (hreq _ rfl)
  show writes_only P ctx.dev (xai_profile_get_config ctx i (ctx.p.getD i empty_profile)).2.1.dev
  rw [(get_config_rounds ctx i _).2]
  split_ifs
  · exact writes_only_trans (writes_only_trans r1 r2) r3
  · exact writes_only_trans (writes_only_trans r1 r2) r3
  · exact writes_only_trans r1 r2
  · exact r1

theorem retry_loop_writes (P : List Nat → Prop) (attempt : xai_context → Int × xai_context)
    (h : ∀ ctx, writes_only P ctx.dev (attempt ctx).2.dev) (t : Nat) :
    ∀ ctx, writes_only P ctx.dev (retry_loop attempt t ctx).2.dev := by
  induction t with
  | zero =>
    intro ctx
    unfold retry_loop
    dsimp only
    split_ifs <;> exact h ctx
  | succ n ih =>
    intro ctx
    unfold retry_loop
    dsimp only
    split_ifs
    · exact writes_only_trans (h ctx) (ih _)
    · exact h ctx

theorem init_loop_writes (P : List Nat → Prop)
    (attempt : Nat → xai_context → Int × xai_context)
    (h : ∀ i ctx, writes_only P ctx.dev (attempt i ctx).2.dev) (n : Nat) :
    ∀ i ctx, writes_only P ctx.dev (init_loop attempt n i ctx).2.dev := by
  induction n with
  | zero =>
    intro i ctx
    exact writes_only_refl P _
  | succ n ih =>
    intro i ctx
    unfold init_loop
    dsimp only
    split_ifs
    · exact retry_loop_writes P _ (h i) 3 ctx
    · exact writes_only_trans (retry_loop_writes P _ (h i) 3 ctx) (ih _ _)

theorem device_init_writes (P : List Nat → Prop) (hinit : P init_packet)
    (hreq : ∀ hdr : xai_ll_message_header,
      hdr.operation = XAI_MOUSE_LL_GET_PROFILE_NAME ∨
      hdr.operation = XAI_MOUSE_LL_GET_PROFILE_SETTINGS ∨
      hdr.operation = XAI_MOUSE_LL_GET_CURRENT_PROFILE → P (read_request hdr))
    (ctx : xai_context) : writes_only P ctx.dev (xai_device_init ctx).2.dev := by
  have w0 : writes_only P ctx.dev
      (xai_device_transfer_packet ctx.dev init_packet PACKET_WRITE).2.2 :=
    transfer_write_writes P _ _ hinit
  have hn := init_loop_writes P get_name_attempt
    (get_name_attempt_writes P (fun hdr h => hreq hdr (Or.inl h)))
  have hc := init_loop_writes P get_config_attempt
    (get_config_attempt_writes P (fun hdr h => hreq hdr (Or.inr (Or.inl h))))
  have hg : ∀ (c : xai_context) (k : Nat),
      writes_only P c.dev (xai_profile_get_current_index c k).2.1.dev := by
    intro c k
    rw [(get_current_index_round c k).2]
    split_ifs <;> exact read_packet_writes P _ _ (hreq _ (Or.inr (Or.inr rfl)))
  unfold xai_device_init
  dsimp only
  split_ifs
  · exact writes_only_trans (writes_only_trans (writes_only_trans w0 (hn _ _ _)) (hc _ _ _))
      (hg _ _)
  · exact writes_only_trans (writes_only_trans (writes_only_trans w0 (hn _ _ _)) (hc _ _ _))
      (hg _ _)
  · exact writes_only_trans (writes_only_trans w0 (hn _ _ _)) (hc _ _ _)
  · exact writes_only_trans w0 (hn _ _ _)
  · exact w0

/-! ## The settings packets of the update -/

theorem getD_set_ne (m : List Nat) (i j v : Nat) (h : i ≠ j) :
    (m.set j v).getD i 0 = m.getD i 0 := by
  simp [List.getD, List.getElem?_set_ne (Ne.symm h)]

theorem getD_set_eq (m : List Nat) (j v : Nat) (h : j < m.length) :
    (m.set j v).getD j 0 = v := by
  simp [List.getD, h]

theorem set_u8_getD (m : List Nat) (i off v : Nat) (h : i ≠ off) :
    (set_u8 m off v).getD i 0 = m.getD i 0 :=
  getD_set_ne m i off _ h

theorem set_u16_getD (m : List Nat) (i off v : Nat) (h : i ≠ off ∧ i ≠ off + 1) :
    (set_u16 m off v).getD i 0 = m.getD i 0 := by
  unfold set_u16
  rw [getD_set_ne _ _ _ _ h.2, getD_set_ne _ _ _ _ h.1]

theorem step_u8 (c : Bool) (s : List Nat × Bool) (off v i : Nat)
    (h : c = true → i ≠ off) :
    (if c = true then (set_u8 s.1 off v, true) else s).1.getD i 0 = s.1.getD i 0 := by
  split_ifs with hc
  · exact set_u8_getD _ _ _ _ (h hc)
  · rfl

theorem step_u16 (c : Bool) (s : List Nat × Bool) (off v i : Nat)
    (h : c = true → i ≠ off ∧ i ≠ off + 1) :
    (if c = true then (set_u16 s.1 off v, true) else s).1.getD i 0 = s.1.getD i 0 := by
  split_ifs with hc
  · exact set_u16_getD _ _ _ _ (h hc)
  · rfl

theorem step_u8_length (c : Bool) (s : List Nat × Bool) (off v : Nat) :
    (if c = true then (set_u8 s.1 off v, true) else s).1.length = s.1.length := by
  split_ifs <;> simp [set_u8]

theorem step_u16_length (c : Bool) (s : List Nat × Bool) (off v : Nat) :
    (if c = true then (set_u16 s.1 off v, true) else s).1.length = s.1.length := by
  split_ifs <;> simp [set_u16]

theorem not_mem_dirty_bytes (table : List (Nat × List Nat)) (profile : xai_profile) (i : Nat)
    (h : i ∉ dirty_bytes table profile) :
    ∀ e ∈ table, field_present profile.fields e.1 = true → i ∉ e.2 := by
  intro e he hp hi
  apply h
  simp only [dirty_bytes, List.mem_flatten, List.mem_map, List.mem_filter]
  exact ⟨e.2, ⟨e, ⟨he, hp⟩, rfl⟩, hi⟩

theorem dirty_bytes_subset (table : List (Nat × List Nat)) (profile : xai_profile) (i : Nat)
    (h : i ∈ dirty_bytes table profile) : i ∈ (table.map (fun e => e.2)).flatten := by
  simp only [dirty_bytes, List.mem_flatten, List.mem_map, List.mem_filter] at h ⊢
  obtain ⟨l, ⟨e, ⟨he, _⟩, rfl⟩, hi⟩ := h
  exact ⟨e.2, ⟨e, he, rfl⟩, hi⟩

theorem set_config_part1_frame (profile : xai_profile) (msg : List Nat) (i : Nat)
    (h : i ∉ dirty_bytes part1_bytes profile) :
    (set_config_part1 profile msg).1.getD i 0 = msg.getD i 0 := by
  have hm := not_mem_dirty_bytes _ _ _ h
  have a1 := hm (PROFILE_FIELD_RATE, [9, 10]) (by simp [part1_bytes])
  have a2 := hm (PROFILE_FIELD_AIM, [19]) (by simp [part1_bytes])
  have a3 := hm (PROFILE_FIELD_ACCEL, [16]) (by simp [part1_bytes])
  have a4 := hm (PROFILE_FIELD_FREEMOVE, [18]) (by simp [part1_bytes])
  have a5 := hm (PROFILE_FIELD_LCD_BRIGHTNESS, [20]) (by simp [part1_bytes])
  have a6 := hm (PROFILE_FIELD_LCD_CONTRAST, [21]) (by simp [part1_bytes])
  simp only [List.mem_cons, List.mem_singleton, List.mem_nil_iff, or_false, not_or] at a1 a2 a3 a4 a5 a6
  unfold set_config_part1
  dsimp only
  rw [step_u8 _ _ _ _ _ a6, step_u8 _ _ _ _ _ a5, step_u8 _ _ _ _ _ a4, step_u8 _ _ _ _ _ a3,
    step_u8 _ _ _ _ _ a2]
  exact step_u16 _ (msg, false) _ _ _ a1

theorem set_config_part2_frame (profile : xai_profile) (msg : List Nat) (i : Nat)
    (h : i ∉ dirty_bytes part2_bytes profile) :
    (set_config_part2 profile msg).1.getD i 0 = msg.getD i 0 := by
  have hm := not_mem_dirty_bytes _ _ _ h
  have a1 := hm (PROFILE_FIELD_CPI1, [6, 7]) (by simp [part2_bytes])
  have a2 := hm (PROFILE_FIELD_CPI2, [8, 9]) (by simp [part2_bytes])
  simp only [List.mem_cons, List.mem_singleton, List.mem_nil_iff, or_false, not_or] at a1 a2
  unfold set_config_part2
  dsimp only
  rw [step_u16 _ _ _ _ _ a2]
  exact step_u16 _ (msg, false) _ _ _ a1

theorem set_config_part3_frame (profile : xai_profile) (msg : List Nat) (i : Nat)
    (h : i ∉ dirty_bytes part3_bytes profile) :
    (set_config_part3 profile msg).1.getD i 0 = msg.getD i 0 := by
  have hm := not_mem_dirty_bytes _ _ _ h
  have a1 := hm (PROFILE_FIELD_BUTTON_1, [6, 7]) (by simp [part3_bytes])
  have a2 := hm (PROFILE_FIELD_BUTTON_2, [8, 9]) (by simp [part3_bytes])
  have a3 := hm (PROFILE_FIELD_BUTTON_3, [10, 11]) (by simp [part3_bytes])
  have a4 := hm (PROFILE_FIELD_BUTTON_4, [12, 13]) (by simp [part3_bytes])
  have a5 := hm (PROFILE_FIELD_BUTTON_5, [14, 15]) (by simp [part3_bytes])
  have a6 := hm (PROFILE_FIELD_BUTTON_6, [16, 17]) (by simp [part3_bytes])
  have a7 := hm (PROFILE_FIELD_BUTTON_7, [18, 19]) (by simp [part3_bytes])
  have a8 := hm (PROFILE_FIELD_BUTTON_8, [28, 29]) (by simp [part3_bytes])
  have a9 := hm (PROFILE_FIELD_BUTTON_9, [30, 31]) (by simp [part3_bytes])
  simp only [List.mem_cons, List.mem_singleton, List.mem_nil_iff, or_false, not_or]
    at a1 a2 a3 a4 a5 a6 a7 a8 a9
  unfold set_config_part3
  dsimp only
  rw [step_u16 _ _ _ _ _ a9, step_u16 _ _ _ _ _ a8, step_u16 _ _ _ _ _ a7,
    step_u16 _ _ _ _ _ a6, step_u16 _ _ _ _ _ a5, step_u16 _ _ _ _ _ a4,
    step_u16 _ _ _ _ _ a3, step_u16 _ _ _ _ _ a2]
  exact step_u16 _ (msg, false) _ _ _ a1

theorem set_config_part1_length (profile : xai_profile) (msg : List Nat) :
    (set_config_part1 profile msg).1.length = msg.length := by
  unfold set_config_part1
  dsimp only
  rw [step_u8_length, step_u8_length, step_u8_length, step_u8_length, step_u8_length]
  exact step_u16_length _ (msg, false) _ _

theorem set_config_part2_length (profile : xai_profile) (msg : List Nat) :
    (set_config_part2 profile msg).1.length = msg.length := by
  unfold set_config_part2
  dsimp only
  rw [step_u16_length]
  exact step_u16_length _ (msg, false) _ _

theorem set_config_part3_length (profile : xai_profile) (msg : List Nat) :
    (set_config_part3 profile msg).1.length = msg.length := by
  unfold set_config_part3
  dsimp only
  rw [step_u16_length, step_u16_length, step_u16_length, step_u16_length, step_u16_length,
    step_u16_length, step_u16_length, step_u16_length]
  exact step_u16_length _ (msg, false) _ _

theorem set_config_write_step (dev : usb_dev_handle) (s : List Nat × Bool) (ret : Int) :
    log_step dev (set_config_write dev s ret).2.2 (set_packets s) := by
  unfold set_config_write set_packets set_packet
  split_ifs
  · exact write_packet_step _ _
  · exact log_step_refl _

theorem set_config_write_untouched (dev : usb_dev_handle) (s : List Nat × Bool) (ret : Int)
    (h : s.2 = false) : (set_config_write dev s ret).1 = ret := by
  unfold set_config_write
  rw [if_neg (by simp [h])]

theorem set_packet_operation (s : List Nat × Bool) (h : s.1.length = 64) :
    msg_operation (set_packet s) = XAI_MOUSE_LL_SET_PROFILE_SETTINGS :=
  getD_set_eq _ _ _ (by omega)

theorem set_packet_getD (s : List Nat × Bool) (i : Nat) (h : i ≠ 1) :
    (set_packet s).getD i 0 = s.1.getD i 0 :=
  getD_set_ne _ _ _ _ h

theorem set_packet_length (s : List Nat × Bool) : (set_packet s).length = s.1.length := by
  simp [set_packet]

/-- The packets `xai_profile_set_config` writes, in order: the read request of
part 1, the settings packet of part 1 when a field was touched, then the same
for part 2 and for part 3, cut where a round fails. -/
theorem set_config_written (ctx : xai_context) (index : Nat) (profile : xai_profile) :
    (xai_profile_set_config ctx index profile).2.dev.log =
      ctx.dev.log ++ new_transfers ctx.dev (xai_profile_set_config ctx index profile).2.dev ∧
    written (new_transfers ctx.dev (xai_profile_set_config ctx index profile).2.dev) =
      if (set_config_read1 ctx index).1 = RET_OK then
        read_request (settings_header (to_uchar (ctx.cur_id + 1)) 1 index) ::
          set_packets (set_config_part1 profile (set_config_read1 ctx index).2.1) ++
        if (set_config_write1 ctx index profile).1 = RET_OK then
          read_request (settings_header
            (to_uchar (msg_id (set_config_read1 ctx index).2.1 + 1)) 2 index) ::
          if (set_config_read2 ctx index profile).1 = RET_OK then
            set_packets (set_config_part2 profile (set_config_read2 ctx index profile).2.1) ++
            if (set_config_write2 ctx index profile).1 = RET_OK then
              read_request (settings_header
                (msg_id (set_config_read2 ctx index profile).2.1) 3 index) ::
              if (set_config_read3 ctx index profile).1 = RET_OK then
                set_packets (set_config_part3 profile (set_config_read3 ctx index profile).2.1)
              else []
            else []
          else []
        else []
      else [read_request (settings_header (to_uchar (ctx.cur_id + 1)) 1 index)] := by
  have s1 : log_step ctx.dev (set_config_read1 ctx index).2.2 _ := read_packet_step _ _
  have t1 : log_step (set_config_read1 ctx index).2.2 (set_config_write1 ctx index profile).2.2 _ :=
    set_config_write_step _ _ _
  have s2 : log_step (set_config_write1 ctx index profile).2.2
      (set_config_read2 ctx index profile).2.2 _ := read_packet_step _ _
  have t2 : log_step (set_config_read2 ctx index profile).2.2
      (set_config_write2 ctx index profile).2.2 _ := set_config_write_step _ _ _
  have s3 : log_step (set_config_write2 ctx index profile).2.2
      (set_config_read3 ctx index profile).2.2 _ := read_packet_step _ _
  have t3 : log_step (set_config_read3 ctx index profile).2.2
      (set_config_write3 ctx index profile).2.2 _ := set_config_write_step _ _ _
  rw [set_config_rounds]
  split_ifs
  · have c := log_step_written (log_step_trans (log_step_trans (log_step_trans
      (log_step_trans (log_step_trans s1 t1) s2) t2) s3) t3)
    exact ⟨c.1, by rw [c.2]; simp⟩
  · have c := log_step_written (log_step_trans (log_step_trans (log_step_trans
      (log_step_trans s1 t1) s2) t2) s3)
    exact ⟨c.1, by rw [c.2]; simp⟩
  · have c := log_step_written (log_step_trans (log_step_trans (log_step_trans s1 t1) s2) t2)
    exact ⟨c.1, by rw [c.2]; simp⟩
  · have c := log_step_written (log_step_trans (log_step_trans s1 t1) s2)
    exact ⟨c.1, by rw [c.2]; simp⟩
  · have c := log_step_written (log_step_trans s1 t1)
    exact ⟨c.1, by rw [c.2]; simp⟩
  · have c := log_step_written s1
    exact ⟨c.1, c.2⟩

/-- C19: `xai_profile_set_config` processes the parts in the order 1, 2, 3 and
stops at the first round that fails.  Its return code is the code of the
first failing round (the read round or the write round of part 1, 2 or 3), or
the code of the last round when none fails.  The packets it writes are, in
order, the read request of part 1, the settings packet of part 1 (when a field
was touched), the read request of part 2, the settings packet of part 2, the
read request of part 3 and the settings packet of part 3, cut right after the
round that failed: no transfer is made for a later part.  The log of the
device only grows, so what was written for earlier parts stays written. -/
theorem set_config_parts_in_order_until_first_failure (ctx : xai_context) (index : Nat)
    (profile : xai_profile) :
    (xai_profile_set_config ctx index profile).1 =
      (if (set_config_read1 ctx index).1 ≠ RET_OK then (set_config_read1 ctx index).1
       else if (set_config_write1 ctx index profile).1 ≠ RET_OK then
         (set_config_write1 ctx index profile).1
       else if (set_config_read2 ctx index profile).1 ≠ RET_OK then
         (set_config_read2 ctx index profile).1
       else if (set_config_write2 ctx index profile).1 ≠ RET_OK then
         (set_config_write2 ctx index profile).1
       else if (set_config_read3 ctx index profile).1 ≠ RET_OK then
         (set_config_read3 ctx index profile).1
       else (set_config_write3 ctx index profile).1) ∧
    (xai_profile_set_config ctx index profile).2.dev =
      (if (set_config_read1 ctx index).1 ≠ RET_OK then (set_config_read1 ctx index).2.2
       else if (set_config_write1 ctx index profile).1 ≠ RET_OK then
         (set_config_write1 ctx index profile).2.2
       else if (set_config_read2 ctx index profile).1 ≠ RET_OK then
         (set_config_read2 ctx index profile).2.2
       else if (set_config_write2 ctx index profile).1 ≠ RET_OK then
         (set_config_write2 ctx index profile).2.2
       else if (set_config_read3 ctx index profile).1 ≠ RET_OK then
         (set_config_read3 ctx index profile).2.2
       else (set_config_write3 ctx index profile).2.2) ∧
    (xai_profile_set_config ctx index profile).2.dev.log =
      ctx.dev.log ++ new_transfers ctx.dev (xai_profile_set_config ctx index profile).2.dev ∧
    written (new_transfers ctx.dev (xai_profile_set_config ctx index profile).2.dev) =
      (if (set_config_read1 ctx index).1 = RET_OK then
        read_request (settings_header (to_uchar (ctx.cur_id + 1)) 1 index) ::
          set_packets (set_config_part1 profile (set_config_read1 ctx index).2.1) ++
        if (set_config_write1 ctx index profile).1 = RET_OK then
          read_request (settings_header
            (to_uchar (msg_id (set_config_read1 ctx index).2.1 + 1)) 2 index) ::
          if (set_config_read2 ctx index profile).1 = RET_OK then
            set_packets (set_config_part2 profile (set_config_read2 ctx index profile).2.1) ++
            if (set_config_write2 ctx index profile).1 = RET_OK then
              read_request (settings_header
                (msg_id (set_config_read2 ctx index profile).2.1) 3 index) ::
              if (set_config_read3 ctx index profile).1 = RET_OK then
                set_packets (set_config_part3 profile (set_config_read3 ctx index profile).2.1)
              else []
            else []
          else []
        else []
      else [read_request (settings_header (to_uchar (ctx.cur_id + 1)) 1 index)]) := by
  refine ⟨?_, ?_, (set_config_written ctx index profile).1,
    (set_config_written ctx index profile).2⟩
  · rw [set_config_rounds]
    split_ifs <;> first | rfl | contradiction
  · rw [set_config_rounds]
    split_ifs <;> first | rfl | contradiction

theorem mem_set_packets (s : List Nat × Bool) (pkt : List Nat) (h : pkt ∈ set_packets s) :
    pkt = set_packet s := by
  unfold set_packets at h
  split_ifs at h
  · exact List.mem_singleton.1 h
  · exact absurd h (List.not_mem_nil _)

/-- A packet `xai_profile_set_config` writes is a settings read request or the
settings packet built from the answer of one of the three read rounds. -/
theorem set_config_written_mem (ctx : xai_context) (index : Nat) (profile : xai_profile)
    (pkt : List Nat)
    (h : pkt ∈ written (new_transfers ctx.dev (xai_profile_set_config ctx index profile).2.dev)) :
    (∃ hdr : xai_ll_message_header,
      hdr.operation = XAI_MOUSE_LL_GET_PROFILE_SETTINGS ∧ pkt = read_request hdr) ∨
    pkt = set_packet (set_config_part1 profile (set_config_read1 ctx index).2.1) ∨
    pkt = set_packet (set_config_part2 profile (set_config_read2 ctx index profile).2.1) ∨
    pkt = set_packet (set_config_part3 profile (set_config_read3 ctx index profile).2.1) := by
  rw [(set_config_written ctx index profile).2] at h
  have q : ∀ hdr : xai_ll_message_header,
      hdr.operation = XAI_MOUSE_LL_GET_PROFILE_SETTINGS → pkt = read_request hdr →
      ∃ hdr : xai_ll_message_header,
        hdr.operation = XAI_MOUSE_LL_GET_PROFILE_SETTINGS ∧ pkt = read_request hdr :=
    fun hdr ho hp => ⟨hdr, ho, hp⟩
  split_ifs at h
  all_goals
    simp only [List.mem_cons, List.mem_append, List.mem_singleton, List.mem_nil_iff, or_false]
      at h
  all_goals repeat' (refine Or.elim h (fun h => ?_) (fun h => ?_))
  all_goals
    first
      | exact Or.inl (q _ rfl h)
      | exact Or.inr (Or.inl (mem_set_packets _ _ h))
      | exact Or.inr (Or.inr (Or.inl (mem_set_packets _ _ h)))
      | exact Or.inr (Or.inr (Or.inr (mem_set_packets _ _ h)))

theorem set_config_read1_length (ctx : xai_context) (index : Nat) :
    (set_config_read1 ctx index).2.1.length = 64 :=
  read_packet_length _ _

theorem set_config_read2_length (ctx : xai_context) (index : Nat) (profile : xai_profile) :
    (set_config_read2 ctx index profile).2.1.length = 64 :=
  read_packet_length _ _

theorem set_config_read3_length (ctx : xai_context) (index : Nat) (profile : xai_profile) :
    (set_config_read3 ctx index profile).2.1.length = 64 :=
  read_packet_length _ _

theorem set_packet_part1_frame (profile : xai_profile) (msg : List Nat) (i : Nat) (hi : i ≠ 1)
    (h : i ∉ dirty_bytes part1_bytes profile) :
    (set_packet (set_config_part1 profile msg)).getD i 0 = msg.getD i 0 := by
  rw [set_packet_getD _ _ hi, set_config_part1_frame _ _ _ h]

theorem set_packet_part2_frame (profile : xai_profile) (msg : List Nat) (i : Nat) (hi : i ≠ 1)
    (h : i ∉ dirty_bytes part2_bytes profile) :
    (set_packet (set_config_part2 profile msg)).getD i 0 = msg.getD i 0 := by
  rw [set_packet_getD _ _ hi, set_config_part2_frame _ _ _ h]

theorem set_packet_part3_frame (profile : xai_profile) (msg : List Nat) (i : Nat) (hi : i ≠ 1)
    (h : i ∉ dirty_bytes part3_bytes profile) :
    (set_packet (set_config_part3 profile msg)).getD i 0 = msg.getD i 0 := by
  rw [set_packet_getD _ _ hi, set_config_part3_frame _ _ _ h]

theorem set_packet_part1_operation (profile : xai_profile) (msg : List Nat)
    (h : msg.length = 64) :
    msg_operation (set_packet (set_config_part1 profile msg)) =
      XAI_MOUSE_LL_SET_PROFILE_SETTINGS :=
  set_packet_operation _ (by rw [set_config_part1_length, h])

theorem set_packet_part2_operation (profile : xai_profile) (msg : List Nat)
    (h : msg.length = 64) :
    msg_operation (set_packet (set_config_part2 profile msg)) =
      XAI_MOUSE_LL_SET_PROFILE_SETTINGS :=
  set_packet_operation _ (by rw [set_config_part2_length, h])

theorem set_packet_part3_operation (profile : xai_profile) (msg : List Nat)
    (h : msg.length = 64) :
    msg_operation (set_packet (set_config_part3 profile msg)) =
      XAI_MOUSE_LL_SET_PROFILE_SETTINGS :=
  set_packet_operation _ (by rw [set_config_part3_length, h])

/-- The settings packets relative to the presence tests: in
`xai_profile_set_config` the write round of each part sends, when a field was
touched, the answer just read for that part with the operation byte set to
`SET_PROFILE_SETTINGS` and the members assigned whose presence test succeeds
(which, through the bits `PROFILE_FIELD_BUTTON_2` shares, can be more than the
fields that were requested); at every other byte the packet equals the answer.
The bytes that can be assigned are those of the settable members only, so the
header bytes 0, 2, 3, 4, 5 and the reserved bytes are sent back as the device
returned them. -/
theorem settings_packet_equals_answer_outside_present_members (ctx : xai_context) (index : Nat)
    (profile : xai_profile) :
    (log_step (set_config_read1 ctx index).2.2 (set_config_write1 ctx index profile).2.2
        (set_packets (set_config_part1 profile (set_config_read1 ctx index).2.1)) ∧
      log_step (set_config_read2 ctx index profile).2.2
        (set_config_write2 ctx index profile).2.2
        (set_packets (set_config_part2 profile (set_config_read2 ctx index profile).2.1)) ∧
      log_step (set_config_read3 ctx index profile).2.2
        (set_config_write3 ctx index profile).2.2
        (set_packets (set_config_part3 profile (set_config_read3 ctx index profile).2.1))) ∧
    (msg_operation (set_packet (set_config_part1 profile (set_config_read1 ctx index).2.1)) =
        XAI_MOUSE_LL_SET_PROFILE_SETTINGS ∧
      msg_operation (set_packet
        (set_config_part2 profile (set_config_read2 ctx index profile).2.1)) =
        XAI_MOUSE_LL_SET_PROFILE_SETTINGS ∧
      msg_operation (set_packet
        (set_config_part3 profile (set_config_read3 ctx index profile).2.1)) =
        XAI_MOUSE_LL_SET_PROFILE_SETTINGS) ∧
    (∀ i, i ≠ 1 → i ∉ dirty_bytes part1_bytes profile →
      (set_packet (set_config_part1 profile (set_config_read1 ctx index).2.1)).getD i 0 =
        (set_config_read1 ctx index).2.1.getD i 0) ∧
    (∀ i, i ≠ 1 → i ∉ dirty_bytes part2_bytes profile →
      (set_packet (set_config_part2 profile (set_config_read2 ctx index profile).2.1)).getD i 0 =
        (set_config_read2 ctx index profile).2.1.getD i 0) ∧
    (∀ i, i ≠ 1 → i ∉ dirty_bytes part3_bytes profile →
      (set_packet (set_config_part3 profile (set_config_read3 ctx index profile).2.1)).getD i 0 =
        (set_config_read3 ctx index profile).2.1.getD i 0) ∧
    (∀ i ∈ dirty_bytes part1_bytes profile, i ∈ [9, 10, 19, 16, 18, 20, 21]) ∧
    (∀ i ∈ dirty_bytes part2_bytes profile, i ∈ [6, 7, 8, 9]) ∧
    (∀ i ∈ dirty_bytes part3_bytes profile,
      i ∈ [6, 7, 8, 9, 10, 11, 12, 13, 14, 15, 16, 17, 18, 19, 28, 29, 30, 31]) ∧
    (∀ pkt ∈ written (new_transfers ctx.dev (xai_profile_set_config ctx index profile).2.dev),
      msg_operation pkt = XAI_MOUSE_LL_SET_PROFILE_SETTINGS →
      pkt = set_packet (set_config_part1 profile (set_config_read1 ctx index).2.1) ∨
      pkt = set_packet (set_config_part2 profile (set_config_read2 ctx index profile).2.1) ∨
      pkt = set_packet (set_config_part3 profile (set_config_read3 ctx index profile).2.1)) := by
  refine ⟨⟨set_config_write_step _ _ _, set_config_write_step _ _ _,
      set_config_write_step _ _ _⟩,
    ⟨set_packet_part1_operation _ _ (set_config_read1_length _ _),
      set_packet_part2_operation _ _ (set_config_read2_length _ _ _),
      set_packet_part3_operation _ _ (set_config_read3_length _ _ _)⟩,
    fun i hi h => set_packet_part1_frame _ _ i hi h,
    fun i hi h => set_packet_part2_frame _ _ i hi h,
    fun i hi h => set_packet_part3_frame _ _ i hi h,
    fun i h => dirty_bytes_subset _ _ i h,
    fun i h => dirty_bytes_subset _ _ i h,
    fun i h => dirty_bytes_subset _ _ i h, ?_⟩
  intro pkt hp hop
  rcases set_config_written_mem ctx index profile pkt hp with ⟨hdr, ho, rfl⟩ | h
  · rw [read_request_operation, ho] at hop
    exact absurd hop (by decide)
  · exact h

/-- C18 (code behaviour at the failing input): the update `--b2=left` flags
button 2 only, but `PROFILE_FIELD_BUTTON_2` holds the bits of
`PROFILE_FIELD_BUTTON_1` and `PROFILE_FIELD_LCD_CONTRAST`, so their presence
tests succeed too.  On the device that answers LCD contrast 20 and button 1
role 9, `xai_profile_set_config` writes a part-1 settings packet whose LCD
contrast byte is 0 instead of the 20 the device returned, and a part-3
settings packet whose button 1 member is 0 instead of 9 (button 2 is set to 9,
the role left, as requested): two fields that were never flagged are not sent
back as the device returned them. -/
theorem unflagged_fields_overwritten_when_button_2_is_set :
    (update_of [(PROFILE_FIELD_BUTTON_2, "left".toList)]).lcd_contrast = 0 ∧
    (update_of [(PROFILE_FIELD_BUTTON_2, "left".toList)]).button =
      [0, 9, 0, 0, 0, 0, 0, 0, 0] ∧
    (written (new_transfers configured_device
      (xai_profile_set_config (initial_context configured_device) 0
        (update_of [(PROFILE_FIELD_BUTTON_2, "left".toList)])).2.dev)) =
      [ read_request (settings_header 1 1 0),
        set_packet (set_config_part1 (update_of [(PROFILE_FIELD_BUTTON_2, "left".toList)])
          (set_config_read1 (initial_context configured_device) 0).2.1),
        read_request (settings_header 1 2 0),
        read_request (settings_header 0 3 0),
        set_packet (set_config_part3 (update_of [(PROFILE_FIELD_BUTTON_2, "left".toList)])
          (set_config_read3 (initial_context configured_device) 0
            (update_of [(PROFILE_FIELD_BUTTON_2, "left".toList)])).2.1) ] ∧
    (set_config_read1 (initial_context configured_device) 0).2.1.getD 21 0 = 20 ∧
    (set_packet (set_config_part1 (update_of [(PROFILE_FIELD_BUTTON_2, "left".toList)])
      (set_config_read1 (initial_context configured_device) 0).2.1)).getD 21 0 = 0 ∧
    get_u16 (set_config_read3 (initial_context configured_device) 0
      (update_of [(PROFILE_FIELD_BUTTON_2, "left".toList)])).2.1 6 = 9 ∧
    get_u16 (set_packet (set_config_part3 (update_of [(PROFILE_FIELD_BUTTON_2, "left".toList)])
      (set_config_read3 (initial_context configured_device) 0
        (update_of [(PROFILE_FIELD_BUTTON_2, "left".toList)])).2.1)) 6 = 0 ∧
    get_u16 (set_packet (set_config_part3 (update_of [(PROFILE_FIELD_BUTTON_2, "left".toList)])
      (set_config_read3 (initial_context configured_device) 0
        (update_of [(PROFILE_FIELD_BUTTON_2, "left".toList)])).2.1)) 8 = 9 := by
  decide

theorem writes_only_of_written (P : List Nat → Prop) (a b : usb_dev_handle)
    (ws : List (List Nat)) (s : log_step a b ws)
    (h : ∀ pkt ∈ written (new_transfers a b), P pkt) : writes_only P a b :=
  ⟨ws, s, fun pkt hp => h pkt ((log_step_written s).2 ▸ hp)⟩

theorem set_config_log_step (ctx : xai_context) (index : Nat) (profile : xai_profile) :
    ∃ ws, log_step ctx.dev (xai_profile_set_config ctx index profile).2.dev ws := by
  have s1 : log_step ctx.dev (set_config_read1 ctx index).2.2 _ := read_packet_step _ _
  have t1 : log_step (set_config_read1 ctx index).2.2 (set_config_write1 ctx index profile).2.2 _ :=
    set_config_write_step _ _ _
  have s2 : log_step (set_config_write1 ctx index profile).2.2
      (set_config_read2 ctx index profile).2.2 _ := read_packet_step _ _
  have t2 : log_step (set_config_read2 ctx index profile).2.2
      (set_config_write2 ctx index profile).2.2 _ := set_config_write_step _ _ _
  have s3 : log_step (set_config_write2 ctx index profile).2.2
      (set_config_read3 ctx index profile).2.2 _ := read_packet_step _ _
  have t3 : log_step (set_config_read3 ctx index profile).2.2
      (set_config_write3 ctx index profile).2.2 _ := set_config_write_step _ _ _
  rw [set_config_rounds]
  split_ifs
  · exact ⟨_, log_step_trans (log_step_trans (log_step_trans
      (log_step_trans (log_step_trans s1 t1) s2) t2) s3) t3⟩
  · exact ⟨_, log_step_trans (log_step_trans (log_step_trans
      (log_step_trans s1 t1) s2) t2) s3⟩
  · exact ⟨_, log_step_trans (log_step_trans (log_step_trans s1 t1) s2) t2⟩
  · exact ⟨_, log_step_trans (log_step_trans s1 t1) s2⟩
  · exact ⟨_, log_step_trans s1 t1⟩
  · exact ⟨_, s1⟩

theorem set_config_writes (P : List Nat → Prop)
    (hreq : ∀ hdr : xai_ll_message_header,
      hdr.operation = XAI_MOUSE_LL_GET_PROFILE_SETTINGS → P (read_request hdr))
    (hset : ∀ m : List Nat, m.length = 64 →
      msg_operation m = XAI_MOUSE_LL_SET_PROFILE_SETTINGS → P m)
    (ctx : xai_context) (index : Nat) (profile : xai_profile) :
    writes_only P ctx.dev (xai_profile_set_config ctx index profile).2.dev := by
  obtain ⟨ws, s⟩ := set_config_log_step ctx index profile
  refine writes_only_of_written P _ _ ws s ?_
  intro pkt hp
  rcases set_config_written_mem ctx index profile pkt hp with ⟨hdr, ho, rfl⟩ | rfl | rfl | rfl
  · exact hreq hdr ho
  · exact hset _ (by rw [set_packet_length, set_config_part1_length, set_config_read1_length])
      (set_packet_part1_operation _ _ (set_config_read1_length _ _))
  · exact hset _ (by rw [set_packet_length, set_config_part2_length, set_config_read2_length])
      (set_packet_part2_operation _ _ (set_config_read2_length _ _ _))
  · exact hset _ (by rw [set_packet_length, set_config_part3_length, set_config_read3_length])
      (set_packet_part3_operation _ _ (set_config_read3_length _ _ _))

theorem set_current_index_writes (P : List Nat → Prop) (ctx : xai_context) (index : Int)
    (h : P (set_current_packet ctx.cur_id index)) :
    writes_only P ctx.dev (xai_profile_set_current_index ctx index).2.dev :=
  write_packet_writes P _ _ h

theorem write_to_flash_writes (P : List Nat → Prop) (ctx : xai_context)
    (h : P (flash_packet ctx.cur_id)) :
    writes_only P ctx.dev (xai_device_write_to_flash ctx).2.dev :=
  write_packet_writes P _ _ h

/-- Every packet `main` writes is the initialisation packet, a read request of
one of the three read operations, a settings packet, a `SET_CURRENT_PROFILE`
packet for an index in 0..4 or the `SAVE_TO_FLASH` packet. -/
theorem main_writes (P : List Nat → Prop) (hinit : P init_packet)
    (hreq : ∀ hdr : xai_ll_message_header,
      hdr.operation = XAI_MOUSE_LL_GET_PROFILE_NAME ∨
      hdr.operation = XAI_MOUSE_LL_GET_PROFILE_SETTINGS ∨
      hdr.operation = XAI_MOUSE_LL_GET_CURRENT_PROFILE → P (read_request hdr))
    (hset : ∀ m : List Nat, m.length = 64 →
      msg_operation m = XAI_MOUSE_LL_SET_PROFILE_SETTINGS → P m)
    (hcur : ∀ (id : Nat) (k : Int), 0 ≤ k → k ≤ 4 → P (set_current_packet id k))
    (hflash : ∀ id : Nat, P (flash_packet id))
    (profile_number : Int) (newp : xai_profile) (ctx : xai_context) (xai_init_ret : Int) :
    writes_only P ctx.dev (main profile_number newp ctx xai_init_ret).2.dev := by
  have hi := device_init_writes P hinit hreq ctx
  have hs := fun (c : xai_context) (k : Nat) =>
    set_config_writes P (fun hdr h => hreq hdr (Or.inr (Or.inl h))) hset c k newp
  unfold main
  dsimp only
  split_ifs with c1 c2 c3 c4 c5 c6
  · exact writes_only_refl P _
  · exact writes_only_refl P _
  · exact hi
  · have h1 := hs (xai_device_init ctx).2 (profile_number - 1).toNat
    have hk : 0 ≤ profile_number - 1 ∧ profile_number - 1 ≤ 4 := by
      simp only [XAI_MOUSE_PROFILE_NUM, Nat.cast_ofNat] at c1
      omega
    have h2 := set_current_index_writes P
      (xai_profile_set_config (xai_device_init ctx).2 (profile_number - 1).toNat newp).2
      (profile_number - 1) (hcur _ _ hk.1 hk.2)
    exact writes_only_trans (writes_only_trans (writes_only_trans hi h1) h2)
      (write_to_flash_writes P _ (hflash _))
  · exact writes_only_trans (writes_only_trans hi (hs _ _))
      (write_to_flash_writes P _ (hflash _))
  · exact writes_only_trans hi (hs _ _)
  · exact hi

theorem read_request_null_byte (hdr : xai_ll_message_header) :
    (read_request hdr).getD 0 0 = 0 := by
  simp [read_request, replicate_64, List.getD]

theorem set_current_packet_bytes (id : Nat) (k : Int) :
    (set_current_packet id k).getD 0 0 = 0 ∧
    msg_operation (set_current_packet id k) = XAI_MOUSE_LL_SET_CURRENT_PROFILE ∧
    msg_part (set_current_packet id k) = int_to_uchar k := by
  simp [set_current_packet, replicate_64, List.getD, msg_operation, msg_part]

theorem flash_packet_bytes (id : Nat) :
    (flash_packet id).getD 0 0 = 0 ∧
    msg_operation (flash_packet id) = XAI_MOUSE_LL_SAVE_TO_FLASH := by
  simp [flash_packet, replicate_64, List.getD, msg_operation]

/-! ## Selecting the current profile: where the index is checked -/

/-- C12 (amended): `main` checks the profile number before it opens the
channel.  For every number whose 0-based index `profile_number - 1` is outside
0..4, `main` returns -1 (the value of `RET_ERROR_WRONG_PARAMETER`) with the
context as it was: no transfer is made.  In every run of `main`, a
`SET_CURRENT_PROFILE` packet written to the device carries an index in 0..4.
The index is validated in `main`, not in `xai_profile_set_current_index`. -/
theorem main_validates_profile_number_before_any_transfer (profile_number : Int)
    (newp : xai_profile) (ctx : xai_context) (xai_init_ret : Int) :
    ((profile_number - 1 < 0 ∨ 4 < profile_number - 1) →
      main profile_number newp ctx xai_init_ret = (RET_ERROR_WRONG_PARAMETER, ctx) ∧
      (main profile_number newp ctx xai_init_ret).1 = -1 ∧
      new_transfers ctx.dev (main profile_number newp ctx xai_init_ret).2.dev = []) ∧
    (∀ pkt ∈ written (new_transfers ctx.dev (main profile_number newp ctx xai_init_ret).2.dev),
      msg_operation pkt = XAI_MOUSE_LL_SET_CURRENT_PROFILE → msg_part pkt ≤ 4) := by
  constructor
  · intro h
    have hm : main profile_number newp ctx xai_init_ret = (-1, ctx) := by
      unfold main
      rw [if_pos]
      simp only [XAI_MOUSE_PROFILE_NUM, Nat.cast_ofNat]
      omega
    rw [hm]
    exact ⟨rfl, rfl, by simp [new_transfers]⟩
  · refine (writes_only_written (main_writes
      (fun pkt => msg_operation pkt = XAI_MOUSE_LL_SET_CURRENT_PROFILE → msg_part pkt ≤ 4)
      ?_ ?_ ?_ ?_ ?_ profile_number newp ctx xai_init_ret)).2
    · decide
    · intro hdr ho hc
      rw [read_request_operation] at hc
      rw [hc] at ho
      exact absurd ho (by decide)
    · intro m _ ho hc
      rw [ho] at hc
      exact absurd hc (by decide)
    · intro id k h0 h4 _
      rw [(set_current_packet_bytes id k).2.2]
      unfold int_to_uchar
      omega
    · intro id hc
      rw [(flash_packet_bytes id).2] at hc
      exact absurd hc (by decide)

/-- C12 (witness): profile number 6 (0-based index 5) with `--c1=800` and
`--current` on the device that answers every transfer: -1 is returned and no
transfer is made. -/
theorem main_validates_profile_number_before_any_transfer_witness :
    ((6 : Int) - 1 < 0 ∨ 4 < (6 : Int) - 1) ∧
    (main 6 (update_of [(PROFILE_FIELD_CPI1, "800".toList)])
      { initial_context steady_device with set_current_profile := 1 } RET_OK).1 = -1 ∧
    new_transfers steady_device
      (main 6 (update_of [(PROFILE_FIELD_CPI1, "800".toList)])
        { initial_context steady_device with set_current_profile := 1 } RET_OK).2.dev = [] :=
  ⟨by decide,
   ((main_validates_profile_number_before_any_transfer 6
      (update_of [(PROFILE_FIELD_CPI1, "800".toList)])
      { initial_context steady_device with set_current_profile := 1 } RET_OK).1
        (by decide)).2⟩

/-! ## The first byte of the reports sent -/

/-- C20 (counterexample): on the device whose answers carry 1 in their first
byte, the update `--c1=800` makes `xai_profile_set_config` write a
`SET_PROFILE_SETTINGS` packet whose `null_byte` is 1. -/
theorem settings_packet_echoes_null_byte_of_answer :
    (written (new_transfers odd_device
      (xai_profile_set_config (initial_context odd_device) 0
        (update_of [(PROFILE_FIELD_CPI1, "800".toList)])).2.dev)).map
      (fun pkt => (msg_operation pkt, pkt.getD 0 0)) =
      [(XAI_MOUSE_LL_GET_PROFILE_SETTINGS, 0), (XAI_MOUSE_LL_GET_PROFILE_SETTINGS, 0),
       (XAI_MOUSE_LL_SET_PROFILE_SETTINGS, 1), (XAI_MOUSE_LL_GET_PROFILE_SETTINGS, 0)] := by
  decide

/-- C20 (amended): every report the program builds itself has `null_byte`
zero: the initialisation packet and every read request of `xai_device_init`,
the request of every read round, the `SET_CURRENT_PROFILE` and the
`SAVE_TO_FLASH` packets, and in `xai_profile_set_config` and in a whole run of
`main` every packet other than a `SET_PROFILE_SETTINGS` packet.  A
`SET_PROFILE_SETTINGS` packet is the answer just read with the operation and
the dirty fields replaced: its `null_byte` is the first byte of that answer. -/
theorem null_byte_zero_on_reports_built_by_the_program (ctx : xai_context)
    (hdr : xai_ll_message_header) (selected : Int) (index : Nat) (profile : xai_profile)
    (profile_number : Int) (newp : xai_profile) (xai_init_ret : Int) :
    (∀ pkt ∈ written (new_transfers ctx.dev (xai_device_init ctx).2.dev), pkt.getD 0 0 = 0) ∧
    (∀ pkt ∈ written (new_transfers ctx.dev (xai_device_read_packet ctx.dev hdr).2.2),
      pkt.getD 0 0 = 0) ∧
    (∀ pkt ∈ written (new_transfers ctx.dev (xai_profile_set_current_index ctx selected).2.dev),
      pkt.getD 0 0 = 0) ∧
    (∀ pkt ∈ written (new_transfers ctx.dev (xai_device_write_to_flash ctx).2.dev),
      pkt.getD 0 0 = 0) ∧
    (∀ pkt ∈ written (new_transfers ctx.dev (xai_profile_set_config ctx index profile).2.dev),
      msg_operation pkt ≠ XAI_MOUSE_LL_SET_PROFILE_SETTINGS → pkt.getD 0 0 = 0) ∧
    (∀ pkt ∈ written (new_transfers ctx.dev (main profile_number newp ctx xai_init_ret).2.dev),
      msg_operation pkt ≠ XAI_MOUSE_LL_SET_PROFILE_SETTINGS → pkt.getD 0 0 = 0) ∧
    (set_packet (set_config_part1 profile (set_config_read1 ctx index).2.1)).getD 0 0 =
      (set_config_read1 ctx index).2.1.getD 0 0 ∧
    (set_packet (set_config_part2 profile (set_config_read2 ctx index profile).2.1)).getD 0 0 =
      (set_config_read2 ctx index profile).2.1.getD 0 0 ∧
    (set_packet (set_config_part3 profile (set_config_read3 ctx index profile).2.1)).getD 0 0 =
      (set_config_read3 ctx index profile).2.1.getD 0 0 := by
  have n1 : (0 : Nat) ∉ dirty_bytes part1_bytes profile := fun h => by
    have := dirty_bytes_subset _ _ _ h
    revert this
    decide
  have n2 : (0 : Nat) ∉ dirty_bytes part2_bytes profile := fun h => by
    have := dirty_bytes_subset _ _ _ h
    revert this
    decide
  have n3 : (0 : Nat) ∉ dirty_bytes part3_bytes profile := fun h => by
    have := dirty_bytes_subset _ _ _ h
    revert this
    decide
  refine ⟨?_, ?_, ?_, ?_, ?_, ?_, set_packet_part1_frame _ _ 0 (by decide) n1,
    set_packet_part2_frame _ _ 0 (by decide) n2, set_packet_part3_frame _ _ 0 (by decide) n3⟩
  · exact (writes_only_written (device_init_writes (fun pkt => pkt.getD 0 0 = 0) (by decide)
      (fun h _ => read_request_null_byte h) ctx)).2
  · exact (writes_only_written (read_packet_writes (fun pkt => pkt.getD 0 0 = 0) ctx.dev hdr
      (read_request_null_byte hdr))).2
  · exact (writes_only_written (set_current_index_writes (fun pkt => pkt.getD 0 0 = 0) ctx
      selected (set_current_packet_bytes _ _).1)).2
  · exact (writes_only_written (write_to_flash_writes (fun pkt => pkt.getD 0 0 = 0) ctx
      (flash_packet_bytes _).1)).2
  · exact (writes_only_written (set_config_writes
      (fun pkt => msg_operation pkt ≠ XAI_MOUSE_LL_SET_PROFILE_SETTINGS → pkt.getD 0 0 = 0)
      (fun h _ _ => read_request_null_byte h) (fun m _ ho hn => absurd ho hn)
      ctx index profile)).2
  · exact (writes_only_written (main_writes
      (fun pkt => msg_operation pkt ≠ XAI_MOUSE_LL_SET_PROFILE_SETTINGS → pkt.getD 0 0 = 0)
      (fun _ => by decide) (fun h _ _ => read_request_null_byte h)
      (fun m _ ho hn => absurd ho hn) (fun id k _ _ _ => (set_current_packet_bytes id k).1)
      (fun id _ => (flash_packet_bytes id).1) profile_number newp ctx xai_init_ret)).2

/-- C20 (witness): a run of `main` for profile 1 with `--c1=800` on the device
that answers every transfer with a zero first byte: every report written has
`null_byte` zero except possibly the settings packet, which echoes the
answer. -/
theorem null_byte_zero_on_reports_built_by_the_program_witness :
    ∀ pkt ∈ written (new_transfers steady_device
      (main 1 (update_of [(PROFILE_FIELD_CPI1, "800".toList)])
        (initial_context steady_device) RET_OK).2.dev),
      msg_operation pkt ≠ XAI_MOUSE_LL_SET_PROFILE_SETTINGS → pkt.getD 0 0 = 0 :=
  (null_byte_zero_on_reports_built_by_the_program (initial_context steady_device)
    (name_header 0 0) 0 0 (update_of [(PROFILE_FIELD_CPI1, "800".toList)]) 1
    (update_of [(PROFILE_FIELD_CPI1, "800".toList)]) RET_OK).2.2.2.2.2.1

/-! ## Opening the channel -/

/-- C21 (code behaviour at the failing input): when the first
`usb_claim_interface` fails, the unbind workaround returns `RET_OK` and the
second `usb_claim_interface` fails as well, `xai_init` closes the handle, sets
`ctx->dev` to NULL and returns `ret`, which still holds the `RET_OK` of the
workaround: the interface could not be claimed, the handle is NULL and the
return code is `RET_OK`.  When the workaround itself fails its error is
returned, and when the second claim succeeds the handle is kept. -/
theorem init_returns_ok_with_null_handle_when_second_claim_fails :
    (xai_init unclaimable_system).1 = RET_OK ∧
    (xai_init unclaimable_system).2.1.isNone = true ∧
    (xai_init unclaimable_system).2.2 = false ∧
    xai_usbhid_driver_workaround unclaimable_system.intf_name unclaimable_system.fopen_ok
      unclaimable_system.fputs_ret = RET_OK ∧
    unclaimable_system.claim_first < 0 ∧ unclaimable_system.claim_second < 0 ∧
    (xai_init unpermitted_system).1 = RET_ERROR_NO_PERMISSION ∧
    (xai_init unpermitted_system).2.1.isNone = true ∧
    (xai_init rebound_system).1 = RET_OK ∧
    (xai_init rebound_system).2.1.isSome = true ∧
    (xai_init rebound_system).2.2 = true := by
  decide

/-! ## Button roles: the short aliases -/

/-- C22 (counterexample): the alias of wheeldown written "DW" or "Dw" is
rejected by `button_setup_parse` (return value -1, `*value` untouched), while
"dw" and "WheelDown" give the role code 12. -/
theorem upper_case_alias_is_rejected :
    button_setup_parse "DW".toList 7 = (-1, 7) ∧
    button_setup_parse "Dw".toList 7 = (-1, 7) ∧
    button_setup_parse "dw".toList 7 = (RET_OK, 12) ∧
    button_setup_parse "WheelDown".toList 7 = (RET_OK, 12) := by
  decide

/-- C22 (amended): the full name of a role is matched ignoring case, its short
alias only as it is written in the source (lower case): for every supported
role the alias itself yields the role code, every mix of upper and lower case
of the full name yields the role code, and every spelling of the alias that
differs from it in the case of a letter is rejected with -1 and leaves
`*value` untouched. -/
theorem alias_matched_in_lower_case_only (r : List Char × List Char × Nat)
    (hr : r ∈ button_roles) (s : List Char) (v : Nat) :
    (s = r.2.1 → button_setup_parse s v = (RET_OK, r.2.2)) ∧
    (s.map tolower = r.1 → button_setup_parse s v = (RET_OK, r.2.2)) ∧
    (s.map tolower = r.2.1 → s ≠ r.2.1 → button_setup_parse s v = (-1, v)) := by
  refine ⟨?_, ?_, ?_⟩
  · intro h
    rw [h]
    exact button_setup_parse_alias r hr v
  · intro h
    exact button_setup_parse_full r hr s v h
  · intro hl hne
    have hlow : ∀ q ∈ button_roles, q.2.1.map tolower = q.2.1 ∧ cstr q.2.1 := by decide
    have hdis : ∀ q ∈ button_roles, ∀ q2 ∈ button_roles, q.2.1 ≠ q2.1 := by decide
    have hs : cstr s := cstr_of_map_tolower s (hl ▸ (hlow r hr).2)
    refine button_setup_parse_reject s hs v ?_
    intro q hq hc
    rcases hc with hc | hc
    · exact hdis r hr q hq (hl ▸ hc)
    · apply hne
      have : s.map tolower = q.2.1 := by rw [hc]; exact (hlow q hq).1
      rw [hc, ← this, hl]

/-- C22 (witness): the role wheeldown and the spelling "Dw" of its alias. -/
theorem alias_matched_in_lower_case_only_witness :
    (("wheeldown".toList, ['d', 'w'], 12) : List Char × List Char × Nat) ∈ button_roles ∧
    "Dw".toList.map tolower = ['d', 'w'] ∧ "Dw".toList ≠ ['d', 'w'] ∧
    button_setup_parse "Dw".toList 7 = (-1, 7) :=
  ⟨by decide, by decide, by decide,
   (alias_matched_in_lower_case_only ("wheeldown".toList, ['d', 'w'], 12) (by decide)
      "Dw".toList 7).2.2 (by decide) (by decide)⟩

/-! ## Field editor: text without a leading digit -/

/-- C25: for the input "abc" `strtoul` finds no digit and returns 0; applied
to the empty update, the fields whose minimum is 0 are marked dirty with the
value for 0 (accel 0, free-move and aim 0x64), and the same input is rejected
for CPI1, CPI2, rate, LCD brightness and LCD contrast (nothing is marked dirty
and the stored values stay as they were). -/
theorem non_numeric_text_is_taken_as_zero :
    strtoul "abc".toList = 0 ∧
    dirty_set (xai_profile_change_req empty_profile PROFILE_FIELD_ACCEL "abc".toList).2 =
      [PROFILE_FIELD_ACCEL] ∧
    (xai_profile_change_req empty_profile PROFILE_FIELD_ACCEL "abc".toList).2.accel = 0 ∧
    dirty_set (xai_profile_change_req empty_profile PROFILE_FIELD_FREEMOVE "abc".toList).2 =
      [PROFILE_FIELD_FREEMOVE] ∧
    (xai_profile_change_req empty_profile PROFILE_FIELD_FREEMOVE "abc".toList).2.freemove =
      0x64 ∧
    dirty_set (xai_profile_change_req empty_profile PROFILE_FIELD_AIM "abc".toList).2 =
      [PROFILE_FIELD_AIM] ∧
    (xai_profile_change_req empty_profile PROFILE_FIELD_AIM "abc".toList).2.aim = 0x64 ∧
    (∀ f ∈ [PROFILE_FIELD_CPI1, PROFILE_FIELD_CPI2, PROFILE_FIELD_RATE,
        PROFILE_FIELD_LCD_BRIGHTNESS, PROFILE_FIELD_LCD_CONTRAST],
      xai_profile_change_req empty_profile f "abc".toList =
        (RET_OK, { empty_profile with fields := PROFILE_FIELD_MASK }) ∧
      dirty_set (xai_profile_change_req empty_profile f "abc".toList).2 = []) := by
  decide

/-! ## The transaction ids of the update requests -/

theorem read_request_id (hdr : xai_ll_message_header) :
    msg_id (read_request hdr) = hdr.id ∧ msg_part (read_request hdr) = hdr.part := by
  simp [read_request, replicate_64, List.getD, msg_id, msg_part]

/-- C23: in `xai_profile_set_config` the read round of part 1 writes one
request, whose id byte is `(cur_id + 1) mod 256` for the session id `cur_id` at
entry; the read round of part 2 writes one request, whose id byte is
`(id1 + 1) mod 256` where `id1`, the id byte of the part-1 answer, is the
session id at that moment; the read round of part 3 writes one request, whose
id byte is the id byte of the part-2 answer, the session id at that moment,
unchanged.  The part bytes of the three requests are 1, 2 and 3, and with
`cur_id` 0xFF the part-1 request carries the id 0. -/
theorem update_requests_carry_next_id_except_part3 (ctx : xai_context) (index : Nat)
    (profile : xai_profile) :
    (written (new_transfers ctx.dev (set_config_read1 ctx index).2.2) =
        [read_request (settings_header (to_uchar (ctx.cur_id + 1)) 1 index)] ∧
      msg_id (read_request (settings_header (to_uchar (ctx.cur_id + 1)) 1 index)) =
        (ctx.cur_id + 1) % 256 ∧
      msg_part (read_request (settings_header (to_uchar (ctx.cur_id + 1)) 1 index)) = 1) ∧
    (written (new_transfers (set_config_write1 ctx index profile).2.2
        (set_config_read2 ctx index profile).2.2) =
        [read_request (settings_header
          (to_uchar (msg_id (set_config_read1 ctx index).2.1 + 1)) 2 index)] ∧
      msg_id (read_request (settings_header
          (to_uchar (msg_id (set_config_read1 ctx index).2.1 + 1)) 2 index)) =
        (msg_id (set_config_read1 ctx index).2.1 + 1) % 256 ∧
      msg_part (read_request (settings_header
          (to_uchar (msg_id (set_config_read1 ctx index).2.1 + 1)) 2 index)) = 2) ∧
    (written (new_transfers (set_config_write2 ctx index profile).2.2
        (set_config_read3 ctx index profile).2.2) =
        [read_request (settings_header
          (msg_id (set_config_read2 ctx index profile).2.1) 3 index)] ∧
      msg_id (read_request (settings_header
          (msg_id (set_config_read2 ctx index profile).2.1) 3 index)) =
        msg_id (set_config_read2 ctx index profile).2.1 ∧
      msg_part (read_request (settings_header
          (msg_id (set_config_read2 ctx index profile).2.1) 3 index)) = 3) ∧
    (xai_profile_set_config ctx index profile).2.cur_id =
      (if (set_config_read1 ctx index).1 = RET_OK then
        if (set_config_write1 ctx index profile).1 = RET_OK ∧
            (set_config_read2 ctx index profile).1 = RET_OK then
          if (set_config_write2 ctx index profile).1 = RET_OK ∧
              (set_config_read3 ctx index profile).1 = RET_OK then
            msg_id (set_config_read3 ctx index profile).2.1
          else msg_id (set_config_read2 ctx index profile).2.1
        else msg_id (set_config_read1 ctx index).2.1
      else ctx.cur_id) ∧
    msg_id (read_request (settings_header (to_uchar (0xFF + 1)) 1 index)) = 0 := by
  refine ⟨⟨(log_step_written (read_packet_step _ _)).2, (read_request_id _).1,
      (read_request_id _).2⟩,
    ⟨(log_step_written (read_packet_step _ _)).2, (read_request_id _).1,
      (read_request_id _).2⟩,
    ⟨(log_step_written (read_packet_step _ _)).2, (read_request_id _).1,
      (read_request_id _).2⟩, ?_, (read_request_id _).1⟩
  rw [set_config_rounds]
  split_ifs with c1 c2 c3 c4 c5 c6 c7 c8 c9 c10
  all_goals first
    | rfl
    | (exfalso; tauto)

/-! ## Accepted values on the wire -/

theorem change_req_cpi1 (p : xai_profile) (arg : List Char) :
    xai_profile_change_req p PROFILE_FIELD_CPI1 arg =
      if 100 ≤ strtoul arg ∧ strtoul arg ≤ 5001 then
        (RET_OK, { p with cpi := p.cpi.set 0 (to_ushort (strtoul arg)),
                          fields := (p.fields ||| PROFILE_FIELD_MASK) ||| PROFILE_FIELD_CPI1 })
      else (RET_OK, { p with fields := p.fields ||| PROFILE_FIELD_MASK }) := by
  simp +decide [xai_profile_change_req, XAI_MOUSE_CPI_MIN, XAI_MOUSE_CPI_MAX]

theorem change_req_cpi2 (p : xai_profile) (arg : List Char) :
    xai_profile_change_req p PROFILE_FIELD_CPI2 arg =
      if 100 ≤ strtoul arg ∧ strtoul arg ≤ 5001 then
        (RET_OK, { p with cpi := p.cpi.set 1 (to_ushort (strtoul arg)),
                          fields := (p.fields ||| PROFILE_FIELD_MASK) ||| PROFILE_FIELD_CPI2 })
      else (RET_OK, { p with fields := p.fields ||| PROFILE_FIELD_MASK }) := by
  simp +decide [xai_profile_change_req, XAI_MOUSE_CPI_MIN, XAI_MOUSE_CPI_MAX]

theorem change_req_rate (p : xai_profile) (arg : List Char) :
    xai_profile_change_req p PROFILE_FIELD_RATE arg =
      if 125 ≤ strtoul arg ∧ strtoul arg ≤ 1000 then
        (RET_OK, { p with rate := to_short (strtoul arg),
                          fields := (p.fields ||| PROFILE_FIELD_MASK) ||| PROFILE_FIELD_RATE })
      else (RET_OK, { p with fields := p.fields ||| PROFILE_FIELD_MASK }) := by
  simp +decide [xai_profile_change_req, XAI_MOUSE_RATE_MIN, XAI_MOUSE_RATE_MAX]

theorem change_req_accel (p : xai_profile) (arg : List Char) :
    xai_profile_change_req p PROFILE_FIELD_ACCEL arg =
      if strtoul arg ≤ 100 then
        (RET_OK, { p with accel := to_short (strtoul arg),
                          fields := (p.fields ||| PROFILE_FIELD_MASK) ||| PROFILE_FIELD_ACCEL })
      else (RET_OK, { p with fields := p.fields ||| PROFILE_FIELD_MASK }) := by
  simp +decide [xai_profile_change_req, XAI_MOUSE_ACCEL_MIN, XAI_MOUSE_ACCEL_MAX]

theorem change_req_lcd_brightness (p : xai_profile) (arg : List Char) :
    xai_profile_change_req p PROFILE_FIELD_LCD_BRIGHTNESS arg =
      if 1 ≤ strtoul arg ∧ strtoul arg ≤ 10 then
        (RET_OK, { p with lcd_brightness := to_short (strtoul arg),
                          fields := (p.fields ||| PROFILE_FIELD_MASK) |||
                            PROFILE_FIELD_LCD_BRIGHTNESS })
      else (RET_OK, { p with fields := p.fields ||| PROFILE_FIELD_MASK }) := by
  simp +decide [xai_profile_change_req, XAI_MOUSE_LCD_BRIGHTNESS_MIN,
    XAI_MOUSE_LCD_BRIGHTNESS_MAX]

theorem change_req_lcd_contrast (p : xai_profile) (arg : List Char) :
    xai_profile_change_req p PROFILE_FIELD_LCD_CONTRAST arg =
      if 1 ≤ strtoul arg ∧ strtoul arg ≤ 40 then
        (RET_OK, { p with lcd_contrast := to_short (strtoul arg),
                          fields := (p.fields ||| PROFILE_FIELD_MASK) |||
                            PROFILE_FIELD_LCD_CONTRAST })
      else (RET_OK, { p with fields := p.fields ||| PROFILE_FIELD_MASK }) := by
  simp +decide [xai_profile_change_req, XAI_MOUSE_LCD_CONTRAST_MIN,
    XAI_MOUSE_LCD_CONTRAST_MAX]

theorem field_present_lor (a f : Nat) : field_present (a ||| f) f = true := by
  simp [field_present, lor_land_self]

theorem to_short_small (n : Nat) (h : n < 32768) : to_short n = (n : Int) := by
  unfold to_short
  rw [if_pos (by omega)]
  congr 1
  omega

theorem short_to_u16_small (n : Nat) (h : n < 65536) : short_to_u16 (n : Int) = n := by
  unfold short_to_u16
  omega

theorem short_to_u8_small (n : Nat) (h : n < 256) : short_to_u8 (n : Int) = n := by
  unfold short_to_u8
  omega

theorem set_u8_get (m : List Nat) (off v : Nat) (h : off < m.length) :
    (set_u8 m off v).getD off 0 = v % 256 :=
  getD_set_eq _ _ _ h

theorem set_u16_get (m : List Nat) (off v : Nat) (h : off + 1 < m.length) :
    get_u16 (set_u16 m off v) off = v % 256 + 256 * (v / 256 % 256) := by
  unfold get_u16 set_u16
  rw [getD_set_ne _ _ _ _ (by omega), getD_set_eq _ _ _ (by omega),
    getD_set_eq _ _ _ (by simpa using h)]

theorem step_u8_get_u16 (c : Bool) (s : List Nat × Bool) (off v i : Nat)
    (h : i ≠ off ∧ i + 1 ≠ off) :
    get_u16 (if c = true then (set_u8 s.1 off v, true) else s).1 i = get_u16 s.1 i := by
  unfold get_u16
  rw [step_u8 _ _ _ _ _ (fun _ => h.1), step_u8 _ _ _ _ _ (fun _ => h.2)]

theorem step_u16_get_u16 (c : Bool) (s : List Nat × Bool) (off v i : Nat)
    (h : (i ≠ off ∧ i ≠ off + 1) ∧ (i + 1 ≠ off ∧ i + 1 ≠ off + 1)) :
    get_u16 (if c = true then (set_u16 s.1 off v, true) else s).1 i = get_u16 s.1 i := by
  unfold get_u16
  rw [step_u16 _ _ _ _ _ (fun _ => h.1), step_u16 _ _ _ _ _ (fun _ => h.2)]

theorem set_packet_get_u16 (s : List Nat × Bool) (i : Nat) (h : i ≠ 1 ∧ i + 1 ≠ 1) :
    get_u16 (set_packet s) i = get_u16 s.1 i := by
  unfold get_u16
  rw [set_packet_getD _ _ h.1, set_packet_getD _ _ h.2]

/-- The member `u.part1.rate` of the message after the part-1 block, when the
rate tests as present. -/
theorem part1_rate_member (p : xai_profile) (msg : List Nat) (hlen : msg.length = 64)
    (h : field_present p.fields PROFILE_FIELD_RATE = true) :
    get_u16 (set_config_part1 p msg).1 9 =
      short_to_u16 p.rate % 256 + 256 * (short_to_u16 p.rate / 256 % 256) := by
  unfold set_config_part1
  dsimp only
  rw [step_u8_get_u16 _ _ _ _ _ (by decide), step_u8_get_u16 _ _ _ _ _ (by decide),
    step_u8_get_u16 _ _ _ _ _ (by decide), step_u8_get_u16 _ _ _ _ _ (by decide),
    step_u8_get_u16 _ _ _ _ _ (by decide), if_pos h]
  exact set_u16_get _ _ _ (by omega)

/-- The member of `u.part1` at byte `off` after the part-1 block leaves the
byte as the step that assigns it wrote it: here for `aim` (byte 19). -/
theorem part1_aim_member (p : xai_profile) (msg : List Nat) (hlen : msg.length = 64)
    (h : field_present p.fields PROFILE_FIELD_AIM = true) :
    (set_config_part1 p msg).1.getD 19 0 = short_to_u8 p.aim % 256 := by
  unfold set_config_part1
  dsimp only
  rw [step_u8 _ _ _ _ _ (fun _ => by decide), step_u8 _ _ _ _ _ (fun _ => by decide),
    step_u8 _ _ _ _ _ (fun _ => by decide), step_u8 _ _ _ _ _ (fun _ => by decide), if_pos h]
  refine set_u8_get _ _ _ ?_
  have e := step_u16_length (field_present p.fields PROFILE_FIELD_RATE) (msg, false) 9
    (short_to_u16 p.rate)
  dsimp only at e
  omega

theorem part1_accel_member (p : xai_profile) (msg : List Nat) (hlen : msg.length = 64)
    (h : field_present p.fields PROFILE_FIELD_ACCEL = true) :
    (set_config_part1 p msg).1.getD 16 0 = short_to_u8 p.accel % 256 := by
  unfold set_config_part1
  dsimp only
  rw [step_u8 _ _ _ _ _ (fun _ => by decide), step_u8 _ _ _ _ _ (fun _ => by decide),
    step_u8 _ _ _ _ _ (fun _ => by decide), if_pos h]
  refine set_u8_get _ _ _ ?_
  rw [step_u8_length]
  have e := step_u16_length (field_present p.fields PROFILE_FIELD_RATE) (msg, false) 9
    (short_to_u16 p.rate)
  dsimp only at e
  omega

theorem part1_freemove_member (p : xai_profile) (msg : List Nat) (hlen : msg.length = 64)
    (h : field_present p.fields PROFILE_FIELD_FREEMOVE = true) :
    (set_config_part1 p msg).1.getD 18 0 = short_to_u8 p.freemove % 256 := by
  unfold set_config_part1
  dsimp only
  rw [step_u8 _ _ _ _ _ (fun _ => by decide), step_u8 _ _ _ _ _ (fun _ => by decide),
    if_pos h]
  refine set_u8_get _ _ _ ?_
  rw [step_u8_length, step_u8_length]
  have e := step_u16_length (field_present p.fields PROFILE_FIELD_RATE) (msg, false) 9
    (short_to_u16 p.rate)
  dsimp only at e
  omega

theorem part1_brightness_member (p : xai_profile) (msg : List Nat) (hlen : msg.length = 64)
    (h : field_present p.fields PROFILE_FIELD_LCD_BRIGHTNESS = true) :
    (set_config_part1 p msg).1.getD 20 0 = short_to_u8 p.lcd_brightness % 256 := by
  unfold set_config_part1
  dsimp only
  rw [step_u8 _ _ _ _ _ (fun _ => by decide), if_pos h]
  refine set_u8_get _ _ _ ?_
  rw [step_u8_length, step_u8_length, step_u8_length]
  have e := step_u16_length (field_present p.fields PROFILE_FIELD_RATE) (msg, false) 9
    (short_to_u16 p.rate)
  dsimp only at e
  omega

theorem part1_contrast_member (p : xai_profile) (msg : List Nat) (hlen : msg.length = 64)
    (h : field_present p.fields PROFILE_FIELD_LCD_CONTRAST = true) :
    (set_config_part1 p msg).1.getD 21 0 = short_to_u8 p.lcd_contrast % 256 := by
  unfold set_config_part1
  dsimp only
  rw [if_pos h]
  refine set_u8_get _ _ _ ?_
  rw [step_u8_length, step_u8_length, step_u8_length, step_u8_length]
  have e := step_u16_length (field_present p.fields PROFILE_FIELD_RATE) (msg, false) 9
    (short_to_u16 p.rate)
  dsimp only at e
  omega

theorem part2_cpi1_member (p : xai_profile) (msg : List Nat) (hlen : msg.length = 64)
    (h : field_present p.fields PROFILE_FIELD_CPI1 = true) :
    get_u16 (set_config_part2 p msg).1 6 =
      p.cpi.getD 0 0 % 256 + 256 * (p.cpi.getD 0 0 / 256 % 256) := by
  unfold set_config_part2
  dsimp only
  rw [step_u16_get_u16 _ _ _ _ _ (by decide), if_pos h]
  exact set_u16_get _ _ _ (by omega)

theorem part2_cpi2_member (p : xai_profile) (msg : List Nat) (hlen : msg.length = 64)
    (h : field_present p.fields PROFILE_FIELD_CPI2 = true) :
    get_u16 (set_config_part2 p msg).1 8 =
      p.cpi.getD 1 0 % 256 + 256 * (p.cpi.getD 1 0 / 256 % 256) := by
  unfold set_config_part2
  dsimp only
  rw [if_pos h]
  refine set_u16_get _ _ _ ?_
  have e := step_u16_length (field_present p.fields PROFILE_FIELD_CPI1) (msg, false) 6
    (p.cpi.getD 0 0)
  dsimp only at e
  omega

/-- C24: no accepted value is truncated on its way to the wire.  For every
numeric field and every argument whose parsed number `n` lies in the range of
the field, the value `xai_profile_change_req` stores is `n` (`0x64 + 5 * n` for
free-move and aim), it is below 65536 for CPI and rate and below 256 for the
other fields, and the member of the settings packet that
`xai_profile_set_config` builds from any 64-byte answer holds exactly that
value. -/
theorem accepted_values_reach_the_wire_unchanged (p : xai_profile) (hp : p.cpi.length = 2)
    (arg : List Char) (msg : List Nat) (hlen : msg.length = 64) :
    (100 ≤ strtoul arg ∧ strtoul arg ≤ 5001 →
      (xai_profile_change_req p PROFILE_FIELD_CPI1 arg).2.cpi.getD 0 0 = strtoul arg ∧
      strtoul arg < 65536 ∧
      get_u16 (set_packet (set_config_part2
        (xai_profile_change_req p PROFILE_FIELD_CPI1 arg).2 msg)) 6 = strtoul arg) ∧
    (100 ≤ strtoul arg ∧ strtoul arg ≤ 5001 →
      (xai_profile_change_req p PROFILE_FIELD_CPI2 arg).2.cpi.getD 1 0 = strtoul arg ∧
      strtoul arg < 65536 ∧
      get_u16 (set_packet (set_config_part2
        (xai_profile_change_req p PROFILE_FIELD_CPI2 arg).2 msg)) 8 = strtoul arg) ∧
    (125 ≤ strtoul arg ∧ strtoul arg ≤ 1000 →
      (xai_profile_change_req p PROFILE_FIELD_RATE arg).2.rate = (strtoul arg : Int) ∧
      strtoul arg < 65536 ∧
      get_u16 (set_packet (set_config_part1
        (xai_profile_change_req p PROFILE_FIELD_RATE arg).2 msg)) 9 = strtoul arg) ∧
    (strtoul arg ≤ 100 →
      (xai_profile_change_req p PROFILE_FIELD_ACCEL arg).2.accel = (strtoul arg : Int) ∧
      strtoul arg < 256 ∧
      (set_packet (set_config_part1
        (xai_profile_change_req p PROFILE_FIELD_ACCEL arg).2 msg)).getD 16 0 = strtoul arg) ∧
    (strtoul arg ≤ 10 →
      (xai_profile_change_req p PROFILE_FIELD_FREEMOVE arg).2.freemove =
        ((0x64 + 5 * strtoul arg : Nat) : Int) ∧
      0x64 + 5 * strtoul arg < 256 ∧
      (set_packet (set_config_part1
        (xai_profile_change_req p PROFILE_FIELD_FREEMOVE arg).2 msg)).getD 18 0 =
        0x64 + 5 * strtoul arg) ∧
    (strtoul arg ≤ 10 →
      (xai_profile_change_req p PROFILE_FIELD_AIM arg).2.aim =
        ((0x64 + 5 * strtoul arg : Nat) : Int) ∧
      0x64 + 5 * strtoul arg < 256 ∧
      (set_packet (set_config_part1
        (xai_profile_change_req p PROFILE_FIELD_AIM arg).2 msg)).getD 19 0 =
        0x64 + 5 * strtoul arg) ∧
    (1 ≤ strtoul arg ∧ strtoul arg ≤ 10 →
      (xai_profile_change_req p PROFILE_FIELD_LCD_BRIGHTNESS arg).2.lcd_brightness =
        (strtoul arg : Int) ∧
      strtoul arg < 256 ∧
      (set_packet (set_config_part1
        (xai_profile_change_req p PROFILE_FIELD_LCD_BRIGHTNESS arg).2 msg)).getD 20 0 =
        strtoul arg) ∧
    (1 ≤ strtoul arg ∧ strtoul arg ≤ 40 →
      (xai_profile_change_req p PROFILE_FIELD_LCD_CONTRAST arg).2.lcd_contrast =
        (strtoul arg : Int) ∧
      strtoul arg < 256 ∧
      (set_packet (set_config_part1
        (xai_profile_change_req p PROFILE_FIELD_LCD_CONTRAST arg).2 msg)).getD 21 0 =
        strtoul arg) := by
  refine ⟨?_, ?_, ?_, ?_, ?_, ?_, ?_, ?_⟩
  · intro h
    have hv : (p.cpi.set 0 (to_ushort (strtoul arg))).getD 0 0 = strtoul arg := by
      rw [getD_set_eq _ _ _ (by omega)]
      unfold to_ushort
      omega
    rw [change_req_cpi1, if_pos h]
    refine ⟨hv, by omega, ?_⟩
    rw [set_packet_get_u16 _ _ (by decide), part2_cpi1_member _ _ hlen (field_present_lor _ _)]
    show (p.cpi.set 0 (to_ushort (strtoul arg))).getD 0 0 % 256 +
      256 * ((p.cpi.set 0 (to_ushort (strtoul arg))).getD 0 0 / 256 % 256) = strtoul arg
    rw [hv]
    omega
  · intro h
    have hv : (p.cpi.set 1 (to_ushort (strtoul arg))).getD 1 0 = strtoul arg := by
      rw [getD_set_eq _ _ _ (by omega)]
      unfold to_ushort
      omega
    rw [change_req_cpi2, if_pos h]
    refine ⟨hv, by omega, ?_⟩
    rw [set_packet_get_u16 _ _ (by decide), part2_cpi2_member _ _ hlen (field_present_lor _ _)]
    show (p.cpi.set 1 (to_ushort (strtoul arg))).getD 1 0 % 256 +
      256 * ((p.cpi.set 1 (to_ushort (strtoul arg))).getD 1 0 / 256 % 256) = strtoul arg
    rw [hv]
    omega
  · intro h
    rw [change_req_rate, if_pos h]
    refine ⟨to_short_small _ (by omega), by omega, ?_⟩
    rw [set_packet_get_u16 _ _ (by decide), part1_rate_member _ _ hlen (field_present_lor _ _)]
    show short_to_u16 (to_short (strtoul arg)) % 256 +
      256 * (short_to_u16 (to_short (strtoul arg)) / 256 % 256) = strtoul arg
    rw [to_short_small _ (by omega), short_to_u16_small _ (by omega)]
    omega
  · intro h
    rw [change_req_accel, if_pos h]
    refine ⟨to_short_small _ (by omega), by omega, ?_⟩
    rw [set_packet_getD _ _ (by decide), part1_accel_member _ _ hlen (field_present_lor _ _)]
    show short_to_u8 (to_short (strtoul arg)) % 256 = strtoul arg
    rw [to_short_small _ (by omega), short_to_u8_small _ (by omega)]
    omega
  · intro h
    have e : 0x64 + strtoul arg * 5 = 0x64 + 5 * strtoul arg := by omega
    rw [change_req_freemove, if_pos h, e]
    refine ⟨to_short_small _ (by omega), by omega, ?_⟩
    rw [set_packet_getD _ _ (by decide), part1_freemove_member _ _ hlen (field_present_lor _ _)]
    show short_to_u8 (to_short (0x64 + 5 * strtoul arg)) % 256 = 0x64 + 5 * strtoul arg
    rw [to_short_small _ (by omega), short_to_u8_small _ (by omega)]
    omega
  · intro h
    have e : 0x64 + strtoul arg * 5 = 0x64 + 5 * strtoul arg := by omega
    rw [change_req_aim, if_pos h, e]
    refine ⟨to_short_small _ (by omega), by omega, ?_⟩
    rw [set_packet_getD _ _ (by decide), part1_aim_member _ _ hlen (field_present_lor _ _)]
    show short_to_u8 (to_short (0x64 + 5 * strtoul arg)) % 256 = 0x64 + 5 * strtoul arg
    rw [to_short_small _ (by omega), short_to_u8_small _ (by omega)]
    omega
  · intro h
    rw [change_req_lcd_brightness, if_pos h]
    refine ⟨to_short_small _ (by omega), by omega, ?_⟩
    rw [set_packet_getD _ _ (by decide),
      part1_brightness_member _ _ hlen (field_present_lor _ _)]
    show short_to_u8 (to_short (strtoul arg)) % 256 = strtoul arg
    rw [to_short_small _ (by omega), short_to_u8_small _ (by omega)]
    omega
  · intro h
    rw [change_req_lcd_contrast, if_pos h]
    refine ⟨to_short_small _ (by omega), by omega, ?_⟩
    rw [set_packet_getD _ _ (by decide),
      part1_contrast_member _ _ hlen (field_present_lor _ _)]
    show short_to_u8 (to_short (strtoul arg)) % 256 = strtoul arg
    rw [to_short_small _ (by omega), short_to_u8_small _ (by omega)]
    omega

/-- C24 (witness): the largest CPI, 5001, entered for CPI1 in the empty update
and written into the answer of the device that answers every transfer: the
member `cpi1` of the settings packet is 5001. -/
theorem accepted_values_reach_the_wire_unchanged_witness :
    empty_profile.cpi.length = 2 ∧ pong_packet.length = 64 ∧
    (100 ≤ strtoul "5001".toList ∧ strtoul "5001".toList ≤ 5001) ∧
    (xai_profile_change_req empty_profile PROFILE_FIELD_CPI1 "5001".toList).2.cpi.getD 0 0 =
      strtoul "5001".toList ∧
    get_u16 (set_packet (set_config_part2
      (xai_profile_change_req empty_profile PROFILE_FIELD_CPI1 "5001".toList).2
        pong_packet)) 6 = strtoul "5001".toList ∧
    strtoul "5001".toList = 5001 :=
  have w := (accepted_values_reach_the_wire_unchanged empty_profile (by decide)
    "5001".toList pong_packet (by decide)).1 (by decide)
  ⟨by decide, by decide, by decide, w.1, w.2.2, by decide⟩

end Xaictl
